import Mathlib

/-!
Verification development for the FightLab AI backend (Node/Express server).

The definitions below are a shallow embedding of the server's own logic,
translated function-by-function from the JavaScript source (the final,
base64 version of the server; file references use that file's line
numbers).  JavaScript objects are modelled as ordered association lists
(JS preserves insertion order), JS numbers as exact rationals (every
numeric literal in the source is a small decimal; float rounding is never
observable at the values involved), and thrown exceptions as the `.error`
case of `Except String`.  `undefined` and `null` are distinct values, as
in JS.
-/

namespace FightLab

/-! ## JS string `includes` (substring test) -/

/-- `pat` occurs as a contiguous substring of the given character list
(the semantics of JS `String.prototype.includes`). -/
def listIncludes (pat : List Char) : List Char → Bool
  | [] => pat.isEmpty
  | c :: t => pat.isPrefixOf (c :: t) || listIncludes pat t

/-- JS `s.includes(pat)`. -/
def strIncludes (s pat : String) : Bool :=
  listIncludes pat.data s.data

/-- JS `s.toLowerCase()` (ASCII case fold, as used by the role strings). -/
def lowerStr (s : String) : String :=
  ⟨s.data.map Char.toLower⟩

/-! ## `getUserRoleType` (source lines 58-74) -/

/-- Translation of `getUserRoleType(userRole)`: classifies the free-text
role into "fighter" / "coach" / "study" by case-insensitive substring
checks, in source order, defaulting to "fighter".  A missing field is
`none`; the empty string is falsy in JS, hence also the default. -/
def getUserRoleType (userRole : Option String) : String :=
  match userRole with
  | none => "fighter"
  | some r =>
    if r = "" then "fighter"
    else
      if strIncludes (lowerStr r) "preparing to fight" || strIncludes (lowerStr r) "fighter" then
        "fighter"
      else if strIncludes (lowerStr r) "coach" then
        "coach"
      else if strIncludes (lowerStr r) "study" || strIncludes (lowerStr r) "analysis"
          || strIncludes (lowerStr r) "general" then
        "study"
      else "fighter"

/-! ## `calculateVideoRoundConstraints` (source lines 100-115) -/

structure VideoRoundConstraints where
  maxRounds : ℚ
  videoDurationMinutes : ℚ
  canDetermineRounds : Bool
  deriving DecidableEq, Repr

/-- Translation of `calculateVideoRoundConstraints(videoDurationSeconds)`.
`!videoDurationSeconds || videoDurationSeconds <= 0` collapses to:
missing, zero, or negative.  `Math.ceil` is `Int.ceil`, `Math.round`
rounds half away from zero upward, matching Mathlib `round` on the
nonnegative values reachable here. -/
def calculateVideoRoundConstraints (videoDurationSeconds : Option ℚ) : VideoRoundConstraints :=
  match videoDurationSeconds with
  | none => ⟨1, 0, false⟩
  | some s =>
    if s ≤ 0 then ⟨1, 0, false⟩
    else
      let minutes := s / 60
      ⟨max 1 ((⌈minutes / 4⌉ : ℤ) : ℚ), ((round (minutes * 10) : ℤ) : ℚ) / 10, true⟩

/-! ## Request configuration

Only the fields consumed by the analysis pipeline are modelled; each is
optional exactly as an absent JS property. -/

structure Config where
  analysisType : Option String := none
  userRole : Option String := none
  userFightRounds : Option ℚ := none
  videoRounds : Option ℚ := none
  videoDuration : Option ℚ := none
  fighter1Name : Option String := none
  fighter2Name : Option String := none

/-- JS `x || d` for an optional numeric field (`0` is falsy). -/
def jsOrQ (x : Option ℚ) (d : ℚ) : ℚ :=
  match x with
  | none => d
  | some q => if q = 0 then d else q

/-- JS `x || d` for an optional string field (`""` is falsy). -/
def jsOrS (x : Option String) (d : String) : String :=
  match x with
  | none => d
  | some s => if s = "" then d else s

/-- The `videoRounds` value embedded in the prompt by `buildClaudePrompt`
(source lines 627-631, identically lines 133-134 of the both-fighters
prompt): the claimed round count, defaulted to 3, clamped to the
duration-derived maximum. -/
def promptVideoRounds (cfg : Config) : ℚ :=
  min (jsOrQ cfg.videoRounds 3) (calculateVideoRoundConstraints cfg.videoDuration).maxRounds

/-- The raw round count used by the Report Normalizer
(`validateAndFixAnalysisData`, source line 1451): no duration clamp. -/
def normalizerVideoRounds (cfg : Config) : ℚ :=
  jsOrQ cfg.videoRounds 3

/-! ## Frame selection in `analyzeWithClaude` (source lines 1102-1121) -/

/-- Cap on images sent to the model: `Math.min(frames.length, 20)`. -/
def maxFramesFor (n : Nat) : Nat := min n 20

/-- Stride: `Math.max(1, Math.floor(frames.length / maxFrames))`. -/
def frameStepFor (n : Nat) : Nat := max 1 (n / maxFramesFor n)

/-- The source loop
`for (let i = 0; i < frames.length && frameCount < maxFrames; i += step)`,
as fuelled structural recursion (the loop runs at most `maxFrames` times
because `frameCount` increments on every iteration). -/
def selectFramesLoop (n maxFrames step : Nat) : Nat → Nat → Nat → List Nat
  | 0, _, _ => []
  | fuel + 1, i, frameCount =>
    if i < n ∧ frameCount < maxFrames then
      i :: selectFramesLoop n maxFrames step fuel (i + step) (frameCount + 1)
    else []

/-- Indices of the frames `analyzeWithClaude` sends to the model, out of
`n` supplied frames. -/
def selectedFrameIndices (n : Nat) : List Nat :=
  selectFramesLoop n (maxFramesFor n) (frameStepFor n) (maxFramesFor n) 0 0

/-! ## Model-call error classification (source lines 1156-1181) -/

/-- The message of the `Error` thrown by `analyzeWithClaude`'s catch
block: `AbortError` first, then HTTP status 429 / 400 / {500,502,503},
else the generic prefix.  `errorMessage` is `apiError.message ||
'Unknown API error'`. -/
def claudeErrorMessage (isAbort : Bool) (status : Option ℤ) (message : Option String) : String :=
  let errorMessage := jsOrS message "Unknown API error"
  if isAbort then
    "TIMEOUT: Analysis took too long (12+ minutes). Please try again - the AI service may be experiencing high load."
  else if status = some 429 then
    "API_RATE_LIMIT: The service is temporarily busy. Please try again in a few minutes."
  else if status = some 400 then
    "API_BAD_REQUEST: Invalid request to AI service. " ++ errorMessage
  else if status = some 500 ∨ status = some 502 ∨ status = some 503 then
    "API_SERVICE_ERROR: AI service is temporarily unavailable. Please try again later."
  else
    "API_ERROR: " ++ errorMessage

/-- Refund reason written by `processAnalysis`'s catch block
(source lines 2354-2366): substring routing over the error message. -/
def processRefundReason (m : String) : String :=
  if strIncludes m "TIMEOUT" then
    "Analysis timed out - please try with a shorter video or fewer frames"
  else if strIncludes m "API_RATE_LIMIT" then
    "Service temporarily busy - please try again in a few minutes"
  else if strIncludes m "API_SERVICE_ERROR" then
    "AI service temporarily unavailable - please try again later"
  else if strIncludes m "API_BAD_REQUEST" then
    "Invalid video format - please ensure the video is valid"
  else if strIncludes m "JSON" then
    "Analysis response was invalid - please try again"
  else
    "Server error during analysis - please try again"

/-- Refund reason written by the `.catch` attached to `processAnalysis`
in the `/analyze` handler (source lines 2251-2264); it runs after
`processAnalysis` rethrows, overwriting the previous reason. -/
def analyzeCatchRefundReason (m : String) : String :=
  if strIncludes m "TIMEOUT" then
    "Analysis timed out - please try with a shorter video"
  else
    "Server error during analysis"

/-! ## JSON values

Model of the JS values flowing through the Report Normalizer.  Objects
are ordered association lists (JS objects preserve insertion order);
`undef` is JS `undefined` (the result of reading an absent property),
distinct from JSON `null`.  Numbers are exact rationals: every numeric
literal in the source is a small decimal, so double rounding never
distinguishes the values involved. -/

inductive Json where
  | null
  | undef
  | bool (b : Bool)
  | num (q : ℚ)
  | str (s : String)
  | arr (elems : List Json)
  | obj (fields : List (String × Json))

/-- JS truthiness: `undefined`, `null`, `false`, `0`, and `""` are falsy;
every object and array is truthy. -/
def truthy : Json → Bool
  | .null => false
  | .undef => false
  | .bool b => b
  | .num q => q ≠ 0
  | .str s => s ≠ ""
  | .arr _ => true
  | .obj _ => true

/-- First binding of a key in an object's field list, if present. -/
def lookupField : List (String × Json) → String → Option Json
  | [], _ => none
  | (k, v) :: t, key => if k = key then some v else lookupField t key

/-- Property read on an object: the bound value, or `undefined`. -/
def objGet (fields : List (String × Json)) (key : String) : Json :=
  (lookupField fields key).getD Json.undef

/-- Property write: JS updates the existing slot in place (keeping its
position) or appends a new one. -/
def setField : List (String × Json) → String → Json → List (String × Json)
  | [], key, v => [(key, v)]
  | (k, w) :: t, key, v => if k = key then (key, v) :: t else (k, w) :: setField t key v

/-- Property deletion (`delete o.k`): removes the binding if present. -/
def delField : List (String × Json) → String → List (String × Json)
  | [], _ => []
  | (k, w) :: t, key => if k = key then t else (k, w) :: delField t key

/-- JS property read `o[k]`.  Reading from `null`/`undefined` throws a
`TypeError`; primitives yield `undefined` (except the built-in `length`
of strings and arrays, which the source reads on values it has not
type-checked). -/
def getProp : Json → String → Except String Json
  | .null, key => .error ("TypeError: Cannot read properties of null (reading " ++ key ++ ")")
  | .undef, key => .error ("TypeError: Cannot read properties of undefined (reading " ++ key ++ ")")
  | .str s, key => .ok (if key = "length" then .num s.length else .undef)
  | .arr elems, key => .ok (if key = "length" then .num elems.length else .undef)
  | .obj fields, key => .ok (objGet fields key)
  | _, _ => .ok Json.undef

/-- JS property write `o[k] = v`.  Writing to `null`/`undefined` throws;
writing a property of another primitive is a silent no-op (the server
runs in non-strict CommonJS mode). -/
def setProp : Json → String → Json → Except String Json
  | .null, key, _ => .error ("TypeError: Cannot set properties of null (setting " ++ key ++ ")")
  | .undef, key, _ => .error ("TypeError: Cannot set properties of undefined (setting " ++ key ++ ")")
  | .obj fields, key, v => .ok (.obj (setField fields key v))
  | other, _, _ => .ok other

/-- JS `delete o.k` for the one site that uses it (on a value already
known truthy); no-op on non-objects. -/
def delProp : Json → String → Json
  | .obj fields, key => .obj (delField fields key)
  | other, _ => other

/-- `typeof v === 'object'` (true for `null`, arrays and objects). -/
def typeofObject : Json → Bool
  | .null => true
  | .arr _ => true
  | .obj _ => true
  | _ => false

/-- The `ensureArray` helper (source line 1456): keep a real array,
otherwise substitute the default.  Returns the element list. -/
def ensureArray (v : Json) (defaultArr : List Json) : List Json :=
  match v with
  | .arr elems => elems
  | _ => defaultArr

/-- Longest leading digit run of a character list, as a number. -/
def takeDigits (cs : List Char) : Nat × Nat × List Char :=
  match cs with
  | [] => (0, 0, [])
  | c :: t =>
    if c.isDigit then
      let (v, len, rest) := takeDigits t
      ((c.toNat - 48) * 10 ^ len + v, len + 1, rest)
    else (0, 0, cs)

/-- JS `parseFloat` on a string, restricted to plain decimal numerals
(optional sign, digits, optional fraction) — the only numeric shapes the
model is instructed to emit.  `none` is `NaN`. -/
def jsParseFloat (s : String) : Option ℚ :=
  let cs := s.data.dropWhile Char.isWhitespace
  let (sign, cs) : ℚ × List Char :=
    match cs with
    | '-' :: t => (-1, t)
    | '+' :: t => (1, t)
    | _ => (1, cs)
  let (ip, ilen, rest) := takeDigits cs
  match rest with
  | '.' :: frac =>
    let (fp, flen, _) := takeDigits frac
    if ilen = 0 ∧ flen = 0 then none
    else some (sign * ((ip : ℚ) + (fp : ℚ) / 10 ^ flen))
  | _ =>
    if ilen = 0 then none else some (sign * (ip : ℚ))

/-- The `ensureNumber` helper (source lines 1458-1463): keep a number,
else `parseFloat` the value (only strings can parse; `parseFloat` of any
other JS value reachable here is `NaN`), else the default. -/
def ensureNumber (v : Json) (defaultVal : ℚ) : Json :=
  match v with
  | .num q => .num q
  | .str s =>
    match jsParseFloat s with
    | some q => .num q
    | none => .num defaultVal
  | _ => .num defaultVal

/-- The `ensureString` helper (source line 1466): keep a string, else the
default. -/
def ensureString (v : Json) (defaultVal : String) : Json :=
  match v with
  | .str s => .str s
  | _ => .str defaultVal

/-- `x || null` (used for the `statistics` / `frequency` slots). -/
def jsOrNull (v : Json) : Json :=
  if truthy v then v else .null

/-- `x.length === 0` as the source applies it to an un-type-checked
value: only a real array or string has a numeric `length` (otherwise the
comparison is `undefined === 0`, i.e. false). -/
def lengthIsZero : Json → Bool
  | .arr elems => elems.isEmpty
  | .str s => s.isEmpty
  | _ => false

/-- `x.length < n` on an un-type-checked value: false unless `x` has a
numeric `length` (otherwise `undefined < n` is false). -/
def lengthLtQ : Json → ℚ → Bool
  | .arr elems, n => decide ((elems.length : ℚ) < n)
  | .str s, n => decide ((s.length : ℚ) < n)
  | _, _ => false

/-- Iteration count of `for (let i = 1; i <= n; i++)` for a JS number
`n`: `⌊n⌋` clamped at zero. -/
def roundCount (n : ℚ) : Nat := (⌊n⌋).toNat

/-- The `o.k = []; for (...) o.k.push(e)` pattern.  Each `push` re-reads
`o.k`; on a non-object `o` the preceding `o.k = []` was a silent no-op,
so the first `push` throws. -/
def pushAll (container : Json) (key : String) (items : List Json) : Except String Json :=
  if items.isEmpty then .ok container
  else do
    let cur ← getProp container key
    match cur with
    | .arr elems => setProp container key (.arr (elems ++ items))
    | .undef => .error ("TypeError: Cannot read properties of undefined (reading push of " ++ key ++ ")")
    | _ => .error ("TypeError: " ++ key ++ ".push is not a function")

/-! ## Default sub-objects of `validateAndFixAnalysisData`
(single-fighter path, source lines 1592-1884), transcribed literally. -/

def defaultFighterIdentification (cfg : Config) : Json :=
  .obj [("confirmedName", .str (jsOrS cfg.fighter1Name "Unknown Fighter")),
        ("visualIdentifiers", .str "Fighter identified based on provided description"),
        ("confidenceLevel", .str "Medium")]

def defaultExecutiveSummary : Json :=
  .obj [("overallScore", .num 70),
        ("summary", .str "Analysis completed."),
        ("keyFindings", .arr [.str "Analysis data available"]),
        ("recommendedApproach", .str "Review the detailed analysis sections.")]

def defaultFightingStyleBreakdown : Json :=
  .obj [("primaryStyle", .str "Mixed Martial Artist"),
        ("stance", .str "Orthodox"),
        ("secondarySkills", .arr []),
        ("baseMartialArts", .arr [.str "MMA"]),
        ("styleDescription", .str "Fighter shows mixed martial arts abilities."),
        ("secondaryAttributes", .arr [.str "Balanced Skillset", .str "Adaptable", .str "Well-Rounded"]),
        ("comparableFighters", .arr []),
        ("tacticalTendencies", .arr [])]

def defaultStrikeBreakdown : Json :=
  .obj [("jabs", .num 0), ("crosses", .num 0), ("hooks", .num 0), ("uppercuts", .num 0),
        ("kicks", .num 0), ("knees", .num 0), ("elbows", .num 0)]

def defaultStrikeAnalysis : Json :=
  .obj [("accuracy", .num 50), ("volume", .num 0), ("powerScore", .num 50), ("techniqueScore", .num 50),
        ("breakdown", defaultStrikeBreakdown),
        ("patterns", .arr []), ("recommendations", .arr [])]

def defaultGrapplingAnalysis : Json :=
  .obj [("takedownAccuracy", .num 50), ("takedownDefense", .num 50), ("controlTime", .num 0),
        ("submissionAttempts", .num 0), ("techniques", .arr []), ("recommendations", .arr [])]

def defaultDefenseAnalysis : Json :=
  .obj [("headMovement", .num 50), ("footwork", .num 50), ("blockingRate", .num 50),
        ("counterStrikeRate", .num 50), ("vulnerabilities", .arr []), ("improvements", .arr [])]

def defaultCardioAnalysis : Json :=
  .obj [("roundByRound", .arr []),
        ("overallStamina", .num 70),
        ("fatigueIndicators", .arr []),
        ("recommendations", .arr [])]

def defaultFightIQ : Json :=
  .obj [("overallScore", .num 70), ("decisionMaking", .num 70), ("adaptability", .num 70),
        ("strategyExecution", .num 70), ("keyObservations", .arr []), ("improvements", .arr [])]

def defaultStrengthsWeaknesses : Json :=
  .obj [("strengths", .arr [.obj [("title", .str "To be analyzed"),
                                  ("description", .str "Complete analysis for details"),
                                  ("score", .num 70),
                                  ("statistics", .null)]]),
        ("weaknesses", .arr [.obj [("title", .str "To be analyzed"),
                                   ("description", .str "Complete analysis for details"),
                                   ("severity", .num 50),
                                   ("exploitablePattern", .str ""),
                                   ("frequency", .null),
                                   ("exploitationStrategy", .str "See detailed analysis")]]),
        ("opportunitiesToExploit", .arr [])]

def defaultMistakePatterns : Json :=
  .obj [("patterns", .arr [])]

def defaultCounterStrategy : Json :=
  .obj [("bestCounter", .obj [("style", .str "Balanced approach"), ("reason", .str "Adapt based on opponent")]),
        ("secondBestCounter", .obj [("style", .str "Pressure fighting"), ("reason", .str "Test their cardio")]),
        ("thirdBestCounter", .obj [("style", .str "Counter striking"), ("reason", .str "Exploit openings")]),
        ("techniquesToEmphasize", .arr [])]

def defaultGamePlanBase : Json :=
  .obj [("overallStrategy", .str "Implement a balanced game plan."),
        ("roundByRound", .arr []),
        ("roundGamePlans", .arr []),
        ("keyTactics", .arr []),
        ("thingsToAvoid", .arr [])]

/-- Synthetic `gamePlan.roundByRound` entry for round `i`
(source lines 1772-1777). -/
def gamePlanRoundEntry (i : Nat) : Json :=
  .obj [("roundNumber", .num i),
        ("objective", .str ("Round " ++ toString i ++ " objective")),
        ("tactics", .arr [.str "Stay focused", .str "Execute game plan"]),
        ("keyFocus", .str "Maintain composure")]

def gamePlanRoundsList (n : ℚ) : List Json :=
  (List.range (roundCount n)).map (fun j => gamePlanRoundEntry (j + 1))

/-- Synthetic `gamePlan.roundGamePlans` entry for round `i` in the
single-fighter path (source lines 1784-1790; note `planA.switchTrigger`
reads "If not working, switch" here). -/
def roundGamePlanEntry (i : Nat) : Json :=
  .obj [("roundNumber", .num i),
        ("title", .str ("Round " ++ toString i ++ " Strategy")),
        ("planA", .obj [("name", .str "Primary Plan"), ("goal", .str "Execute strategy"),
                        ("tactics", .arr [.str "Stay focused"]),
                        ("successIndicators", .arr [.str "Landing strikes"]),
                        ("switchTrigger", .str "If not working, switch")]),
        ("planB", .obj [("name", .str "Backup Plan"), ("goal", .str "Adjust approach"),
                        ("tactics", .arr [.str "Change rhythm"]),
                        ("successIndicators", .arr [.str "Creating openings"]),
                        ("switchTrigger", .str "If needed")]),
        ("planC", .obj [("name", .str "Emergency Plan"), ("goal", .str "Survive and recover"),
                        ("tactics", .arr [.str "Clinch and control"]),
                        ("successIndicators", .arr [.str "Regaining composure"]),
                        ("switchTrigger", .null)])]

def roundGamePlansList (n : ℚ) : List Json :=
  (List.range (roundCount n)).map (fun j => roundGamePlanEntry (j + 1))

def defaultMidFightAdjustments : Json :=
  .obj [("adjustments", .arr [])]

def defaultTrainingRecommendations : Json :=
  .obj [("priorityDrills", .arr []), ("sparringFocus", .arr []), ("conditioning", .arr [])]

def defaultKeyInsights : Json :=
  .obj [("criticalObservations", .arr []), ("winConditions", .arr []), ("riskFactors", .arr []),
        ("finalRecommendation", .str "Focus on your strengths and stay disciplined."),
        ("confidenceLevel", .str "Medium")]

/-- Synthetic `cardioAnalysis.roundByRound` entry (single-fighter path,
source lines 1693-1695). -/
def cardioRoundEntry (i : Nat) : Json :=
  .obj [("roundNumber", .num i), ("outputLevel", .num 80), ("staminaScore", .num 80),
        ("notes", .str ("Round " ++ toString i ++ " performance"))]

def cardioRoundsList (n : ℚ) : List Json :=
  (List.range (roundCount n)).map (fun j => cardioRoundEntry (j + 1))

/-- Synthetic `roundByRoundMetrics.rounds` entry (source lines
1866-1883; identical literal in `validateSingleFighterAnalysis`). -/
def metricsRoundEntry (i : Nat) : Json :=
  .obj [("roundNumber", .num i),
        ("outputLevel", .num 75),
        ("notes", .str ("Round " ++ toString i)),
        ("striking", .obj [("strikesLanded", .num 10), ("strikesAttempted", .num 20),
                           ("accuracy", .num 50), ("significantStrikes", .num 5),
                           ("powerStrikes", .num 3), ("headStrikes", .num 4),
                           ("bodyStrikes", .num 3), ("legStrikes", .num 3), ("knockdowns", .num 0)]),
        ("grappling", .obj [("takedownsLanded", .num 0), ("takedownsAttempted", .num 1),
                            ("takedownAccuracy", .num 0), ("takedownsDefended", .num 0),
                            ("takedownDefenseRate", .num 50), ("controlTimeSeconds", .num 0),
                            ("submissionAttempts", .num 0), ("reversals", .num 0)]),
        ("defense", .obj [("strikesAbsorbed", .num 10), ("strikesAvoided", .num 50),
                          ("headMovementSuccess", .num 50), ("takedownsDefended", .num 0),
                          ("escapes", .num 0)])]

def metricsRoundsList (n : ℚ) : List Json :=
  (List.range (roundCount n)).map (fun j => metricsRoundEntry (j + 1))

/-! ## `validateAndFixAnalysisData` — single-fighter path

The function body is a flat sequence of per-section paragraphs; each
paragraph below is one `…Block` definition, and the main function is
their composition in source order.  In-place mutation of a section
object is modelled by reading the property, transforming the value, and
writing it back (equivalent for object inputs; writes to primitives are
silent no-ops exactly as in non-strict JS). -/

/-- Section paragraph for `fighterIdentification` (lines 1592-1603). -/
def fiBlock (cfg : Config) (d : Json) : Except String Json := do
  let fi ← getProp d "fighterIdentification"
  if truthy fi then do
    let fi ← setProp fi "confirmedName"
      (ensureString (← getProp fi "confirmedName") (jsOrS cfg.fighter1Name "Unknown"))
    let fi ← setProp fi "visualIdentifiers"
      (ensureString (← getProp fi "visualIdentifiers") "Based on description")
    let fi ← setProp fi "confidenceLevel"
      (ensureString (← getProp fi "confidenceLevel") "Medium")
    setProp d "fighterIdentification" fi
  else
    setProp d "fighterIdentification" (defaultFighterIdentification cfg)

/-- Section paragraph for `executiveSummary` (lines 1607-1619). -/
def execBlock (d : Json) : Except String Json := do
  let es ← getProp d "executiveSummary"
  if truthy es then do
    let es ← setProp es "overallScore" (ensureNumber (← getProp es "overallScore") 70)
    let es ← setProp es "summary" (ensureString (← getProp es "summary") "Analysis completed.")
    let es ← setProp es "keyFindings"
      (.arr (ensureArray (← getProp es "keyFindings") [.str "Analysis data available"]))
    let es ← setProp es "recommendedApproach"
      (ensureString (← getProp es "recommendedApproach") "See details.")
    setProp d "executiveSummary" es
  else
    setProp d "executiveSummary" defaultExecutiveSummary

/-- Section paragraph for `fightingStyleBreakdown` (lines 1622-1638). -/
def styleBlock (d : Json) : Except String Json := do
  let fsb ← getProp d "fightingStyleBreakdown"
  if truthy fsb then do
    let fsb ← setProp fsb "secondaryAttributes"
      (.arr (ensureArray (← getProp fsb "secondaryAttributes") [.str "Balanced Skillset"]))
    let fsb ← setProp fsb "comparableFighters"
      (.arr (ensureArray (← getProp fsb "comparableFighters") []))
    let fsb ← setProp fsb "tacticalTendencies"
      (.arr (ensureArray (← getProp fsb "tacticalTendencies") []))
    setProp d "fightingStyleBreakdown" fsb
  else
    setProp d "fightingStyleBreakdown" defaultFightingStyleBreakdown

/-- Section paragraph for `strikeAnalysis` (lines 1641-1657). -/
def strikeBlock (d : Json) : Except String Json := do
  let sa ← getProp d "strikeAnalysis"
  if truthy sa then do
    let sa ← setProp sa "accuracy" (ensureNumber (← getProp sa "accuracy") 50)
    let sa ← setProp sa "volume" (ensureNumber (← getProp sa "volume") 0)
    let sa ← setProp sa "powerScore" (ensureNumber (← getProp sa "powerScore") 50)
    let sa ← setProp sa "techniqueScore" (ensureNumber (← getProp sa "techniqueScore") 50)
    let bd ← getProp sa "breakdown"
    let sa ← if truthy bd then pure sa else setProp sa "breakdown" defaultStrikeBreakdown
    let sa ← setProp sa "patterns" (.arr (ensureArray (← getProp sa "patterns") []))
    let sa ← setProp sa "recommendations" (.arr (ensureArray (← getProp sa "recommendations") []))
    setProp d "strikeAnalysis" sa
  else
    setProp d "strikeAnalysis" defaultStrikeAnalysis

/-- Section paragraph for `grapplingAnalysis` (lines 1660-1670). -/
def grapplingBlock (d : Json) : Except String Json := do
  let ga ← getProp d "grapplingAnalysis"
  if truthy ga then do
    let ga ← setProp ga "takedownAccuracy" (ensureNumber (← getProp ga "takedownAccuracy") 50)
    let ga ← setProp ga "takedownDefense" (ensureNumber (← getProp ga "takedownDefense") 50)
    let ga ← setProp ga "controlTime" (ensureNumber (← getProp ga "controlTime") 0)
    let ga ← setProp ga "submissionAttempts" (ensureNumber (← getProp ga "submissionAttempts") 0)
    setProp d "grapplingAnalysis" ga
  else
    setProp d "grapplingAnalysis" defaultGrapplingAnalysis

/-- Section paragraph for `defenseAnalysis` (lines 1673-1678):
default-if-absent only. -/
def defenseBlock (d : Json) : Except String Json := do
  let da ← getProp d "defenseAnalysis"
  if truthy da then pure d
  else setProp d "defenseAnalysis" defaultDefenseAnalysis

/-- Section paragraph for `cardioAnalysis` (lines 1681-1697): default if
absent, then regenerate `roundByRound` only when missing or empty. -/
def cardioBlock (videoRounds : ℚ) (d : Json) : Except String Json := do
  let ca ← getProp d "cardioAnalysis"
  let d ← if truthy ca then pure d else setProp d "cardioAnalysis" defaultCardioAnalysis
  let ca ← getProp d "cardioAnalysis"
  let rb ← getProp ca "roundByRound"
  if truthy rb = false ∨ lengthIsZero rb then do
    let ca ← setProp ca "roundByRound" (.arr [])
    let ca ← pushAll ca "roundByRound" (cardioRoundsList videoRounds)
    setProp d "cardioAnalysis" ca
  else pure d

/-- Section paragraph for `fightIQ` (lines 1700-1705). -/
def fightIQBlock (d : Json) : Except String Json := do
  let fi ← getProp d "fightIQ"
  if truthy fi then pure d
  else setProp d "fightIQ" defaultFightIQ

/-- Rebuild of one `strengths` entry (lines 1716-1721).  Throws on a
`null`/`undefined` element, as the property reads do in JS. -/
def strengthEntryFix (s : Json) : Except String Json := do
  let title ← getProp s "title"
  let description ← getProp s "description"
  let score ← getProp s "score"
  let statistics ← getProp s "statistics"
  pure (.obj [("title", ensureString title "Strength"),
              ("description", ensureString description ""),
              ("score", ensureNumber score 70),
              ("statistics", jsOrNull statistics)])

/-- Rebuild of one `weaknesses` entry (lines 1723-1730). -/
def weaknessEntryFix (w : Json) : Except String Json := do
  let title ← getProp w "title"
  let description ← getProp w "description"
  let severity ← getProp w "severity"
  let exploitablePattern ← getProp w "exploitablePattern"
  let frequency ← getProp w "frequency"
  let exploitationStrategy ← getProp w "exploitationStrategy"
  pure (.obj [("title", ensureString title "Weakness"),
              ("description", ensureString description ""),
              ("severity", ensureNumber severity 50),
              ("exploitablePattern", ensureString exploitablePattern ""),
              ("frequency", jsOrNull frequency),
              ("exploitationStrategy", ensureString exploitationStrategy "")])

/-- Section paragraph for `strengthsWeaknesses` (lines 1708-1730):
default if absent, then unconditionally rebuild both entry lists. -/
def swBlock (d : Json) : Except String Json := do
  let sw ← getProp d "strengthsWeaknesses"
  let d ← if truthy sw then pure d else setProp d "strengthsWeaknesses" defaultStrengthsWeaknesses
  let sw ← getProp d "strengthsWeaknesses"
  let strengths ← (ensureArray (← getProp sw "strengths") []).mapM strengthEntryFix
  let sw ← setProp sw "strengths" (.arr strengths)
  let weaknesses ← (ensureArray (← getProp sw "weaknesses") []).mapM weaknessEntryFix
  let sw ← setProp sw "weaknesses" (.arr weaknesses)
  setProp d "strengthsWeaknesses" sw

/-- Rebuild of one `mistakePatterns.patterns` entry (lines 1736-1740). -/
def mistakeEntryFix (p : Json) : Except String Json := do
  let pat ← getProp p "pattern"
  let frequency ← getProp p "frequency"
  let severity ← getProp p "severity"
  pure (.obj [("pattern", ensureString pat ""),
              ("frequency", ensureNumber frequency 1),
              ("severity", ensureString severity "medium")])

/-- Section paragraph for `mistakePatterns` (lines 1733-1740). -/
def mistakeBlock (d : Json) : Except String Json := do
  let mp ← getProp d "mistakePatterns"
  let d ← if truthy mp then pure d else setProp d "mistakePatterns" defaultMistakePatterns
  let mp ← getProp d "mistakePatterns"
  let patterns ← (ensureArray (← getProp mp "patterns") []).mapM mistakeEntryFix
  let mp ← setProp mp "patterns" (.arr patterns)
  setProp d "mistakePatterns" mp

/-- Section paragraph for `counterStrategy` (lines 1743-1750). -/
def counterBlock (d : Json) : Except String Json := do
  let cs ← getProp d "counterStrategy"
  if truthy cs then pure d
  else setProp d "counterStrategy" defaultCounterStrategy

/-- Conversion of one `thingsToAvoid` item (lines 1795-1813): objects
with a truthy `avoidance` are normalized field-by-field, plain strings
are upgraded to the three-field shape, anything else passes through.
`typeof null === 'object'`, so a `null` item reaches the `item.avoidance`
read and throws. -/
def thingToAvoidFix (item : Json) : Except String Json := do
  let isObjWithAvoidance ←
    if typeofObject item then do
      let av ← getProp item "avoidance"
      pure (truthy av)
    else pure false
  if isObjWithAvoidance then do
    let av ← getProp item "avoidance"
    let reason ← getProp item "reason"
    let alternative ← getProp item "alternative"
    pure (.obj [("avoidance", ensureString av "Unknown avoidance"),
                ("reason", ensureString reason "This pattern was identified as a vulnerability based on video analysis."),
                ("alternative", ensureString alternative "Adjust your approach based on opponent reaction and reset when necessary.")])
  else
    match item with
    | .str s =>
      pure (.obj [("avoidance", .str s),
                  ("reason", .str "This pattern was identified as a vulnerability based on video analysis."),
                  ("alternative", .str "Adjust your approach based on opponent reaction and reset when necessary.")])
    | _ => pure item

/-- First sizing step of the `gamePlan` paragraph (lines 1769-1779):
regenerate `roundByRound` when missing or shorter than `userRounds`. -/
def gpSizeRoundByRound (userRounds : ℚ) (gp0 : Json) : Except String Json := do
  let rbr ← getProp gp0 "roundByRound"
  if truthy rbr = false ∨ lengthLtQ rbr userRounds then do
    let gp ← setProp gp0 "roundByRound" (.arr [])
    pushAll gp "roundByRound" (gamePlanRoundsList userRounds)
  else pure gp0

/-- Second sizing step (lines 1780-1792): regenerate `roundGamePlans`
when missing or shorter than `userRounds`. -/
def gpSizeRoundGamePlans (userRounds : ℚ) (gp0 : Json) : Except String Json := do
  let rgp ← getProp gp0 "roundGamePlans"
  if truthy rgp = false ∨ lengthLtQ rgp userRounds then do
    let gp ← setProp gp0 "roundGamePlans" (.arr [])
    pushAll gp "roundGamePlans" (roundGamePlansList userRounds)
  else pure gp0

/-- Legacy-format upgrade step (lines 1793-1814): rebuild each
`thingsToAvoid` item when the field is an array. -/
def gpFixThingsToAvoid (gp0 : Json) : Except String Json := do
  let tta ← getProp gp0 "thingsToAvoid"
  match tta with
  | .arr items => do
    let items ← items.mapM thingToAvoidFix
    setProp gp0 "thingsToAvoid" (.arr items)
  | _ => pure gp0

/-- The sizing-and-upgrade tail of the `gamePlan` paragraph (lines
1768-1814), applied to the (truthy) game plan `gp0` of record `d`. -/
def gamePlanSizing (userRounds : ℚ) (d gp0 : Json) : Except String Json := do
  let gp ← gpSizeRoundByRound userRounds gp0
  let gp ← gpSizeRoundGamePlans userRounds gp
  let gp ← gpFixThingsToAvoid gp
  setProp d "gamePlan" gp

/-- Section paragraph for `gamePlan` (lines 1753-1815): null under the
study role, default otherwise; then (non-study, truthy game plan only)
the sizing-and-upgrade tail. -/
def gamePlanBlock (isStudyMode : Bool) (userRounds : ℚ) (d : Json) : Except String Json := do
  let gp ← getProp d "gamePlan"
  let d ← if truthy gp then pure d
    else setProp d "gamePlan" (if isStudyMode then .null else defaultGamePlanBase)
  if isStudyMode then pure d
  else do
    let gp ← getProp d "gamePlan"
    if truthy gp = false then pure d
    else gamePlanSizing userRounds d gp

/-- Rebuild of one `midFightAdjustments.adjustments` entry
(lines 1826-1829). -/
def adjustmentEntryFix (a : Json) : Except String Json := do
  let ifCondition ← getProp a "ifCondition"
  let thenAction ← getProp a "thenAction"
  pure (.obj [("ifCondition", ensureString ifCondition "If opponent adjusts"),
              ("thenAction", ensureString thenAction "Then counter-adjust")])

/-- Section paragraph for `midFightAdjustments` (lines 1818-1830). -/
def midFightBlock (isStudyMode : Bool) (d : Json) : Except String Json := do
  let mfa ← getProp d "midFightAdjustments"
  let d ← if truthy mfa then pure d
    else setProp d "midFightAdjustments" (if isStudyMode then .null else defaultMidFightAdjustments)
  if isStudyMode then pure d
  else do
    let mfa ← getProp d "midFightAdjustments"
    if truthy mfa = false then pure d
    else do
      let adjustments ← (ensureArray (← getProp mfa "adjustments") []).mapM adjustmentEntryFix
      let mfa ← setProp mfa "adjustments" (.arr adjustments)
      setProp d "midFightAdjustments" mfa

/-- Section paragraph for `trainingRecommendations` (lines 1833-1843). -/
def trainingBlock (isStudyMode : Bool) (d : Json) : Except String Json := do
  let tr ← getProp d "trainingRecommendations"
  if truthy tr then pure d
  else setProp d "trainingRecommendations" (if isStudyMode then .null else defaultTrainingRecommendations)

/-- Section paragraph for `keyInsights` (lines 1846-1858). -/
def keyInsightsBlock (isStudyMode : Bool) (d : Json) : Except String Json := do
  let ki ← getProp d "keyInsights"
  if truthy ki then pure d
  else setProp d "keyInsights" (if isStudyMode then .null else defaultKeyInsights)

/-- Section paragraph for `roundByRoundMetrics` (lines 1861-1884):
default if absent, regenerate `rounds` when missing or shorter than the
video round count. -/
def metricsBlock (videoRounds : ℚ) (d : Json) : Except String Json := do
  let m ← getProp d "roundByRoundMetrics"
  let d ← if truthy m then pure d
    else setProp d "roundByRoundMetrics" (.obj [("rounds", .arr [])])
  let m ← getProp d "roundByRoundMetrics"
  let rounds ← getProp m "rounds"
  if truthy rounds = false ∨ lengthLtQ rounds videoRounds then do
    let m ← setProp m "rounds" (.arr [])
    let m ← pushAll m "rounds" (metricsRoundsList videoRounds)
    setProp d "roundByRoundMetrics" m
  else pure d

/-! ## `validateSingleFighterAnalysis` (source lines 1295-1442)

Used only by the both-fighters mode; every section is default-if-absent
(no field-level patching), plus the two round-array regenerations. -/

def bfFighterIdentification (fighterName : String) : Json :=
  .obj [("confirmedName", .str fighterName),
        ("visualIdentifiers", .str "Identified based on description"),
        ("confidenceLevel", .str "Medium"),
        ("observedStyle", .str "Mixed"),
        ("declaredBackground", .str "Not specified"),
        ("styleMismatch", .bool false)]

def bfExecutiveSummary (fighterName : String) : Json :=
  .obj [("overallScore", .num 70),
        ("summary", .str ("Analysis of " ++ fighterName)),
        ("keyFindings", .arr [.str "Analysis data available"]),
        ("recommendedApproach", .str "See detailed analysis")]

def bfFightingStyleBreakdown (fighterName : String) : Json :=
  .obj [("primaryStyle", .str "Mixed Martial Artist"),
        ("stance", .str "Orthodox"),
        ("secondarySkills", .arr []),
        ("baseMartialArts", .arr [.str "MMA"]),
        ("styleDescription", .str (fighterName ++ " shows mixed martial arts abilities.")),
        ("secondaryAttributes", .arr []),
        ("comparableFighters", .arr []),
        ("tacticalTendencies", .arr [])]

def bfStrengthsWeaknesses : Json :=
  .obj [("strengths", .arr [.obj [("title", .str "To be analyzed"),
                                  ("description", .str "See details"),
                                  ("score", .num 70),
                                  ("statistics", .null)]]),
        ("weaknesses", .arr [.obj [("title", .str "To be analyzed"),
                                   ("description", .str "See details"),
                                   ("severity", .num 50),
                                   ("exploitablePattern", .str ""),
                                   ("frequency", .null),
                                   ("exploitationStrategy", .str "")]]),
        ("opportunitiesToExploit", .arr [])]

/-- Synthetic cardio round entry in `validateSingleFighterAnalysis`
(lines 1377-1379; note the notes text lacks " performance" here). -/
def bfCardioRoundEntry (i : Nat) : Json :=
  .obj [("roundNumber", .num i), ("outputLevel", .num 80), ("staminaScore", .num 80),
        ("notes", .str ("Round " ++ toString i))]

def bfCardioRoundsList (n : ℚ) : List Json :=
  (List.range (roundCount n)).map (fun j => bfCardioRoundEntry (j + 1))

/-- Translation of `validateSingleFighterAnalysis(data, fighterName,
videoRounds)`. -/
def validateSingleFighterAnalysis (fighterName : String) (videoRounds : ℚ) (d : Json) :
    Except String Json := do
  let fi ← getProp d "fighterIdentification"
  let d ← if truthy fi then pure d
    else setProp d "fighterIdentification" (bfFighterIdentification fighterName)
  let es ← getProp d "executiveSummary"
  let d ← if truthy es then pure d
    else setProp d "executiveSummary" (bfExecutiveSummary fighterName)
  let fsb ← getProp d "fightingStyleBreakdown"
  let d ← if truthy fsb then pure d
    else setProp d "fightingStyleBreakdown" (bfFightingStyleBreakdown fighterName)
  let sa ← getProp d "strikeAnalysis"
  let d ← if truthy sa then pure d else setProp d "strikeAnalysis" defaultStrikeAnalysis
  let ga ← getProp d "grapplingAnalysis"
  let d ← if truthy ga then pure d else setProp d "grapplingAnalysis" defaultGrapplingAnalysis
  let da ← getProp d "defenseAnalysis"
  let d ← if truthy da then pure d else setProp d "defenseAnalysis" defaultDefenseAnalysis
  let ca ← getProp d "cardioAnalysis"
  let d ← if truthy ca then pure d else setProp d "cardioAnalysis" defaultCardioAnalysis
  let ca ← getProp d "cardioAnalysis"
  let rb ← getProp ca "roundByRound"
  let d ←
    if truthy rb = false ∨ lengthIsZero rb then do
      let ca ← setProp ca "roundByRound" (.arr [])
      let ca ← pushAll ca "roundByRound" (bfCardioRoundsList videoRounds)
      setProp d "cardioAnalysis" ca
    else pure d
  let fiq ← getProp d "fightIQ"
  let d ← if truthy fiq then pure d else setProp d "fightIQ" defaultFightIQ
  let sw ← getProp d "strengthsWeaknesses"
  let d ← if truthy sw then pure d else setProp d "strengthsWeaknesses" bfStrengthsWeaknesses
  let mp ← getProp d "mistakePatterns"
  let d ← if truthy mp then pure d else setProp d "mistakePatterns" defaultMistakePatterns
  let cs ← getProp d "counterStrategy"
  let d ← if truthy cs then pure d else setProp d "counterStrategy" defaultCounterStrategy
  let m ← getProp d "roundByRoundMetrics"
  let d ← if truthy m then pure d
    else setProp d "roundByRoundMetrics" (.obj [("rounds", .arr [])])
  let m ← getProp d "roundByRoundMetrics"
  let rounds ← getProp m "rounds"
  if truthy rounds = false ∨ lengthLtQ rounds videoRounds then do
    let m ← setProp m "rounds" (.arr [])
    let m ← pushAll m "rounds" (metricsRoundsList videoRounds)
    setProp d "roundByRoundMetrics" m
  else pure d

/-! ## `validateAndFixAnalysisData` — both-fighters path
(source lines 1469-1589) -/

def defaultOpponentPreparation : Json :=
  .obj [("keyDangers", .arr []), ("tacticalAdjustments", .arr []),
        ("preparationGuidance", .arr []), ("similarStyleGuidance", .null)]

def defaultMatchupAnalysis : Json :=
  .obj [("summary", .str "Matchup analysis not available"),
        ("keyMatchups", .arr []),
        ("criticalMoments", .arr []),
        ("opponentPreparation", defaultOpponentPreparation)]

/-- Synthetic `roundGamePlans` entry in the both-fighters shared game
plan (lines 1553-1559; `planA.switchTrigger` reads "If not working"
here, without the ", switch" of the single-fighter variant). -/
def bfRoundGamePlanEntry (i : Nat) : Json :=
  .obj [("roundNumber", .num i),
        ("title", .str ("Round " ++ toString i ++ " Strategy")),
        ("planA", .obj [("name", .str "Primary Plan"), ("goal", .str "Execute strategy"),
                        ("tactics", .arr [.str "Stay focused"]),
                        ("successIndicators", .arr [.str "Landing strikes"]),
                        ("switchTrigger", .str "If not working")]),
        ("planB", .obj [("name", .str "Backup Plan"), ("goal", .str "Adjust approach"),
                        ("tactics", .arr [.str "Change rhythm"]),
                        ("successIndicators", .arr [.str "Creating openings"]),
                        ("switchTrigger", .str "If needed")]),
        ("planC", .obj [("name", .str "Emergency Plan"), ("goal", .str "Survive and recover"),
                        ("tactics", .arr [.str "Clinch and control"]),
                        ("successIndicators", .arr [.str "Regaining composure"]),
                        ("switchTrigger", .null)])]

def bfRoundGamePlansList (n : ℚ) : List Json :=
  (List.range (roundCount n)).map (fun j => bfRoundGamePlanEntry (j + 1))

/-- The eleven analysis sections the both-fighters path copies from the
top level into `fighter1Analysis` when the model ignored the nested
schema (lines 1511-1513), in source order. -/
def topLevelAnalysisFields : List String :=
  ["executiveSummary", "fightingStyleBreakdown", "strikeAnalysis",
   "grapplingAnalysis", "defenseAnalysis", "cardioAnalysis", "fightIQ",
   "strengthsWeaknesses", "mistakePatterns", "counterStrategy", "fighterIdentification"]

/-- One iteration of the top-level copy loop (lines 1515-1521):
`if (data[field] && !data.fighter1Analysis[field]) copy`. -/
def copyTopLevelField (d : Json) (field : String) : Except String Json := do
  let dv ← getProp d field
  if truthy dv then do
    let f1 ← getProp d "fighter1Analysis"
    let f1v ← getProp f1 field
    if truthy f1v then pure d
    else do
      let f1 ← setProp f1 field dv
      setProp d "fighter1Analysis" f1
  else pure d

/-- The both-fighters branch of `validateAndFixAnalysisData`. -/
def validateBothMode (cfg : Config) (data : Json) : Except String Json := do
  let userRounds := jsOrQ cfg.userFightRounds 3
  let videoRounds := jsOrQ cfg.videoRounds 3
  let isStudyMode := getUserRoleType cfg.userRole = "study"
  let f1 ← getProp data "fighter1Analysis"
  let d ← if truthy f1 then pure data else setProp data "fighter1Analysis" (.obj [])
  let f2 ← getProp d "fighter2Analysis"
  let d ← if truthy f2 then pure d else setProp d "fighter2Analysis" (.obj [])
  let ma ← getProp d "matchupAnalysis"
  let d ← if truthy ma then pure d else setProp d "matchupAnalysis" defaultMatchupAnalysis
  let ma ← getProp d "matchupAnalysis"
  let d ←
    if truthy ma then do
      let op ← getProp ma "opponentPreparation"
      if truthy op then pure d
      else do
        let ma ← setProp ma "opponentPreparation" defaultOpponentPreparation
        let ma := delProp ma "predictedWinner"
        let ma := delProp ma "winProbability"
        let ma := delProp ma "likelyOutcome"
        let ma := delProp ma "predictionReasoning"
        setProp d "matchupAnalysis" ma
    else pure d
  let d ← topLevelAnalysisFields.foldlM copyTopLevelField d
  let f1 ← getProp d "fighter1Analysis"
  let f1 ← validateSingleFighterAnalysis (jsOrS cfg.fighter1Name "Fighter 1") videoRounds f1
  let d ← setProp d "fighter1Analysis" f1
  let f2 ← getProp d "fighter2Analysis"
  let f2 ← validateSingleFighterAnalysis (jsOrS cfg.fighter2Name "Fighter 2") videoRounds f2
  let d ← setProp d "fighter2Analysis" f2
  let gp ← getProp d "gamePlan"
  let d ←
    if truthy gp then pure d
    else if isStudyMode then setProp d "gamePlan" .null
    else do
      let d ← setProp d "gamePlan" defaultGamePlanBase
      let gp ← getProp d "gamePlan"
      let gp ← pushAll gp "roundByRound" (gamePlanRoundsList userRounds)
      let gp ← pushAll gp "roundGamePlans" (bfRoundGamePlansList userRounds)
      setProp d "gamePlan" gp
  let mfa ← getProp d "midFightAdjustments"
  let d ← if truthy mfa then pure d
    else setProp d "midFightAdjustments" (if isStudyMode then .null else defaultMidFightAdjustments)
  let tr ← getProp d "trainingRecommendations"
  let d ← if truthy tr then pure d
    else setProp d "trainingRecommendations" (if isStudyMode then .null else defaultTrainingRecommendations)
  let ki ← getProp d "keyInsights"
  let d ← if truthy ki then pure d
    else setProp d "keyInsights" (if isStudyMode then .null else defaultKeyInsights)
  pure d

/-! ## `validateAndFixAnalysisData` (source lines 1449-1888) -/

/-- The Report Normalizer: dispatches to the both-fighters branch on
`config.analysisType === 'both'`, otherwise runs the single-fighter
section paragraphs in source order. -/
def validateAndFixAnalysisData (cfg : Config) (data : Json) : Except String Json :=
  let userRounds := jsOrQ cfg.userFightRounds 3
  let videoRounds := normalizerVideoRounds cfg
  let isStudyMode := getUserRoleType cfg.userRole = "study"
  if cfg.analysisType = some "both" then validateBothMode cfg data
  else
    fiBlock cfg data >>= execBlock >>= styleBlock >>= strikeBlock >>= grapplingBlock >>=
      defenseBlock >>= cardioBlock videoRounds >>= fightIQBlock >>= swBlock >>=
      mistakeBlock >>= counterBlock >>= gamePlanBlock isStudyMode userRounds >>=
      midFightBlock isStudyMode >>= trainingBlock isStudyMode >>=
      keyInsightsBlock isStudyMode >>= metricsBlock videoRounds

/-- The normalized report when normalization succeeds (`Json.null`
otherwise); convenience accessor used to instantiate theorems at
concrete inputs. -/
def runNormalizer (cfg : Config) (data : Json) : Json :=
  match validateAndFixAnalysisData cfg data with
  | .ok r => r
  | .error _ => .null

/-! ## Job lifecycle (`POST /analyze` handler and `processAnalysis`,
source lines 2216-2372)

Exactly one background task mutates a job's record, in program order, so
the set of states a job record passes through is a single trace fixed by
the outcome of the model call.  Values the server reads from its
environment (the generated id, clock timestamps, the normalized config)
are parameters. -/

inductive JobStatus where
  | processing
  | completed
  | failed
  deriving DecidableEq, Repr

structure JobRecord where
  status : JobStatus
  progress : ℚ
  report : Option Json
  error : Option String
  shouldRefund : Option Bool
  refundReason : Option String
  hasFrames : Bool

/-- Environment-derived values of one submission. -/
structure SubmissionContext where
  analysisId : String
  normalizedConfig : Json
  createdAt : String
  completedAt : String

/-- Spread of `...analysisData` into an object literal. -/
def spreadFields : Json → List (String × Json)
  | .obj fields => fields
  | _ => []

/-- The `completeReport` object assembled on success (source lines
2323-2330). -/
def completeReport (ctx : SubmissionContext) (analysisData : Json) : Json :=
  .obj ([("id", .str ctx.analysisId),
         ("config", ctx.normalizedConfig),
         ("createdAt", .str ctx.createdAt),
         ("completedAt", .str ctx.completedAt),
         ("status", .str "Completed")] ++ spreadFields analysisData)

/-- Job record created by the `/analyze` handler (lines 2241-2248). -/
def submittedJob : JobRecord :=
  { status := .processing, progress := 0, report := none, error := none,
    shouldRefund := none, refundReason := none, hasFrames := true }

/-- Terminal record written by `processAnalysis`'s catch block
(lines 2348-2369). -/
def failedInnerJob (e : String) : JobRecord :=
  { status := .failed, progress := 30, report := none, error := some e,
    shouldRefund := some true, refundReason := some (processRefundReason e),
    hasFrames := false }

/-- Record after the `/analyze` handler's `.catch` fires on the rethrown
error (lines 2251-2264), overwriting the refund reason. -/
def failedOuterJob (e : String) : JobRecord :=
  { status := .failed, progress := 30, report := none, error := some e,
    shouldRefund := some true, refundReason := some (analyzeCatchRefundReason e),
    hasFrames := false }

/-- The successive states of one job record, in mutation order.  On
success: submission, progress 10, progress 30, progress 90, completion
(report attached, frames dropped).  On failure (the model call is the
only throwing step, after the progress-30 write): the inner catch then
the outer `.catch` on the rethrown error. -/
def jobTrace (ctx : SubmissionContext) (outcome : Except String Json) : List JobRecord :=
  [submittedJob,
   { submittedJob with progress := 10 },
   { submittedJob with progress := 30 }] ++
  match outcome with
  | .ok analysisData =>
    [{ submittedJob with progress := 90 },
     { status := .completed, progress := 100,
       report := some (completeReport ctx analysisData), error := none,
       shouldRefund := none, refundReason := none, hasFrames := false }]
  | .error e => [failedInnerJob e, failedOuterJob e]

/-- A status is terminal when it is `completed` or `failed`. -/
def JobStatus.isTerminal : JobStatus → Bool
  | .processing => false
  | _ => true

/-- The terminal-state exclusivity invariant of a job record: exactly
the combination of `report` / `error` presence dictated by `status`. -/
def exclusiveRecord (j : JobRecord) : Prop :=
  (j.status = .completed → (∃ r, j.report = some r) ∧ j.error = none) ∧
  (j.status = .failed → (∃ e, j.error = some e) ∧ j.report = none) ∧
  (j.status = .processing → j.report = none ∧ j.error = none)

/-! ## Validity predicates for the idempotence analysis

A report is *fully populated / correctly typed* when every section the
normalizer inspects is present with the primitive types the prompt's
JSON schema prescribes (object keys in the schema's order, which is the
order the model is instructed to emit and the order the normalizer's
rebuilds produce).  `truthy`-or-`null` is required exactly for the two
slots the source passes through `x || null`. -/

def truthyOrNull (v : Json) : Bool :=
  match v with
  | .null => true
  | v => truthy v

def validStrengthEntry : Json → Bool
  | .obj [("title", .str _), ("description", .str _), ("score", .num _), ("statistics", st)] =>
    truthyOrNull st
  | _ => false

def validWeaknessEntry : Json → Bool
  | .obj [("title", .str _), ("description", .str _), ("severity", .num _),
          ("exploitablePattern", .str _), ("frequency", fr), ("exploitationStrategy", .str _)] =>
    truthyOrNull fr
  | _ => false

def validMistakeEntry : Json → Bool
  | .obj [("pattern", .str _), ("frequency", .num _), ("severity", .str _)] => true
  | _ => false

def validAdjustmentEntry : Json → Bool
  | .obj [("ifCondition", .str _), ("thenAction", .str _)] => true
  | _ => false

def validThingToAvoidEntry : Json → Bool
  | .obj [("avoidance", .str a), ("reason", .str _), ("alternative", .str _)] => a ≠ ""
  | _ => false

def validFighterIdentification (v : Json) : Bool :=
  match v with
  | .obj fs =>
    (match lookupField fs "confirmedName" with | some (.str _) => true | _ => false) &&
    (match lookupField fs "visualIdentifiers" with | some (.str _) => true | _ => false) &&
    (match lookupField fs "confidenceLevel" with | some (.str _) => true | _ => false)
  | _ => false

def validExecutiveSummary (v : Json) : Bool :=
  match v with
  | .obj fs =>
    (match lookupField fs "overallScore" with | some (.num _) => true | _ => false) &&
    (match lookupField fs "summary" with | some (.str _) => true | _ => false) &&
    (match lookupField fs "keyFindings" with | some (.arr _) => true | _ => false) &&
    (match lookupField fs "recommendedApproach" with | some (.str _) => true | _ => false)
  | _ => false

def validFightingStyleBreakdown (v : Json) : Bool :=
  match v with
  | .obj fs =>
    (match lookupField fs "secondaryAttributes" with | some (.arr _) => true | _ => false) &&
    (match lookupField fs "comparableFighters" with | some (.arr _) => true | _ => false) &&
    (match lookupField fs "tacticalTendencies" with | some (.arr _) => true | _ => false)
  | _ => false

def validStrikeAnalysis (v : Json) : Bool :=
  match v with
  | .obj fs =>
    (match lookupField fs "accuracy" with | some (.num _) => true | _ => false) &&
    (match lookupField fs "volume" with | some (.num _) => true | _ => false) &&
    (match lookupField fs "powerScore" with | some (.num _) => true | _ => false) &&
    (match lookupField fs "techniqueScore" with | some (.num _) => true | _ => false) &&
    (match lookupField fs "breakdown" with | some b => truthy b | _ => false) &&
    (match lookupField fs "patterns" with | some (.arr _) => true | _ => false) &&
    (match lookupField fs "recommendations" with | some (.arr _) => true | _ => false)
  | _ => false

def validGrapplingAnalysis (v : Json) : Bool :=
  match v with
  | .obj fs =>
    (match lookupField fs "takedownAccuracy" with | some (.num _) => true | _ => false) &&
    (match lookupField fs "takedownDefense" with | some (.num _) => true | _ => false) &&
    (match lookupField fs "controlTime" with | some (.num _) => true | _ => false) &&
    (match lookupField fs "submissionAttempts" with | some (.num _) => true | _ => false)
  | _ => false

def validCardioAnalysis (v : Json) : Bool :=
  match v with
  | .obj fs =>
    match lookupField fs "roundByRound" with
    | some (.arr elems) => !elems.isEmpty
    | _ => false
  | _ => false

def validStrengthsWeaknesses (v : Json) : Bool :=
  match v with
  | .obj fs =>
    (match lookupField fs "strengths" with
     | some (.arr es) => es.all validStrengthEntry
     | _ => false) &&
    (match lookupField fs "weaknesses" with
     | some (.arr es) => es.all validWeaknessEntry
     | _ => false)
  | _ => false

def validMistakePatterns (v : Json) : Bool :=
  match v with
  | .obj fs =>
    match lookupField fs "patterns" with
    | some (.arr es) => es.all validMistakeEntry
    | _ => false
  | _ => false

def validGamePlan (isStudyMode : Bool) (userRounds : ℚ) (v : Json) : Bool :=
  if isStudyMode then
    match v with
    | .null => true
    | v => truthy v
  else
    match v with
    | .obj fs =>
      (match lookupField fs "roundByRound" with
       | some (.arr es) => decide (userRounds ≤ (es.length : ℚ))
       | _ => false) &&
      (match lookupField fs "roundGamePlans" with
       | some (.arr es) => decide (userRounds ≤ (es.length : ℚ))
       | _ => false) &&
      (match lookupField fs "thingsToAvoid" with
       | some (.arr es) => es.all validThingToAvoidEntry
       | _ => false)
    | _ => false

def validMidFightAdjustments (isStudyMode : Bool) (v : Json) : Bool :=
  if isStudyMode then
    match v with
    | .null => true
    | v => truthy v
  else
    match v with
    | .obj fs =>
      match lookupField fs "adjustments" with
      | some (.arr es) => es.all validAdjustmentEntry
      | _ => false
    | _ => false

def validNullable (isStudyMode : Bool) (v : Json) : Bool :=
  if isStudyMode then
    match v with
    | .null => true
    | v => truthy v
  else truthy v

def validMetrics (videoRounds : ℚ) (v : Json) : Bool :=
  match v with
  | .obj fs =>
    match lookupField fs "rounds" with
    | some (.arr es) => decide (videoRounds ≤ (es.length : ℚ))
    | _ => false
  | _ => false

/-- Full validity of a single-fighter report, relative to the
configuration's round counts and role. -/
def validReportSingle (isStudyMode : Bool) (userRounds videoRounds : ℚ) : Json → Bool
  | .obj fs =>
    validFighterIdentification (objGet fs "fighterIdentification") &&
    validExecutiveSummary (objGet fs "executiveSummary") &&
    validFightingStyleBreakdown (objGet fs "fightingStyleBreakdown") &&
    validStrikeAnalysis (objGet fs "strikeAnalysis") &&
    validGrapplingAnalysis (objGet fs "grapplingAnalysis") &&
    truthy (objGet fs "defenseAnalysis") &&
    validCardioAnalysis (objGet fs "cardioAnalysis") &&
    truthy (objGet fs "fightIQ") &&
    validStrengthsWeaknesses (objGet fs "strengthsWeaknesses") &&
    validMistakePatterns (objGet fs "mistakePatterns") &&
    truthy (objGet fs "counterStrategy") &&
    validGamePlan isStudyMode userRounds (objGet fs "gamePlan") &&
    validMidFightAdjustments isStudyMode (objGet fs "midFightAdjustments") &&
    validNullable isStudyMode (objGet fs "trainingRecommendations") &&
    validNullable isStudyMode (objGet fs "keyInsights") &&
    validMetrics videoRounds (objGet fs "roundByRoundMetrics")
  | _ => false

/-- Validity of one fighter's nested analysis in both-fighters mode:
all eleven sections present and truthy, a non-empty cardio round array,
and at least `videoRounds` metric rounds. -/
def validBothFighter (videoRounds : ℚ) (v : Json) : Bool :=
  match v with
  | .obj fs =>
    truthy (objGet fs "fighterIdentification") &&
    truthy (objGet fs "executiveSummary") &&
    truthy (objGet fs "fightingStyleBreakdown") &&
    truthy (objGet fs "strikeAnalysis") &&
    truthy (objGet fs "grapplingAnalysis") &&
    truthy (objGet fs "defenseAnalysis") &&
    validCardioAnalysis (objGet fs "cardioAnalysis") &&
    truthy (objGet fs "fightIQ") &&
    truthy (objGet fs "strengthsWeaknesses") &&
    truthy (objGet fs "mistakePatterns") &&
    truthy (objGet fs "counterStrategy") &&
    validMetrics videoRounds (objGet fs "roundByRoundMetrics")
  | _ => false

def validMatchupAnalysis (v : Json) : Bool :=
  match v with
  | .obj fs => truthy (objGet fs "opponentPreparation")
  | _ => false

/-- Full validity of a both-fighters report: nested fighter sections
valid, the matchup migration already done, no stray top-level analysis
sections (a fully normalized report nests them), and the shared
role-gated sections present. -/
def validReportBoth (isStudyMode : Bool) (videoRounds : ℚ) : Json → Bool
  | .obj fs =>
    validBothFighter videoRounds (objGet fs "fighter1Analysis") &&
    validBothFighter videoRounds (objGet fs "fighter2Analysis") &&
    validMatchupAnalysis (objGet fs "matchupAnalysis") &&
    topLevelAnalysisFields.all (fun k => (lookupField fs k).isNone) &&
    validNullable isStudyMode (objGet fs "gamePlan") &&
    validNullable isStudyMode (objGet fs "midFightAdjustments") &&
    validNullable isStudyMode (objGet fs "trainingRecommendations") &&
    validNullable isStudyMode (objGet fs "keyInsights")
  | _ => false

/-- Validity of a report for a given configuration: the mode dispatch of
`validateAndFixAnalysisData` applied to the matching predicate. -/
def validReport (cfg : Config) (data : Json) : Bool :=
  let isStudyMode := getUserRoleType cfg.userRole = "study"
  if cfg.analysisType = some "both" then
    validReportBoth isStudyMode (jsOrQ cfg.videoRounds 3) data
  else
    validReportSingle isStudyMode (jsOrQ cfg.userFightRounds 3) (jsOrQ cfg.videoRounds 3) data


/-- Value of `cardioAnalysis` after the paragraph inserts the default
and regenerates its empty `roundByRound`. -/
def cardioFilled (videoRounds : ℚ) : Json :=
  .obj [("roundByRound", .arr (cardioRoundsList videoRounds)),
        ("overallStamina", .num 70),
        ("fatigueIndicators", .arr []),
        ("recommendations", .arr [])]

/-- Value of `roundByRoundMetrics` after the paragraph inserts the
default and regenerates its empty `rounds`. -/
def metricsFilled (videoRounds : ℚ) : Json :=
  .obj [("rounds", .arr (metricsRoundsList videoRounds))]

/-- Value of `gamePlan` after the paragraph inserts the default and
fills both round arrays (non-study roles). -/
def gamePlanFilled (userRounds : ℚ) : Json :=
  .obj [("overallStrategy", .str "Implement a balanced game plan."),
        ("roundByRound", .arr (gamePlanRoundsList userRounds)),
        ("roundGamePlans", .arr (roundGamePlansList userRounds)),
        ("keyTactics", .arr []),
        ("thingsToAvoid", .arr [])]


/-- Field list of a present `gamePlan` object after the two sizing
steps, when its `thingsToAvoid` slot is not an array. -/
def gamePlanSizedFields (userRounds : ℚ) (ggs : List (String × Json))
    (xs ys : List Json) : List (String × Json) :=
  let g1 := if lengthLtQ (.arr xs) userRounds then
    setField ggs "roundByRound" (.arr (gamePlanRoundsList userRounds)) else ggs
  if lengthLtQ (.arr ys) userRounds then
    setField g1 "roundGamePlans" (.arr (roundGamePlansList userRounds)) else g1


/-- Length of the array at `result.k1.k2`, when that path exists. -/
def arrLenAt (j : Json) (k1 k2 : String) : Option Nat :=
  match j with
  | .obj fs =>
    match objGet fs k1 with
    | .obj cfs =>
      match objGet cfs k2 with
      | .arr xs => some xs.length
      | _ => none
    | _ => none
  | _ => none

/-- Concrete configurations used to instantiate the theorems. -/
def cfgStudyW : Config := { userRole := some "General study / Analysis" }

def cfgRounds52 : Config := { userFightRounds := some 5, videoRounds := some 2 }

def cfgClaimed12 : Config := { videoRounds := some 12, videoDuration := some 300 }

/-- A model response whose cardio section has one round entry. -/
def dataCardioOne : Json :=
  .obj [("cardioAnalysis", .obj [("roundByRound", .arr [.obj []])])]

/-- A model response containing an array entry the normalizer cannot
read fields from. -/
def dataNullStrength : Json :=
  .obj [("strengthsWeaknesses", .obj [("strengths", .arr [.null])])]

def cfgValidW : Config := { userRole := some "General study", videoRounds := some 1 }

/-- A fully populated, correctly typed single-fighter report for
`cfgValidW` (study role, one video round). -/
def dataValidW : Json :=
  .obj [
    ("fighterIdentification", .obj [("confirmedName", .str "A"),
      ("visualIdentifiers", .str "B"), ("confidenceLevel", .str "High")]),
    ("executiveSummary", .obj [("overallScore", .num 80), ("summary", .str "ok"),
      ("keyFindings", .arr []), ("recommendedApproach", .str "go")]),
    ("fightingStyleBreakdown", .obj [("secondaryAttributes", .arr []),
      ("comparableFighters", .arr []), ("tacticalTendencies", .arr [])]),
    ("strikeAnalysis", .obj [("accuracy", .num 50), ("volume", .num 10),
      ("powerScore", .num 60), ("techniqueScore", .num 70),
      ("breakdown", .obj [("jabCross", .num 1)]), ("patterns", .arr []),
      ("recommendations", .arr [])]),
    ("grapplingAnalysis", .obj [("takedownAccuracy", .num 40),
      ("takedownDefense", .num 50), ("controlTime", .num 2),
      ("submissionAttempts", .num 0)]),
    ("defenseAnalysis", .obj [("headMovement", .num 60)]),
    ("cardioAnalysis", .obj [("roundByRound", .arr [.str "steady"])]),
    ("fightIQ", .obj [("score", .num 70)]),
    ("strengthsWeaknesses", .obj [("strengths", .arr []), ("weaknesses", .arr [])]),
    ("mistakePatterns", .obj [("patterns", .arr [])]),
    ("counterStrategy", .obj [("counters", .arr [])]),
    ("gamePlan", .null),
    ("midFightAdjustments", .null),
    ("trainingRecommendations", .null),
    ("keyInsights", .null),
    ("roundByRoundMetrics", .obj [("rounds", .arr [.obj [("roundNumber", .num 1)]])])]

/-! ## Basic lemmas about the JS value model -/

@[simp]
theorem getProp_obj (fs : List (String × Json)) (k : String) :
    getProp (.obj fs) k = .ok (objGet fs k) := rfl

@[simp]
theorem setProp_obj (fs : List (String × Json)) (k : String) (v : Json) :
    setProp (.obj fs) k v = .ok (.obj (setField fs k v)) := rfl

@[simp]
theorem ok_bind {α β : Type} (a : α) (f : α → Except String β) :
    (Except.ok a >>= f) = f a := rfl

@[simp]
theorem error_bind {α β : Type} (e : String) (f : α → Except String β) :
    ((Except.error e : Except String α) >>= f) = .error e := rfl

@[simp]
theorem pure_eq_ok {α : Type} (a : α) : (pure a : Except String α) = .ok a := rfl

theorem bind_eq_ok {α β : Type} {x : Except String α} {f : α → Except String β} {b : β} :
    x >>= f = .ok b ↔ ∃ a, x = .ok a ∧ f a = .ok b := by
  cases x with
  | error e => simp
  | ok a => simp

@[simp]
theorem objGet_setField_self (fs : List (String × Json)) (k : String) (v : Json) :
    objGet (setField fs k v) k = v := by
  induction fs with
  | nil => simp [setField, objGet, lookupField]
  | cons hd t ih =>
    obtain ⟨k', w⟩ := hd
    by_cases h : k' = k
    · simp [setField, objGet, lookupField, h]
    · simp only [setField, if_neg h, objGet, lookupField, if_neg]
      simpa [objGet] using ih

theorem lookupField_setField_ne (fs : List (String × Json)) {k k' : String} (v : Json)
    (h : k' ≠ k) : lookupField (setField fs k v) k' = lookupField fs k' := by
  induction fs with
  | nil => simp [setField, lookupField, Ne.symm h]
  | cons hd t ih =>
    obtain ⟨k'', w⟩ := hd
    by_cases h2 : k'' = k
    · subst h2
      simp [setField, lookupField, Ne.symm h]
    · simp only [setField, if_neg h2, lookupField]
      by_cases h3 : k'' = k' <;> simp [h3, ih]

theorem objGet_setField_ne (fs : List (String × Json)) {k k' : String} (v : Json)
    (h : k' ≠ k) : objGet (setField fs k v) k' = objGet fs k' := by
  simp [objGet, lookupField_setField_ne fs v h]

@[simp]
theorem setField_setField (fs : List (String × Json)) (k : String) (v w : Json) :
    setField (setField fs k v) k w = setField fs k w := by
  induction fs with
  | nil => simp [setField]
  | cons hd t ih =>
    obtain ⟨k', x⟩ := hd
    by_cases h : k' = k <;> simp [setField, h, ih]

theorem setField_self {fs : List (String × Json)} {k : String} {v : Json}
    (h : lookupField fs k = some v) : setField fs k v = fs := by
  induction fs with
  | nil => simp [lookupField] at h
  | cons hd t ih =>
    obtain ⟨k', w⟩ := hd
    by_cases h2 : k' = k
    · subst h2
      have h' : w = v := by simpa [lookupField] using h
      simp [setField, h']
    · simp only [lookupField, if_neg h2] at h
      simp [setField, h2, ih h]

theorem truthy_objGet_lookup {fs : List (String × Json)} {k : String}
    (h : truthy (objGet fs k) = true) : lookupField fs k = some (objGet fs k) := by
  unfold objGet at h ⊢
  cases hl : lookupField fs k with
  | none => rw [hl] at h; simp [truthy] at h
  | some v => simp [hl]

theorem setField_objGet_self {fs : List (String × Json)} {k : String}
    (h : truthy (objGet fs k) = true) : setField fs k (objGet fs k) = fs :=
  setField_self (truthy_objGet_lookup h)

theorem objGet_eq_lookup {fs : List (String × Json)} {k : String} {v : Json}
    (h : objGet fs k = v) (hv : v ≠ .undef) : lookupField fs k = some v := by
  unfold objGet at h
  cases hl : lookupField fs k with
  | none => rw [hl] at h; simp at h; exact absurd h.symm hv
  | some w => rw [hl] at h; simpa [h] using h ▸ rfl

theorem pushAll_obj_arr {gfs : List (String × Json)} {k : String} {xs : List Json}
    (items : List Json) (h : objGet gfs k = .arr xs) :
    pushAll (.obj gfs) k items = .ok (.obj (setField gfs k (.arr (xs ++ items)))) := by
  by_cases he : items.isEmpty
  · rw [List.isEmpty_iff] at he
    subst he
    have h2 : setField gfs k (.arr xs) = gfs := setField_self (objGet_eq_lookup h (by simp))
    simp [pushAll, h2]
  · unfold pushAll
    rw [if_neg he]
    simp [h]

/-! ## Shape of the section paragraphs

Each single-fighter section paragraph, applied to an object, either
leaves the record unchanged, rewrites exactly its own key, or throws;
every other key is untouched.  These lemmas drive all the claims about
specific sections of the normalized report. -/

def blockShape (key : String) (f : Json → Except String Json) : Prop :=
  ∀ fs, (∃ e, f (.obj fs) = .error e) ∨
    ∃ gs, f (.obj fs) = .ok (.obj gs) ∧ ∀ k', k' ≠ key → objGet gs k' = objGet fs k'

theorem blockShape.preserve {key : String} {f : Json → Except String Json}
    (hb : blockShape key f) {fs : List (String × Json)} {r : Json}
    (h : f (.obj fs) = .ok r) :
    ∃ gs, r = .obj gs ∧ ∀ k', k' ≠ key → objGet gs k' = objGet fs k' := by
  rcases hb fs with ⟨e, h1⟩ | ⟨gs, h1, h2⟩
  · rw [h1] at h
    exact absurd h (by simp)
  · rw [h1] at h
    exact ⟨gs, by injection h with h3; exact h3.symm, h2⟩

theorem fiBlock_shape (cfg : Config) : blockShape "fighterIdentification" (fiBlock cfg) := by
  intro fs
  unfold fiBlock
  simp only [getProp_obj, ok_bind]
  by_cases h : truthy (objGet fs "fighterIdentification")
  · rw [if_pos h]
    cases hfi : objGet fs "fighterIdentification" with
    | null => rw [hfi] at h; simp [truthy] at h
    | undef => rw [hfi] at h; simp [truthy] at h
    | bool b => right; exact ⟨_, rfl, fun k' hk => by simp [objGet_setField_ne _ _ hk]⟩
    | num q => right; exact ⟨_, rfl, fun k' hk => by simp [objGet_setField_ne _ _ hk]⟩
    | str s => right; exact ⟨_, rfl, fun k' hk => by simp [objGet_setField_ne _ _ hk]⟩
    | arr elems => right; exact ⟨_, rfl, fun k' hk => by simp [objGet_setField_ne _ _ hk]⟩
    | obj gfs => right; exact ⟨_, rfl, fun k' hk => by simp [objGet_setField_ne _ _ hk]⟩
  · rw [if_neg h]
    right
    exact ⟨_, rfl, fun k' hk => by simp [objGet_setField_ne _ _ hk]⟩

theorem execBlock_shape : blockShape "executiveSummary" execBlock := by
  intro fs
  unfold execBlock
  simp only [getProp_obj, ok_bind]
  by_cases h : truthy (objGet fs "executiveSummary")
  · rw [if_pos h]
    cases hfi : objGet fs "executiveSummary" with
    | null => rw [hfi] at h; simp [truthy] at h
    | undef => rw [hfi] at h; simp [truthy] at h
    | bool b => right; exact ⟨_, rfl, fun k' hk => by simp [objGet_setField_ne _ _ hk]⟩
    | num q => right; exact ⟨_, rfl, fun k' hk => by simp [objGet_setField_ne _ _ hk]⟩
    | str s => right; exact ⟨_, rfl, fun k' hk => by simp [objGet_setField_ne _ _ hk]⟩
    | arr elems => right; exact ⟨_, rfl, fun k' hk => by simp [objGet_setField_ne _ _ hk]⟩
    | obj gfs => right; exact ⟨_, rfl, fun k' hk => by simp [objGet_setField_ne _ _ hk]⟩
  · rw [if_neg h]
    right
    exact ⟨_, rfl, fun k' hk => by simp [objGet_setField_ne _ _ hk]⟩

theorem styleBlock_shape : blockShape "fightingStyleBreakdown" styleBlock := by
  intro fs
  unfold styleBlock
  simp only [getProp_obj, ok_bind]
  by_cases h : truthy (objGet fs "fightingStyleBreakdown")
  · rw [if_pos h]
    cases hfi : objGet fs "fightingStyleBreakdown" with
    | null => rw [hfi] at h; simp [truthy] at h
    | undef => rw [hfi] at h; simp [truthy] at h
    | bool b => right; exact ⟨_, rfl, fun k' hk => by simp [objGet_setField_ne _ _ hk]⟩
    | num q => right; exact ⟨_, rfl, fun k' hk => by simp [objGet_setField_ne _ _ hk]⟩
    | str s => right; exact ⟨_, rfl, fun k' hk => by simp [objGet_setField_ne _ _ hk]⟩
    | arr elems => right; exact ⟨_, rfl, fun k' hk => by simp [objGet_setField_ne _ _ hk]⟩
    | obj gfs => right; exact ⟨_, rfl, fun k' hk => by simp [objGet_setField_ne _ _ hk]⟩
  · rw [if_neg h]
    right
    exact ⟨_, rfl, fun k' hk => by simp [objGet_setField_ne _ _ hk]⟩

theorem strikeBlock_shape : blockShape "strikeAnalysis" strikeBlock := by
  intro fs
  unfold strikeBlock
  simp only [getProp_obj, ok_bind]
  by_cases h : truthy (objGet fs "strikeAnalysis")
  · rw [if_pos h]
    cases hfi : objGet fs "strikeAnalysis" with
    | null => rw [hfi] at h; simp [truthy] at h
    | undef => rw [hfi] at h; simp [truthy] at h
    | bool b => right; exact ⟨_, rfl, fun k' hk => by simp [objGet_setField_ne _ _ hk]⟩
    | num q => right; exact ⟨_, rfl, fun k' hk => by simp [objGet_setField_ne _ _ hk]⟩
    | str s => right; exact ⟨_, rfl, fun k' hk => by simp [objGet_setField_ne _ _ hk]⟩
    | arr elems => right; exact ⟨_, rfl, fun k' hk => by simp [objGet_setField_ne _ _ hk]⟩
    | obj gfs =>
      simp only [setProp_obj, ok_bind, getProp_obj, objGet_setField_self, pure_eq_ok]
      split
      · right; exact ⟨_, rfl, fun k' hk => by simp [objGet_setField_ne _ _ hk]⟩
      · right; exact ⟨_, rfl, fun k' hk => by simp [objGet_setField_ne _ _ hk]⟩
  · rw [if_neg h]
    right
    exact ⟨_, rfl, fun k' hk => by simp [objGet_setField_ne _ _ hk]⟩

theorem grapplingBlock_shape : blockShape "grapplingAnalysis" grapplingBlock := by
  intro fs
  unfold grapplingBlock
  simp only [getProp_obj, ok_bind]
  by_cases h : truthy (objGet fs "grapplingAnalysis")
  · rw [if_pos h]
    cases hfi : objGet fs "grapplingAnalysis" with
    | null => rw [hfi] at h; simp [truthy] at h
    | undef => rw [hfi] at h; simp [truthy] at h
    | bool b => right; exact ⟨_, rfl, fun k' hk => by simp [objGet_setField_ne _ _ hk]⟩
    | num q => right; exact ⟨_, rfl, fun k' hk => by simp [objGet_setField_ne _ _ hk]⟩
    | str s => right; exact ⟨_, rfl, fun k' hk => by simp [objGet_setField_ne _ _ hk]⟩
    | arr elems => right; exact ⟨_, rfl, fun k' hk => by simp [objGet_setField_ne _ _ hk]⟩
    | obj gfs => right; exact ⟨_, rfl, fun k' hk => by simp [objGet_setField_ne _ _ hk]⟩
  · rw [if_neg h]
    right
    exact ⟨_, rfl, fun k' hk => by simp [objGet_setField_ne _ _ hk]⟩

theorem defenseBlock_shape : blockShape "defenseAnalysis" defenseBlock := by
  intro fs
  unfold defenseBlock
  simp only [getProp_obj, ok_bind]
  by_cases h : truthy (objGet fs "defenseAnalysis")
  · rw [if_pos h]; right; exact ⟨fs, rfl, fun _ _ => rfl⟩
  · rw [if_neg h]; right; exact ⟨_, rfl, fun k' hk => by simp [objGet_setField_ne _ _ hk]⟩

theorem fightIQBlock_shape : blockShape "fightIQ" fightIQBlock := by
  intro fs
  unfold fightIQBlock
  simp only [getProp_obj, ok_bind]
  by_cases h : truthy (objGet fs "fightIQ")
  · rw [if_pos h]; right; exact ⟨fs, rfl, fun _ _ => rfl⟩
  · rw [if_neg h]; right; exact ⟨_, rfl, fun k' hk => by simp [objGet_setField_ne _ _ hk]⟩

theorem counterBlock_shape : blockShape "counterStrategy" counterBlock := by
  intro fs
  unfold counterBlock
  simp only [getProp_obj, ok_bind]
  by_cases h : truthy (objGet fs "counterStrategy")
  · rw [if_pos h]; right; exact ⟨fs, rfl, fun _ _ => rfl⟩
  · rw [if_neg h]; right; exact ⟨_, rfl, fun k' hk => by simp [objGet_setField_ne _ _ hk]⟩

theorem trainingBlock_shape (st : Bool) : blockShape "trainingRecommendations" (trainingBlock st) := by
  intro fs
  unfold trainingBlock
  simp only [getProp_obj, ok_bind]
  by_cases h : truthy (objGet fs "trainingRecommendations")
  · rw [if_pos h]; right; exact ⟨fs, rfl, fun _ _ => rfl⟩
  · rw [if_neg h]; right; exact ⟨_, rfl, fun k' hk => by simp [objGet_setField_ne _ _ hk]⟩

theorem keyInsightsBlock_shape (st : Bool) : blockShape "keyInsights" (keyInsightsBlock st) := by
  intro fs
  unfold keyInsightsBlock
  simp only [getProp_obj, ok_bind]
  by_cases h : truthy (objGet fs "keyInsights")
  · rw [if_pos h]; right; exact ⟨fs, rfl, fun _ _ => rfl⟩
  · rw [if_neg h]; right; exact ⟨_, rfl, fun k' hk => by simp [objGet_setField_ne _ _ hk]⟩



theorem pushAll_empty (c : Json) (k : String) {items : List Json} (h : items = []) :
    pushAll c k items = .ok c := by
  subst h; rfl

theorem pushAll_undef {c : Json} {k : String} (items : List Json)
    (h : getProp c k = .ok .undef) (hne : ¬items.isEmpty) :
    ∃ e, pushAll c k items = .error e := by
  unfold pushAll
  rw [if_neg hne, h]
  exact ⟨_, rfl⟩

theorem cardioBlock_shape (v : ℚ) : blockShape "cardioAnalysis" (cardioBlock v) := by
  intro fs
  unfold cardioBlock
  simp only [getProp_obj, ok_bind]
  by_cases h : truthy (objGet fs "cardioAnalysis")
  · rw [if_pos h]
    simp only [pure_eq_ok, ok_bind]
    cases hca : objGet fs "cardioAnalysis" with
    | null => rw [hca] at h; simp [truthy] at h
    | undef => rw [hca] at h; simp [truthy] at h
    | bool b =>
      by_cases he : (cardioRoundsList v).isEmpty
      · simp only [hca, ok_bind, getProp, truthy, lengthIsZero, setProp,
          pushAll_empty _ _ (List.isEmpty_iff.mp he), setProp_obj]
        right; exact ⟨_, rfl, fun k' hk => by simp [objGet_setField_ne _ _ hk]⟩
      · obtain ⟨e, hpe⟩ := pushAll_undef (c := Json.bool b) (k := "roundByRound") (cardioRoundsList v) rfl he
        simp only [hca, ok_bind, getProp, truthy, lengthIsZero, setProp, hpe, error_bind]
        left; exact ⟨_, rfl⟩
    | num q =>
      by_cases he : (cardioRoundsList v).isEmpty
      · simp only [hca, ok_bind, getProp, truthy, lengthIsZero, setProp,
          pushAll_empty _ _ (List.isEmpty_iff.mp he), setProp_obj]
        right; exact ⟨_, rfl, fun k' hk => by simp [objGet_setField_ne _ _ hk]⟩
      · obtain ⟨e, hpe⟩ := pushAll_undef (c := Json.num q) (k := "roundByRound") (cardioRoundsList v) rfl he
        simp only [hca, ok_bind, getProp, truthy, lengthIsZero, setProp, hpe, error_bind]
        left; exact ⟨_, rfl⟩
    | str s =>
      by_cases he : (cardioRoundsList v).isEmpty
      · simp only [hca, ok_bind, getProp, truthy, lengthIsZero, setProp,
          pushAll_empty _ _ (List.isEmpty_iff.mp he), setProp_obj]
        right; exact ⟨_, rfl, fun k' hk => by simp [objGet_setField_ne _ _ hk]⟩
      · obtain ⟨e, hpe⟩ := pushAll_undef (c := Json.str s) (k := "roundByRound") (cardioRoundsList v) rfl he
        simp only [hca, ok_bind, getProp, truthy, lengthIsZero, setProp, hpe, error_bind]
        left; exact ⟨_, rfl⟩
    | arr elems =>
      by_cases he : (cardioRoundsList v).isEmpty
      · simp only [hca, ok_bind, getProp, truthy, lengthIsZero, setProp,
          pushAll_empty _ _ (List.isEmpty_iff.mp he), setProp_obj]
        right; exact ⟨_, rfl, fun k' hk => by simp [objGet_setField_ne _ _ hk]⟩
      · obtain ⟨e, hpe⟩ := pushAll_undef (c := Json.arr elems) (k := "roundByRound") (cardioRoundsList v) rfl he
        simp only [hca, ok_bind, getProp, truthy, lengthIsZero, setProp, hpe, error_bind]
        left; exact ⟨_, rfl⟩
    | obj cfs =>
      by_cases hrb : truthy (objGet cfs "roundByRound") = false ∨ lengthIsZero (objGet cfs "roundByRound") = true
      · simp only [hca, ok_bind, getProp_obj]
        rw [if_pos hrb]
        simp only [setProp_obj, ok_bind]
        rw [pushAll_obj_arr (cardioRoundsList v) (objGet_setField_self cfs "roundByRound" (.arr []))]
        simp only [ok_bind, setProp_obj, List.nil_append]
        right; exact ⟨_, rfl, fun k' hk => by simp [objGet_setField_ne _ _ hk]⟩
      · simp only [hca, ok_bind, getProp_obj]
        rw [if_neg hrb]
        right; exact ⟨fs, rfl, fun _ _ => rfl⟩
  · rw [if_neg h]
    simp only [setProp_obj, ok_bind, getProp_obj, objGet_setField_self]
    rw [show getProp defaultCardioAnalysis "roundByRound" = .ok (.arr []) from rfl]
    simp only [ok_bind]
    rw [if_pos (by simp [truthy, lengthIsZero])]
    rw [show setProp defaultCardioAnalysis "roundByRound" (Json.arr []) = .ok defaultCardioAnalysis from rfl]
    simp only [ok_bind]
    unfold defaultCardioAnalysis
    rw [pushAll_obj_arr (cardioRoundsList v) (show objGet [("roundByRound", Json.arr []),
      ("overallStamina", Json.num 70), ("fatigueIndicators", Json.arr []),
      ("recommendations", Json.arr [])] "roundByRound" = Json.arr [] from rfl)]
    simp only [ok_bind, setProp_obj, List.nil_append, setField_setField]
    right; exact ⟨_, rfl, fun k' hk => by simp [objGet_setField_ne _ _ hk]⟩




theorem metricsBlock_shape (v : ℚ) : blockShape "roundByRoundMetrics" (metricsBlock v) := by
  intro fs
  unfold metricsBlock
  simp only [getProp_obj, ok_bind]
  by_cases h : truthy (objGet fs "roundByRoundMetrics")
  · rw [if_pos h]
    simp only [pure_eq_ok, ok_bind]
    cases hca : objGet fs "roundByRoundMetrics" with
    | null => rw [hca] at h; simp [truthy] at h
    | undef => rw [hca] at h; simp [truthy] at h
    | bool b =>
      by_cases he : (metricsRoundsList v).isEmpty
      · simp only [hca, ok_bind, getProp, truthy, lengthLtQ, setProp,
          pushAll_empty _ _ (List.isEmpty_iff.mp he), setProp_obj]
        right; exact ⟨_, rfl, fun k' hk => by simp [objGet_setField_ne _ _ hk]⟩
      · obtain ⟨e, hpe⟩ := pushAll_undef (c := Json.bool b) (k := "rounds") (metricsRoundsList v) rfl he
        simp only [hca, ok_bind, getProp, truthy, lengthLtQ, setProp, hpe, error_bind]
        left; exact ⟨_, rfl⟩
    | num q =>
      by_cases he : (metricsRoundsList v).isEmpty
      · simp only [hca, ok_bind, getProp, truthy, lengthLtQ, setProp,
          pushAll_empty _ _ (List.isEmpty_iff.mp he), setProp_obj]
        right; exact ⟨_, rfl, fun k' hk => by simp [objGet_setField_ne _ _ hk]⟩
      · obtain ⟨e, hpe⟩ := pushAll_undef (c := Json.num q) (k := "rounds") (metricsRoundsList v) rfl he
        simp only [hca, ok_bind, getProp, truthy, lengthLtQ, setProp, hpe, error_bind]
        left; exact ⟨_, rfl⟩
    | str s =>
      by_cases he : (metricsRoundsList v).isEmpty
      · simp only [hca, ok_bind, getProp, truthy, lengthLtQ, setProp,
          pushAll_empty _ _ (List.isEmpty_iff.mp he), setProp_obj]
        right; exact ⟨_, rfl, fun k' hk => by simp [objGet_setField_ne _ _ hk]⟩
      · obtain ⟨e, hpe⟩ := pushAll_undef (c := Json.str s) (k := "rounds") (metricsRoundsList v)
          (by simp [getProp]) he
        simp only [hca, ok_bind, getProp, truthy, lengthLtQ, setProp, hpe, error_bind]
        left; exact ⟨_, rfl⟩
    | arr elems =>
      by_cases he : (metricsRoundsList v).isEmpty
      · simp only [hca, ok_bind, getProp, truthy, lengthLtQ, setProp,
          pushAll_empty _ _ (List.isEmpty_iff.mp he), setProp_obj]
        right; exact ⟨_, rfl, fun k' hk => by simp [objGet_setField_ne _ _ hk]⟩
      · obtain ⟨e, hpe⟩ := pushAll_undef (c := Json.arr elems) (k := "rounds") (metricsRoundsList v)
          (by simp [getProp]) he
        simp only [hca, ok_bind, getProp, truthy, lengthLtQ, setProp, hpe, error_bind]
        left; exact ⟨_, rfl⟩
    | obj cfs =>
      by_cases hrb : truthy (objGet cfs "rounds") = false ∨ lengthLtQ (objGet cfs "rounds") v = true
      · simp only [hca, ok_bind, getProp_obj]
        rw [if_pos hrb]
        simp only [setProp_obj, ok_bind]
        rw [pushAll_obj_arr (metricsRoundsList v) (objGet_setField_self cfs "rounds" (.arr []))]
        simp only [ok_bind, setProp_obj, List.nil_append]
        right; exact ⟨_, rfl, fun k' hk => by simp [objGet_setField_ne _ _ hk]⟩
      · simp only [hca, ok_bind, getProp_obj]
        rw [if_neg hrb]
        right; exact ⟨fs, rfl, fun _ _ => rfl⟩
  · rw [if_neg h]
    simp only [setProp_obj, ok_bind, getProp_obj, objGet_setField_self]
    rw [show objGet [("rounds", Json.arr [])] "rounds" = Json.arr [] from rfl]
    by_cases hlt : lengthLtQ (Json.arr []) v = true
    · rw [if_pos (Or.inr hlt)]
      rw [show setField [("rounds", Json.arr [])] "rounds" (Json.arr []) = [("rounds", Json.arr [])] from rfl]
      rw [pushAll_obj_arr (metricsRoundsList v) (show objGet [("rounds", Json.arr [])] "rounds" = Json.arr [] from rfl)]
      simp only [ok_bind, setProp_obj, List.nil_append, setField_setField]
      right; exact ⟨_, rfl, fun k' hk => by simp [objGet_setField_ne _ _ hk]⟩
    · rw [if_neg (by push_neg; exact ⟨by simp [truthy], by simpa using hlt⟩)]
      right; exact ⟨_, rfl, fun k' hk => by simp [objGet_setField_ne _ _ hk]⟩




theorem swBlock_shape : blockShape "strengthsWeaknesses" swBlock := by
  intro fs
  unfold swBlock
  simp only [getProp_obj, ok_bind]
  by_cases h : truthy (objGet fs "strengthsWeaknesses")
  · rw [if_pos h]
    simp only [pure_eq_ok, ok_bind, getProp_obj]
    cases hsw : objGet fs "strengthsWeaknesses" with
    | null => rw [hsw] at h; simp [truthy] at h
    | undef => rw [hsw] at h; simp [truthy] at h
    | bool b => right; exact ⟨_, rfl, fun k' hk => by simp [objGet_setField_ne _ _ hk]⟩
    | num q => right; exact ⟨_, rfl, fun k' hk => by simp [objGet_setField_ne _ _ hk]⟩
    | str s => right; exact ⟨_, rfl, fun k' hk => by simp [objGet_setField_ne _ _ hk]⟩
    | arr elems => right; exact ⟨_, rfl, fun k' hk => by simp [objGet_setField_ne _ _ hk]⟩
    | obj gfs =>
      simp only [getProp_obj, ok_bind]
      cases hm1 : List.mapM strengthEntryFix (ensureArray (objGet gfs "strengths") []) with
      | error e =>
        left
        simp only [hm1, error_bind]
        exact ⟨e, rfl⟩
      | ok l1 =>
        simp only [hm1, ok_bind, setProp_obj, getProp_obj]
        cases hm2 : List.mapM weaknessEntryFix
            (ensureArray (objGet (setField gfs "strengths" (Json.arr l1)) "weaknesses") []) with
        | error e =>
          left
          simp only [hm2, error_bind]
          exact ⟨e, rfl⟩
        | ok l2 =>
          right
          simp only [hm2, ok_bind, setProp_obj]
          exact ⟨_, rfl, fun k' hk => by simp [objGet_setField_ne _ _ hk]⟩
  · rw [if_neg h]
    simp only [setProp_obj, ok_bind, getProp_obj, objGet_setField_self]
    right
    exact ⟨_, rfl, fun k' hk => by simp [objGet_setField_ne _ _ hk]⟩

theorem mistakeBlock_shape : blockShape "mistakePatterns" mistakeBlock := by
  intro fs
  unfold mistakeBlock
  simp only [getProp_obj, ok_bind]
  by_cases h : truthy (objGet fs "mistakePatterns")
  · rw [if_pos h]
    simp only [pure_eq_ok, ok_bind, getProp_obj]
    cases hmp : objGet fs "mistakePatterns" with
    | null => rw [hmp] at h; simp [truthy] at h
    | undef => rw [hmp] at h; simp [truthy] at h
    | bool b => right; exact ⟨_, rfl, fun k' hk => by simp [objGet_setField_ne _ _ hk]⟩
    | num q => right; exact ⟨_, rfl, fun k' hk => by simp [objGet_setField_ne _ _ hk]⟩
    | str s => right; exact ⟨_, rfl, fun k' hk => by simp [objGet_setField_ne _ _ hk]⟩
    | arr elems => right; exact ⟨_, rfl, fun k' hk => by simp [objGet_setField_ne _ _ hk]⟩
    | obj gfs =>
      simp only [getProp_obj, ok_bind]
      cases hm1 : List.mapM mistakeEntryFix (ensureArray (objGet gfs "patterns") []) with
      | error e =>
        left
        simp only [hm1, error_bind]
        exact ⟨e, rfl⟩
      | ok l1 =>
        right
        simp only [hm1, ok_bind, setProp_obj]
        exact ⟨_, rfl, fun k' hk => by simp [objGet_setField_ne _ _ hk]⟩
  · rw [if_neg h]
    simp only [setProp_obj, ok_bind, getProp_obj, objGet_setField_self]
    right
    exact ⟨_, rfl, fun k' hk => by simp [objGet_setField_ne _ _ hk]⟩

theorem midFightBlock_shape (st : Bool) : blockShape "midFightAdjustments" (midFightBlock st) := by
  intro fs
  unfold midFightBlock
  cases st with
  | true =>
    simp only [getProp_obj, ok_bind]
    by_cases h : truthy (objGet fs "midFightAdjustments")
    · rw [if_pos h]
      right; exact ⟨fs, rfl, fun _ _ => rfl⟩
    · rw [if_neg h]
      right; exact ⟨_, rfl, fun k' hk => by simp [objGet_setField_ne _ _ hk]⟩
  | false =>
    simp only [getProp_obj, ok_bind]
    by_cases h : truthy (objGet fs "midFightAdjustments")
    · rw [if_pos h]
      simp only [pure_eq_ok, ok_bind, Bool.false_eq_true, if_false, getProp_obj]
      rw [if_neg (by simp [h])]
      cases hmfa : objGet fs "midFightAdjustments" with
      | null => rw [hmfa] at h; simp [truthy] at h
      | undef => rw [hmfa] at h; simp [truthy] at h
      | bool b => right; exact ⟨_, rfl, fun k' hk => by simp [objGet_setField_ne _ _ hk]⟩
      | num q => right; exact ⟨_, rfl, fun k' hk => by simp [objGet_setField_ne _ _ hk]⟩
      | str s => right; exact ⟨_, rfl, fun k' hk => by simp [objGet_setField_ne _ _ hk]⟩
      | arr elems => right; exact ⟨_, rfl, fun k' hk => by simp [objGet_setField_ne _ _ hk]⟩
      | obj gfs =>
        simp only [getProp_obj, ok_bind]
        cases hm1 : List.mapM adjustmentEntryFix (ensureArray (objGet gfs "adjustments") []) with
        | error e =>
          left
          simp only [hm1, error_bind]
          exact ⟨e, rfl⟩
        | ok l1 =>
          right
          simp only [hm1, ok_bind, setProp_obj]
          exact ⟨_, rfl, fun k' hk => by simp [objGet_setField_ne _ _ hk]⟩
    · rw [if_neg h]
      simp only [setProp_obj, ok_bind, Bool.false_eq_true, if_false, getProp_obj, objGet_setField_self]
      rw [if_neg (by simp [truthy, defaultMidFightAdjustments])]
      rw [show getProp defaultMidFightAdjustments "adjustments" = .ok (.arr []) from rfl]
      simp only [ok_bind]
      rw [show List.mapM adjustmentEntryFix (ensureArray (Json.arr []) []) =
        (.ok [] : Except String (List Json)) from rfl]
      simp only [ok_bind]
      rw [show setProp defaultMidFightAdjustments "adjustments" (Json.arr []) =
        .ok defaultMidFightAdjustments from rfl]
      simp only [ok_bind, setProp_obj]
      right; exact ⟨_, rfl, fun k' hk => by simp [objGet_setField_ne _ _ hk]⟩




theorem gpStep1_obj (u : ℚ) (ggs : List (String × Json)) :
    ∃ ggs1, gpSizeRoundByRound u (.obj ggs) = .ok (.obj ggs1) := by
  unfold gpSizeRoundByRound
  simp only [getProp_obj, ok_bind]
  by_cases c1 : truthy (objGet ggs "roundByRound") = false ∨
      lengthLtQ (objGet ggs "roundByRound") u = true
  · rw [if_pos c1]
    simp only [setProp_obj, ok_bind]
    rw [pushAll_obj_arr (gamePlanRoundsList u) (objGet_setField_self ggs "roundByRound" (.arr []))]
    exact ⟨_, rfl⟩
  · rw [if_neg c1]
    exact ⟨ggs, rfl⟩

theorem gpStep2_obj (u : ℚ) (ggs : List (String × Json)) :
    ∃ ggs1, gpSizeRoundGamePlans u (.obj ggs) = .ok (.obj ggs1) := by
  unfold gpSizeRoundGamePlans
  simp only [getProp_obj, ok_bind]
  by_cases c1 : truthy (objGet ggs "roundGamePlans") = false ∨
      lengthLtQ (objGet ggs "roundGamePlans") u = true
  · rw [if_pos c1]
    simp only [setProp_obj, ok_bind]
    rw [pushAll_obj_arr (roundGamePlansList u) (objGet_setField_self ggs "roundGamePlans" (.arr []))]
    exact ⟨_, rfl⟩
  · rw [if_neg c1]
    exact ⟨ggs, rfl⟩

theorem gpFix_obj (ggs : List (String × Json)) :
    (∃ e, gpFixThingsToAvoid (.obj ggs) = .error e) ∨
    ∃ ggs1, gpFixThingsToAvoid (.obj ggs) = .ok (.obj ggs1) := by
  unfold gpFixThingsToAvoid
  simp only [getProp_obj, ok_bind]
  cases hta : objGet ggs "thingsToAvoid" with
  | arr items =>
    cases hm : List.mapM thingToAvoidFix items with
    | error e =>
      left
      simp only [hm, error_bind]
      exact ⟨e, rfl⟩
    | ok items2 =>
      right
      simp only [hm, ok_bind, setProp_obj]
      exact ⟨_, rfl⟩
  | null => right; exact ⟨ggs, rfl⟩
  | undef => right; exact ⟨ggs, rfl⟩
  | bool b => right; exact ⟨ggs, rfl⟩
  | num q => right; exact ⟨ggs, rfl⟩
  | str s => right; exact ⟨ggs, rfl⟩
  | obj tfs => right; exact ⟨ggs, rfl⟩

theorem gamePlanSizing_shape (u : ℚ) (fs : List (String × Json)) (gp0 : Json) :
    (∃ e, gamePlanSizing u (.obj fs) gp0 = .error e) ∨
    ∃ gs, gamePlanSizing u (.obj fs) gp0 = .ok (.obj gs) ∧
      ∀ k', k' ≠ "gamePlan" → objGet gs k' = objGet fs k' := by
  unfold gamePlanSizing
  cases gp0 with
  | null => left; exact ⟨_, rfl⟩
  | undef => left; exact ⟨_, rfl⟩
  | bool b =>
    by_cases hu : (gamePlanRoundsList u).isEmpty
    · have h1 : gamePlanRoundsList u = [] := List.isEmpty_iff.mp hu
      have h2 : roundGamePlansList u = [] := by
        simp only [gamePlanRoundsList, List.isEmpty_iff, List.map_eq_nil_iff,
          List.range_eq_nil] at hu
        simp [roundGamePlansList, hu]
      simp only [gpSizeRoundByRound, gpSizeRoundGamePlans, gpFixThingsToAvoid, h1, h2]
      right; exact ⟨_, rfl, fun k' hk => by simp [objGet_setField_ne _ _ hk]⟩
    · obtain ⟨e, hpe⟩ := pushAll_undef (c := Json.bool b) (k := "roundByRound")
        (gamePlanRoundsList u) rfl hu
      simp only [gpSizeRoundByRound, getProp, ok_bind, truthy, lengthLtQ, setProp, hpe,
        error_bind]
      left; exact ⟨_, rfl⟩
  | num q =>
    by_cases hu : (gamePlanRoundsList u).isEmpty
    · have h1 : gamePlanRoundsList u = [] := List.isEmpty_iff.mp hu
      have h2 : roundGamePlansList u = [] := by
        simp only [gamePlanRoundsList, List.isEmpty_iff, List.map_eq_nil_iff,
          List.range_eq_nil] at hu
        simp [roundGamePlansList, hu]
      simp only [gpSizeRoundByRound, gpSizeRoundGamePlans, gpFixThingsToAvoid, h1, h2]
      right; exact ⟨_, rfl, fun k' hk => by simp [objGet_setField_ne _ _ hk]⟩
    · obtain ⟨e, hpe⟩ := pushAll_undef (c := Json.num q) (k := "roundByRound")
        (gamePlanRoundsList u) rfl hu
      simp only [gpSizeRoundByRound, getProp, ok_bind, truthy, lengthLtQ, setProp, hpe,
        error_bind]
      left; exact ⟨_, rfl⟩
  | str s =>
    by_cases hu : (gamePlanRoundsList u).isEmpty
    · have h1 : gamePlanRoundsList u = [] := List.isEmpty_iff.mp hu
      have h2 : roundGamePlansList u = [] := by
        simp only [gamePlanRoundsList, List.isEmpty_iff, List.map_eq_nil_iff,
          List.range_eq_nil] at hu
        simp [roundGamePlansList, hu]
      simp only [gpSizeRoundByRound, gpSizeRoundGamePlans, gpFixThingsToAvoid, h1, h2]
      right; exact ⟨_, rfl, fun k' hk => by simp [objGet_setField_ne _ _ hk]⟩
    · obtain ⟨e, hpe⟩ := pushAll_undef (c := Json.str s) (k := "roundByRound")
        (gamePlanRoundsList u) (by simp [getProp]) hu
      simp only [gpSizeRoundByRound, getProp, ok_bind, truthy, lengthLtQ, setProp, hpe,
        error_bind]
      left; exact ⟨_, rfl⟩
  | arr elems =>
    by_cases hu : (gamePlanRoundsList u).isEmpty
    · have h1 : gamePlanRoundsList u = [] := List.isEmpty_iff.mp hu
      have h2 : roundGamePlansList u = [] := by
        simp only [gamePlanRoundsList, List.isEmpty_iff, List.map_eq_nil_iff,
          List.range_eq_nil] at hu
        simp [roundGamePlansList, hu]
      simp only [gpSizeRoundByRound, gpSizeRoundGamePlans, gpFixThingsToAvoid, h1, h2]
      right; exact ⟨_, rfl, fun k' hk => by simp [objGet_setField_ne _ _ hk]⟩
    · obtain ⟨e, hpe⟩ := pushAll_undef (c := Json.arr elems) (k := "roundByRound")
        (gamePlanRoundsList u) (by simp [getProp]) hu
      simp only [gpSizeRoundByRound, getProp, ok_bind, truthy, lengthLtQ, setProp, hpe,
        error_bind]
      left; exact ⟨_, rfl⟩
  | obj ggs =>
    obtain ⟨ggs1, h1⟩ := gpStep1_obj u ggs
    obtain ⟨ggs2, h2⟩ := gpStep2_obj u ggs1
    rw [h1]
    simp only [ok_bind]
    rw [h2]
    simp only [ok_bind]
    rcases gpFix_obj ggs2 with ⟨e, he⟩ | ⟨ggs3, hg⟩
    · left
      rw [he]
      exact ⟨e, rfl⟩
    · right
      rw [hg]
      simp only [ok_bind, setProp_obj]
      exact ⟨_, rfl, fun k' hk => by simp [objGet_setField_ne _ _ hk]⟩

theorem gamePlanBlock_shape (st : Bool) (u : ℚ) : blockShape "gamePlan" (gamePlanBlock st u) := by
  intro fs
  unfold gamePlanBlock
  cases st with
  | true =>
    simp only [getProp_obj, ok_bind]
    by_cases h : truthy (objGet fs "gamePlan")
    · rw [if_pos h]
      right; exact ⟨fs, rfl, fun _ _ => rfl⟩
    · rw [if_neg h]
      right; exact ⟨_, rfl, fun k' hk => by simp [objGet_setField_ne _ _ hk]⟩
  | false =>
    simp only [getProp_obj, ok_bind]
    by_cases h : truthy (objGet fs "gamePlan")
    · rw [if_pos h]
      simp only [pure_eq_ok, ok_bind, Bool.false_eq_true, if_false, getProp_obj]
      rw [if_neg (by simp [h])]
      exact gamePlanSizing_shape u fs (objGet fs "gamePlan")
    · rw [if_neg h]
      simp only [setProp_obj, ok_bind, Bool.false_eq_true, if_false, getProp_obj,
        objGet_setField_self]
      rw [if_neg (by simp [truthy, defaultGamePlanBase])]
      rcases gamePlanSizing_shape u (setField fs "gamePlan" defaultGamePlanBase)
          defaultGamePlanBase with ⟨e, he⟩ | ⟨gs, hg, hp⟩
      · left; exact ⟨e, he⟩
      · right
        refine ⟨gs, hg, fun k' hk => ?_⟩
        rw [hp k' hk, objGet_setField_ne fs _ hk]




theorem roundCount_eq_zero {v : ℚ} (hv : v ≤ 0) : roundCount v = 0 := by
  unfold roundCount
  rw [Int.toNat_eq_zero]
  exact le_trans (Int.floor_le_floor hv) (by simp)

theorem not_lengthLt_nil {v : ℚ} (h : ¬lengthLtQ (Json.arr []) v = true) : roundCount v = 0 := by
  apply roundCount_eq_zero
  simp only [lengthLtQ, List.length_nil, Nat.cast_zero, decide_eq_true_eq, not_lt] at h
  exact h

theorem cardioBlock_val_undef (v : ℚ) (fs : List (String × Json))
    (h : objGet fs "cardioAnalysis" = .undef) :
    cardioBlock v (.obj fs) = .ok (.obj (setField fs "cardioAnalysis" (cardioFilled v))) := by
  unfold cardioBlock
  simp only [getProp_obj, ok_bind, h]
  rw [if_neg (by simp [truthy])]
  simp only [setProp_obj, ok_bind, getProp_obj, objGet_setField_self]
  rw [show getProp defaultCardioAnalysis "roundByRound" = .ok (.arr []) from rfl]
  simp only [ok_bind]
  rw [if_pos (by simp [truthy, lengthIsZero])]
  rw [show setProp defaultCardioAnalysis "roundByRound" (Json.arr []) = .ok defaultCardioAnalysis from rfl]
  simp only [ok_bind]
  unfold defaultCardioAnalysis
  rw [pushAll_obj_arr (cardioRoundsList v) (show objGet [("roundByRound", Json.arr []),
    ("overallStamina", Json.num 70), ("fatigueIndicators", Json.arr []),
    ("recommendations", Json.arr [])] "roundByRound" = Json.arr [] from rfl)]
  simp only [ok_bind, setProp_obj, List.nil_append, setField_setField]
  rfl

theorem cardioBlock_val_obj (v : ℚ) (fs cfs : List (String × Json)) (xs : List Json)
    (h : objGet fs "cardioAnalysis" = .obj cfs) (hrb : objGet cfs "roundByRound" = .arr xs) :
    cardioBlock v (.obj fs) =
      .ok (.obj (if xs.isEmpty then
        setField fs "cardioAnalysis" (.obj (setField cfs "roundByRound" (.arr (cardioRoundsList v))))
      else fs)) := by
  unfold cardioBlock
  simp only [getProp_obj, ok_bind, h]
  rw [if_pos (by simp [truthy])]
  simp only [pure_eq_ok, ok_bind, getProp_obj, h, hrb]
  by_cases he : xs.isEmpty
  · rw [if_pos (by right; simp [lengthIsZero, he])]
    simp only [setProp_obj, ok_bind]
    rw [pushAll_obj_arr (cardioRoundsList v) (objGet_setField_self cfs "roundByRound" (.arr []))]
    simp only [ok_bind, setProp_obj, List.nil_append, he, if_true, setField_setField]
  · rw [if_neg (by simp [truthy, lengthIsZero, he])]
    simp [he]

theorem metricsBlock_val_undef (v : ℚ) (fs : List (String × Json))
    (h : objGet fs "roundByRoundMetrics" = .undef) :
    metricsBlock v (.obj fs) = .ok (.obj (setField fs "roundByRoundMetrics" (metricsFilled v))) := by
  unfold metricsBlock
  simp only [getProp_obj, ok_bind, h]
  rw [if_neg (by simp [truthy])]
  simp only [setProp_obj, ok_bind, getProp_obj, objGet_setField_self]
  rw [show objGet [("rounds", Json.arr [])] "rounds" = Json.arr [] from rfl]
  by_cases hlt : lengthLtQ (Json.arr []) v = true
  · rw [if_pos (Or.inr hlt)]
    rw [show setField [("rounds", Json.arr [])] "rounds" (Json.arr []) =
      [("rounds", Json.arr [])] from rfl]
    rw [pushAll_obj_arr (metricsRoundsList v)
      (show objGet [("rounds", Json.arr [])] "rounds" = Json.arr [] from rfl)]
    simp only [ok_bind, setProp_obj, List.nil_append, setField_setField]
    rfl
  · rw [if_neg (by push_neg; exact ⟨by simp [truthy], by simpa using hlt⟩)]
    have hv : metricsRoundsList v = [] := by
      simp [metricsRoundsList, not_lengthLt_nil hlt]
    simp [metricsFilled, hv]

theorem metricsBlock_val_obj (v : ℚ) (fs mfs : List (String × Json)) (xs : List Json)
    (h : objGet fs "roundByRoundMetrics" = .obj mfs) (hr : objGet mfs "rounds" = .arr xs) :
    metricsBlock v (.obj fs) =
      .ok (.obj (if lengthLtQ (.arr xs) v then
        setField fs "roundByRoundMetrics" (.obj (setField mfs "rounds" (.arr (metricsRoundsList v))))
      else fs)) := by
  unfold metricsBlock
  simp only [getProp_obj, ok_bind, h]
  rw [if_pos (by simp [truthy])]
  simp only [pure_eq_ok, ok_bind, getProp_obj, h, hr]
  by_cases hlt : lengthLtQ (Json.arr xs) v = true
  · rw [if_pos (Or.inr hlt)]
    simp only [setProp_obj, ok_bind]
    rw [pushAll_obj_arr (metricsRoundsList v) (objGet_setField_self mfs "rounds" (.arr []))]
    simp only [ok_bind, setProp_obj, List.nil_append, hlt, if_true, setField_setField]
  · rw [if_neg (by push_neg; exact ⟨by simp [truthy], by simpa using hlt⟩)]
    simp [hlt]

theorem trainingBlock_val_undef (st : Bool) (fs : List (String × Json))
    (h : objGet fs "trainingRecommendations" = .undef) :
    trainingBlock st (.obj fs) = .ok (.obj (setField fs "trainingRecommendations"
      (if st then .null else defaultTrainingRecommendations))) := by
  unfold trainingBlock
  simp only [getProp_obj, ok_bind, h]
  rw [if_neg (by simp [truthy])]
  rfl

theorem keyInsightsBlock_val_undef (st : Bool) (fs : List (String × Json))
    (h : objGet fs "keyInsights" = .undef) :
    keyInsightsBlock st (.obj fs) = .ok (.obj (setField fs "keyInsights"
      (if st then .null else defaultKeyInsights))) := by
  unfold keyInsightsBlock
  simp only [getProp_obj, ok_bind, h]
  rw [if_neg (by simp [truthy])]
  rfl

theorem midFightBlock_val_undef (st : Bool) (fs : List (String × Json))
    (h : objGet fs "midFightAdjustments" = .undef) :
    midFightBlock st (.obj fs) = .ok (.obj (setField fs "midFightAdjustments"
      (if st then .null else defaultMidFightAdjustments))) := by
  unfold midFightBlock
  cases st with
  | true =>
    simp only [getProp_obj, ok_bind, h]
    rw [if_neg (by simp [truthy])]
    simp only [setProp_obj, ok_bind, if_true]
    rfl
  | false =>
    simp only [getProp_obj, ok_bind, h]
    rw [if_neg (by simp [truthy])]
    simp only [setProp_obj, ok_bind, Bool.false_eq_true, if_false, getProp_obj,
      objGet_setField_self]
    rw [if_neg (by simp [truthy, defaultMidFightAdjustments])]
    rw [show getProp defaultMidFightAdjustments "adjustments" = .ok (.arr []) from rfl]
    simp only [ok_bind]
    rw [show List.mapM adjustmentEntryFix (ensureArray (Json.arr []) []) =
      (.ok [] : Except String (List Json)) from rfl]
    simp only [ok_bind]
    rw [show setProp defaultMidFightAdjustments "adjustments" (Json.arr []) =
      .ok defaultMidFightAdjustments from rfl]
    simp only [ok_bind, setProp_obj, setField_setField]




theorem gpSize1_obj_arr (u : ℚ) (ggs : List (String × Json)) (xs : List Json)
    (h : objGet ggs "roundByRound" = .arr xs) :
    gpSizeRoundByRound u (.obj ggs) = .ok (.obj (if lengthLtQ (.arr xs) u then
      setField ggs "roundByRound" (.arr (gamePlanRoundsList u)) else ggs)) := by
  unfold gpSizeRoundByRound
  simp only [getProp_obj, ok_bind, h]
  by_cases hl : lengthLtQ (Json.arr xs) u = true
  · rw [if_pos (Or.inr hl)]
    simp only [setProp_obj, ok_bind]
    rw [pushAll_obj_arr (gamePlanRoundsList u) (objGet_setField_self ggs "roundByRound" (.arr []))]
    simp only [List.nil_append, setField_setField, hl, if_true]
  · rw [if_neg (by push_neg; exact ⟨by simp [truthy], by simpa using hl⟩)]
    simp [hl]

theorem gpSize2_obj_arr (u : ℚ) (ggs : List (String × Json)) (ys : List Json)
    (h : objGet ggs "roundGamePlans" = .arr ys) :
    gpSizeRoundGamePlans u (.obj ggs) = .ok (.obj (if lengthLtQ (.arr ys) u then
      setField ggs "roundGamePlans" (.arr (roundGamePlansList u)) else ggs)) := by
  unfold gpSizeRoundGamePlans
  simp only [getProp_obj, ok_bind, h]
  by_cases hl : lengthLtQ (Json.arr ys) u = true
  · rw [if_pos (Or.inr hl)]
    simp only [setProp_obj, ok_bind]
    rw [pushAll_obj_arr (roundGamePlansList u) (objGet_setField_self ggs "roundGamePlans" (.arr []))]
    simp only [List.nil_append, setField_setField, hl, if_true]
  · rw [if_neg (by push_neg; exact ⟨by simp [truthy], by simpa using hl⟩)]
    simp [hl]

theorem gpFix_not_arr (ggs : List (String × Json))
    (h : objGet ggs "thingsToAvoid" = .undef) :
    gpFixThingsToAvoid (.obj ggs) = .ok (.obj ggs) := by
  unfold gpFixThingsToAvoid
  simp only [getProp_obj, ok_bind, h]
  rfl

theorem gpFix_nil_arr (ggs : List (String × Json))
    (h : objGet ggs "thingsToAvoid" = .arr []) :
    gpFixThingsToAvoid (.obj ggs) = .ok (.obj (setField ggs "thingsToAvoid" (.arr []))) := by
  unfold gpFixThingsToAvoid
  simp only [getProp_obj, ok_bind, h]
  rfl

theorem gamePlanBlock_val_undef (st : Bool) (u : ℚ) (fs : List (String × Json))
    (h : objGet fs "gamePlan" = .undef) :
    gamePlanBlock st u (.obj fs) = .ok (.obj (setField fs "gamePlan"
      (if st then .null else gamePlanFilled u))) := by
  unfold gamePlanBlock
  cases st with
  | true =>
    simp only [getProp_obj, ok_bind, h]
    rw [if_neg (by simp [truthy])]
    simp only [setProp_obj, ok_bind, if_true]
    rfl
  | false =>
    simp only [getProp_obj, ok_bind, h]
    rw [if_neg (by simp [truthy])]
    simp only [setProp_obj, ok_bind, Bool.false_eq_true, if_false, getProp_obj,
      objGet_setField_self]
    rw [if_neg (by simp [truthy, defaultGamePlanBase])]
    unfold gamePlanSizing
    rw [show (defaultGamePlanBase : Json) = Json.obj [("overallStrategy", .str "Implement a balanced game plan."),
      ("roundByRound", .arr []), ("roundGamePlans", .arr []), ("keyTactics", .arr []),
      ("thingsToAvoid", .arr [])] from rfl]
    rw [gpSize1_obj_arr u _ [] (by rfl)]
    simp only [ok_bind]
    by_cases hl : lengthLtQ (Json.arr []) u = true
    · rw [if_pos hl]
      rw [gpSize2_obj_arr u _ [] (by rw [objGet_setField_ne _ _ (by decide)]; rfl)]
      rw [if_pos hl]
      simp only [ok_bind]
      rw [gpFix_nil_arr _ (by rw [objGet_setField_ne _ _ (by decide),
        objGet_setField_ne _ _ (by decide)]; rfl)]
      simp only [ok_bind, setProp_obj, setField_setField]
      rfl
    · rw [if_neg hl]
      rw [gpSize2_obj_arr u _ [] (by rfl)]
      rw [if_neg hl]
      simp only [ok_bind]
      rw [gpFix_nil_arr _ (by rfl)]
      simp only [ok_bind, setProp_obj, setField_setField]
      have hz : roundCount u = 0 := not_lengthLt_nil (by simp [hl])
      have h1 : gamePlanRoundsList u = [] := by simp [gamePlanRoundsList, hz]
      have h2 : roundGamePlansList u = [] := by simp [roundGamePlansList, hz]
      simp [gamePlanFilled, h1, h2]
      rfl

theorem gamePlanBlock_val_present (u : ℚ) (fs ggs : List (String × Json)) (xs ys : List Json)
    (h : objGet fs "gamePlan" = .obj ggs)
    (hrb : objGet ggs "roundByRound" = .arr xs)
    (hrg : objGet ggs "roundGamePlans" = .arr ys)
    (hta : objGet ggs "thingsToAvoid" = .undef) :
    gamePlanBlock false u (.obj fs) = .ok (.obj (setField fs "gamePlan"
      (.obj (gamePlanSizedFields u ggs xs ys)))) := by
  unfold gamePlanBlock
  simp only [getProp_obj, ok_bind, h]
  rw [if_pos (by simp [truthy])]
  simp only [pure_eq_ok, ok_bind, Bool.false_eq_true, if_false, getProp_obj, h]
  rw [if_neg (by simp [truthy])]
  unfold gamePlanSizing
  rw [gpSize1_obj_arr u ggs xs hrb]
  simp only [ok_bind]
  by_cases hl1 : lengthLtQ (Json.arr xs) u = true
  · rw [if_pos hl1]
    rw [gpSize2_obj_arr u _ ys (by rw [objGet_setField_ne _ _ (by decide)]; exact hrg)]
    simp only [ok_bind]
    by_cases hl2 : lengthLtQ (Json.arr ys) u = true
    · rw [if_pos hl2]
      rw [gpFix_not_arr _ (by rw [objGet_setField_ne _ _ (by decide),
        objGet_setField_ne _ _ (by decide)]; exact hta)]
      simp only [ok_bind, setProp_obj]
      simp [gamePlanSizedFields, hl1, hl2]
    · rw [if_neg hl2]
      rw [gpFix_not_arr _ (by rw [objGet_setField_ne _ _ (by decide)]; exact hta)]
      simp only [ok_bind, setProp_obj]
      simp [gamePlanSizedFields, hl1, hl2]
  · rw [if_neg hl1]
    rw [gpSize2_obj_arr u _ ys hrg]
    simp only [ok_bind]
    by_cases hl2 : lengthLtQ (Json.arr ys) u = true
    · rw [if_pos hl2]
      rw [gpFix_not_arr _ (by rw [objGet_setField_ne _ _ (by decide)]; exact hta)]
      simp only [ok_bind, setProp_obj]
      simp [gamePlanSizedFields, hl1, hl2]
    · rw [if_neg hl2]
      rw [gpFix_not_arr _ hta]
      simp only [ok_bind, setProp_obj]
      simp [gamePlanSizedFields, hl1, hl2]




/-- Master characterization of the single-fighter normalizer on an
object report: the result is an object, and each round-sensitive or
role-gated section's final value is determined by its section's input
value, with every other paragraph leaving it untouched. -/
theorem validate_single_master (cfg : Config) (fs : List (String × Json)) {r : Json}
    (hm : ¬cfg.analysisType = some "both")
    (h : validateAndFixAnalysisData cfg (.obj fs) = .ok r) :
    ∃ gs, r = .obj gs ∧
      (objGet fs "cardioAnalysis" = .undef →
        objGet gs "cardioAnalysis" = cardioFilled (normalizerVideoRounds cfg)) ∧
      (∀ cfs xs, objGet fs "cardioAnalysis" = .obj cfs → objGet cfs "roundByRound" = .arr xs →
        objGet gs "cardioAnalysis" = (if xs.isEmpty then
          .obj (setField cfs "roundByRound" (.arr (cardioRoundsList (normalizerVideoRounds cfg))))
          else .obj cfs)) ∧
      (objGet fs "roundByRoundMetrics" = .undef →
        objGet gs "roundByRoundMetrics" = metricsFilled (normalizerVideoRounds cfg)) ∧
      (∀ mfs xs, objGet fs "roundByRoundMetrics" = .obj mfs → objGet mfs "rounds" = .arr xs →
        objGet gs "roundByRoundMetrics" = (if lengthLtQ (.arr xs) (normalizerVideoRounds cfg) then
          .obj (setField mfs "rounds" (.arr (metricsRoundsList (normalizerVideoRounds cfg))))
          else .obj mfs)) ∧
      (objGet fs "gamePlan" = .undef →
        objGet gs "gamePlan" = (if getUserRoleType cfg.userRole = "study" then .null
          else gamePlanFilled (jsOrQ cfg.userFightRounds 3))) ∧
      (∀ ggs xs ys, ¬getUserRoleType cfg.userRole = "study" →
        objGet fs "gamePlan" = .obj ggs → objGet ggs "roundByRound" = .arr xs →
        objGet ggs "roundGamePlans" = .arr ys → objGet ggs "thingsToAvoid" = .undef →
        objGet gs "gamePlan" = .obj (gamePlanSizedFields (jsOrQ cfg.userFightRounds 3) ggs xs ys)) ∧
      (objGet fs "midFightAdjustments" = .undef →
        objGet gs "midFightAdjustments" = (if getUserRoleType cfg.userRole = "study" then .null
          else defaultMidFightAdjustments)) ∧
      (objGet fs "trainingRecommendations" = .undef →
        objGet gs "trainingRecommendations" = (if getUserRoleType cfg.userRole = "study" then .null
          else defaultTrainingRecommendations)) ∧
      (objGet fs "keyInsights" = .undef →
        objGet gs "keyInsights" = (if getUserRoleType cfg.userRole = "study" then .null
          else defaultKeyInsights)) := by
  unfold validateAndFixAnalysisData at h
  rw [if_neg hm] at h
  obtain ⟨d15, h15, hB16⟩ := bind_eq_ok.mp h
  obtain ⟨d14, h14, hB15⟩ := bind_eq_ok.mp h15
  obtain ⟨d13, h13, hB14⟩ := bind_eq_ok.mp h14
  obtain ⟨d12, h12, hB13⟩ := bind_eq_ok.mp h13
  obtain ⟨d11, h11, hB12⟩ := bind_eq_ok.mp h12
  obtain ⟨d10, h10, hB11⟩ := bind_eq_ok.mp h11
  obtain ⟨d9, h9, hB10⟩ := bind_eq_ok.mp h10
  obtain ⟨d8, h8, hB9⟩ := bind_eq_ok.mp h9
  obtain ⟨d7, h7, hB8⟩ := bind_eq_ok.mp h8
  obtain ⟨d6, h6, hB7⟩ := bind_eq_ok.mp h7
  obtain ⟨d5, h5, hB6⟩ := bind_eq_ok.mp h6
  obtain ⟨d4, h4, hB5⟩ := bind_eq_ok.mp h5
  obtain ⟨d3, h3, hB4⟩ := bind_eq_ok.mp h4
  obtain ⟨d2, h2, hB3⟩ := bind_eq_ok.mp h3
  obtain ⟨d1, hB1, hB2⟩ := bind_eq_ok.mp h2
  obtain ⟨fs1, rfl, p1⟩ := (fiBlock_shape cfg).preserve hB1
  obtain ⟨fs2, rfl, p2⟩ := execBlock_shape.preserve hB2
  obtain ⟨fs3, rfl, p3⟩ := styleBlock_shape.preserve hB3
  obtain ⟨fs4, rfl, p4⟩ := strikeBlock_shape.preserve hB4
  obtain ⟨fs5, rfl, p5⟩ := grapplingBlock_shape.preserve hB5
  obtain ⟨fs6, rfl, p6⟩ := defenseBlock_shape.preserve hB6
  obtain ⟨fs7, rfl, p7⟩ := (cardioBlock_shape _).preserve hB7
  obtain ⟨fs8, rfl, p8⟩ := fightIQBlock_shape.preserve hB8
  obtain ⟨fs9, rfl, p9⟩ := swBlock_shape.preserve hB9
  obtain ⟨fs10, rfl, p10⟩ := mistakeBlock_shape.preserve hB10
  obtain ⟨fs11, rfl, p11⟩ := counterBlock_shape.preserve hB11
  obtain ⟨fs12, rfl, p12⟩ := (gamePlanBlock_shape _ _).preserve hB12
  obtain ⟨fs13, rfl, p13⟩ := (midFightBlock_shape _).preserve hB13
  obtain ⟨fs14, rfl, p14⟩ := (trainingBlock_shape _).preserve hB14
  obtain ⟨fs15, rfl, p15⟩ := (keyInsightsBlock_shape _).preserve hB15
  obtain ⟨gs, rfl, p16⟩ := (metricsBlock_shape _).preserve hB16
  have tc_in : objGet fs6 "cardioAnalysis" = objGet fs "cardioAnalysis" := by
    rw [p6 _ (by decide), p5 _ (by decide), p4 _ (by decide), p3 _ (by decide),
      p2 _ (by decide), p1 _ (by decide)]
  have tc_out : objGet gs "cardioAnalysis" = objGet fs7 "cardioAnalysis" := by
    rw [p16 _ (by decide), p15 _ (by decide), p14 _ (by decide), p13 _ (by decide),
      p12 _ (by decide), p11 _ (by decide), p10 _ (by decide), p9 _ (by decide),
      p8 _ (by decide)]
  have tm_in : objGet fs15 "roundByRoundMetrics" = objGet fs "roundByRoundMetrics" := by
    rw [p15 _ (by decide), p14 _ (by decide), p13 _ (by decide), p12 _ (by decide),
      p11 _ (by decide), p10 _ (by decide), p9 _ (by decide), p8 _ (by decide),
      p7 _ (by decide), p6 _ (by decide), p5 _ (by decide), p4 _ (by decide),
      p3 _ (by decide), p2 _ (by decide), p1 _ (by decide)]
  have tg_in : objGet fs11 "gamePlan" = objGet fs "gamePlan" := by
    rw [p11 _ (by decide), p10 _ (by decide), p9 _ (by decide), p8 _ (by decide),
      p7 _ (by decide), p6 _ (by decide), p5 _ (by decide), p4 _ (by decide),
      p3 _ (by decide), p2 _ (by decide), p1 _ (by decide)]
  have tg_out : objGet gs "gamePlan" = objGet fs12 "gamePlan" := by
    rw [p16 _ (by decide), p15 _ (by decide), p14 _ (by decide), p13 _ (by decide)]
  have tmf_in : objGet fs12 "midFightAdjustments" = objGet fs "midFightAdjustments" := by
    rw [p12 _ (by decide), p11 _ (by decide), p10 _ (by decide), p9 _ (by decide),
      p8 _ (by decide), p7 _ (by decide), p6 _ (by decide), p5 _ (by decide),
      p4 _ (by decide), p3 _ (by decide), p2 _ (by decide), p1 _ (by decide)]
  have tmf_out : objGet gs "midFightAdjustments" = objGet fs13 "midFightAdjustments" := by
    rw [p16 _ (by decide), p15 _ (by decide), p14 _ (by decide)]
  have ttr_in : objGet fs13 "trainingRecommendations" = objGet fs "trainingRecommendations" := by
    rw [p13 _ (by decide), p12 _ (by decide), p11 _ (by decide), p10 _ (by decide),
      p9 _ (by decide), p8 _ (by decide), p7 _ (by decide), p6 _ (by decide),
      p5 _ (by decide), p4 _ (by decide), p3 _ (by decide), p2 _ (by decide),
      p1 _ (by decide)]
  have ttr_out : objGet gs "trainingRecommendations" = objGet fs14 "trainingRecommendations" := by
    rw [p16 _ (by decide), p15 _ (by decide)]
  have tki_in : objGet fs14 "keyInsights" = objGet fs "keyInsights" := by
    rw [p14 _ (by decide), p13 _ (by decide), p12 _ (by decide), p11 _ (by decide),
      p10 _ (by decide), p9 _ (by decide), p8 _ (by decide), p7 _ (by decide),
      p6 _ (by decide), p5 _ (by decide), p4 _ (by decide), p3 _ (by decide),
      p2 _ (by decide), p1 _ (by decide)]
  have tki_out : objGet gs "keyInsights" = objGet fs15 "keyInsights" := by
    rw [p16 _ (by decide)]
  refine ⟨gs, rfl, ?_, ?_, ?_, ?_, ?_, ?_, ?_, ?_, ?_⟩
  · intro hA
    have hv := cardioBlock_val_undef (normalizerVideoRounds cfg) fs6 (tc_in.trans hA)
    rw [hB7] at hv
    injection hv with hv
    injection hv with hv
    rw [tc_out, hv, objGet_setField_self]
  · intro cfs xs hA hrb
    have hv := cardioBlock_val_obj (normalizerVideoRounds cfg) fs6 cfs xs (tc_in.trans hA) hrb
    rw [hB7] at hv
    injection hv with hv
    injection hv with hv
    rw [tc_out, hv]
    by_cases he : xs.isEmpty
    · rw [if_pos he, if_pos he, objGet_setField_self]
    · rw [if_neg he, if_neg he]
      exact tc_in.trans hA
  · intro hA
    have hv := metricsBlock_val_undef (normalizerVideoRounds cfg) fs15 (tm_in.trans hA)
    rw [hB16] at hv
    injection hv with hv
    injection hv with hv
    rw [hv, objGet_setField_self]
  · intro mfs xs hA hr
    have hv := metricsBlock_val_obj (normalizerVideoRounds cfg) fs15 mfs xs (tm_in.trans hA) hr
    rw [hB16] at hv
    injection hv with hv
    injection hv with hv
    rw [hv]
    by_cases hlt : lengthLtQ (Json.arr xs) (normalizerVideoRounds cfg) = true
    · rw [if_pos hlt, if_pos hlt, objGet_setField_self]
    · rw [if_neg hlt, if_neg hlt]
      exact tm_in.trans hA
  · intro hA
    have hv := gamePlanBlock_val_undef (decide (getUserRoleType cfg.userRole = "study"))
      (jsOrQ cfg.userFightRounds 3) fs11 (tg_in.trans hA)
    rw [hB12] at hv
    injection hv with hv
    injection hv with hv
    rw [tg_out, hv, objGet_setField_self]
    by_cases hst : getUserRoleType cfg.userRole = "study" <;> simp [hst]
  · intro ggs xs ys hst hA hrb hrg hta
    have hst2 : (decide (getUserRoleType cfg.userRole = "study")) = false := by simp [hst]
    have hv := gamePlanBlock_val_present (jsOrQ cfg.userFightRounds 3) fs11 ggs xs ys
      (tg_in.trans hA) hrb hrg hta
    rw [hst2] at hB12
    rw [hB12] at hv
    injection hv with hv
    injection hv with hv
    rw [tg_out, hv, objGet_setField_self]
  · intro hA
    have hv := midFightBlock_val_undef (decide (getUserRoleType cfg.userRole = "study"))
      fs12 (tmf_in.trans hA)
    rw [hB13] at hv
    injection hv with hv
    injection hv with hv
    rw [tmf_out, hv, objGet_setField_self]
    by_cases hst : getUserRoleType cfg.userRole = "study" <;> simp [hst]
  · intro hA
    have hv := trainingBlock_val_undef (decide (getUserRoleType cfg.userRole = "study"))
      fs13 (ttr_in.trans hA)
    rw [hB14] at hv
    injection hv with hv
    injection hv with hv
    rw [ttr_out, hv, objGet_setField_self]
    by_cases hst : getUserRoleType cfg.userRole = "study" <;> simp [hst]
  · intro hA
    have hv := keyInsightsBlock_val_undef (decide (getUserRoleType cfg.userRole = "study"))
      fs14 (tki_in.trans hA)
    rw [hB15] at hv
    injection hv with hv
    injection hv with hv
    rw [tki_out, hv, objGet_setField_self]
    by_cases hst : getUserRoleType cfg.userRole = "study" <;> simp [hst]



theorem cardioRoundsList_length (v : ℚ) : (cardioRoundsList v).length = roundCount v := by
  simp [cardioRoundsList]

theorem metricsRoundsList_length (v : ℚ) : (metricsRoundsList v).length = roundCount v := by
  simp [metricsRoundsList]

theorem gamePlanRoundsList_length (u : ℚ) : (gamePlanRoundsList u).length = roundCount u := by
  simp [gamePlanRoundsList]

theorem roundGamePlansList_length (u : ℚ) : (roundGamePlansList u).length = roundCount u := by
  simp [roundGamePlansList]

/-- C5.  For a single-fighter request whose model response omits the
four coaching-oriented sections, the normalized report sets them to
explicit `null` under the study role, and populates them with the
synthetic defaults under any other role. -/
theorem c5_study_sections (cfg : Config) (fs : List (String × Json)) (r : Json)
    (hm : ¬cfg.analysisType = some "both")
    (hgp : objGet fs "gamePlan" = .undef)
    (hmf : objGet fs "midFightAdjustments" = .undef)
    (htr : objGet fs "trainingRecommendations" = .undef)
    (hki : objGet fs "keyInsights" = .undef)
    (h : validateAndFixAnalysisData cfg (.obj fs) = .ok r) :
    ∃ gs, r = .obj gs ∧
      (getUserRoleType cfg.userRole = "study" →
        objGet gs "gamePlan" = .null ∧ objGet gs "midFightAdjustments" = .null ∧
        objGet gs "trainingRecommendations" = .null ∧ objGet gs "keyInsights" = .null) ∧
      (¬getUserRoleType cfg.userRole = "study" →
        objGet gs "gamePlan" = gamePlanFilled (jsOrQ cfg.userFightRounds 3) ∧
        objGet gs "midFightAdjustments" = defaultMidFightAdjustments ∧
        objGet gs "trainingRecommendations" = defaultTrainingRecommendations ∧
        objGet gs "keyInsights" = defaultKeyInsights) := by
  obtain ⟨gs, rfl, _, _, _, _, hGp, _, hMf, hTr, hKi⟩ := validate_single_master cfg fs hm h
  refine ⟨gs, rfl, ?_, ?_⟩
  · intro hst
    refine ⟨?_, ?_, ?_, ?_⟩
    · rw [hGp hgp, if_pos hst]
    · rw [hMf hmf, if_pos hst]
    · rw [hTr htr, if_pos hst]
    · rw [hKi hki, if_pos hst]
  · intro hst
    refine ⟨?_, ?_, ?_, ?_⟩
    · rw [hGp hgp, if_neg hst]
    · rw [hMf hmf, if_neg hst]
    · rw [hTr htr, if_neg hst]
    · rw [hKi hki, if_neg hst]

/-- Witness for C5 at a concrete study-role configuration and the empty
model response. -/
theorem c5_study_sections_witness :
    ∃ r gs, validateAndFixAnalysisData cfgStudyW (.obj []) = .ok r ∧ r = .obj gs ∧
      objGet gs "gamePlan" = Json.null ∧ objGet gs "midFightAdjustments" = Json.null ∧
      objGet gs "trainingRecommendations" = Json.null ∧ objGet gs "keyInsights" = Json.null := by
  have hOk : (validateAndFixAnalysisData cfgStudyW (.obj [])).isOk = true := by decide
  cases h : validateAndFixAnalysisData cfgStudyW (.obj []) with
  | error e => rw [h] at hOk; simp [Except.isOk, Except.toBool] at hOk
  | ok r =>
    obtain ⟨gs, rfl, hs, _⟩ := c5_study_sections cfgStudyW [] r (by decide) rfl rfl rfl rfl h
    exact ⟨.obj gs, gs, rfl, rfl, hs (by decide)⟩


/-- C4 counterexample.  A cardio section whose `roundByRound` has a
single entry is kept at a single entry even though the video-derived
round count is 3: the cardio paragraph regenerates only when the array
is empty, not whenever it is too short. -/
theorem c4_counterexample :
    arrLenAt (runNormalizer ({} : Config) dataCardioOne) "cardioAnalysis" "roundByRound"
      = some 1 ∧
    roundCount (normalizerVideoRounds ({} : Config)) = 3 := by
  decide

/-- C4 (amended).  In the single-fighter path, sections the model omitted
are synthesized with exactly the governing round count of entries
(video-derived count for cardio and metrics, `userFightRounds` for the
two game-plan round arrays); but a cardio section arriving with a
non-empty `roundByRound` array is kept as-is, even when it has fewer
entries than the video-derived round count. -/
theorem c4_round_sizing (cfg : Config) (fs : List (String × Json)) (r : Json)
    (hm : ¬cfg.analysisType = some "both")
    (h : validateAndFixAnalysisData cfg (.obj fs) = .ok r) :
    ∃ gs, r = .obj gs ∧
      (objGet fs "cardioAnalysis" = .undef →
        ∃ cfs xs, objGet gs "cardioAnalysis" = .obj cfs ∧
          objGet cfs "roundByRound" = .arr xs ∧
          xs.length = roundCount (normalizerVideoRounds cfg)) ∧
      (objGet fs "roundByRoundMetrics" = .undef →
        ∃ mfs xs, objGet gs "roundByRoundMetrics" = .obj mfs ∧
          objGet mfs "rounds" = .arr xs ∧
          xs.length = roundCount (normalizerVideoRounds cfg)) ∧
      (¬getUserRoleType cfg.userRole = "study" → objGet fs "gamePlan" = .undef →
        ∃ ggs xs ys, objGet gs "gamePlan" = .obj ggs ∧
          objGet ggs "roundByRound" = .arr xs ∧ objGet ggs "roundGamePlans" = .arr ys ∧
          xs.length = roundCount (jsOrQ cfg.userFightRounds 3) ∧
          ys.length = roundCount (jsOrQ cfg.userFightRounds 3)) ∧
      (∀ cfs xs, objGet fs "cardioAnalysis" = .obj cfs → objGet cfs "roundByRound" = .arr xs →
        ¬xs.isEmpty = true → objGet gs "cardioAnalysis" = .obj cfs) := by
  obtain ⟨gs, rfl, hC1, hC2, hM1, _, hGp, _, _, _, _⟩ := validate_single_master cfg fs hm h
  refine ⟨gs, rfl, ?_, ?_, ?_, ?_⟩
  · intro hu
    exact ⟨_, _, hC1 hu, rfl, cardioRoundsList_length _⟩
  · intro hu
    exact ⟨_, _, hM1 hu, rfl, metricsRoundsList_length _⟩
  · intro hst hu
    have hg := hGp hu
    rw [if_neg hst] at hg
    exact ⟨_, _, _, hg, rfl, rfl, gamePlanRoundsList_length _, roundGamePlansList_length _⟩
  · intro cfs xs h1 h2 hne
    have hk := hC2 cfs xs h1 h2
    rw [if_neg hne] at hk
    exact hk

/-- Witness for C4 at `userFightRounds = 5`, `videoRounds = 2` and the
empty model response: cardio gets 2 synthesized rounds and the game-plan
arrays get 5. -/
theorem c4_round_sizing_witness :
    ∃ r gs cfs xs ggs ys zs,
      validateAndFixAnalysisData cfgRounds52 (.obj []) = .ok r ∧ r = .obj gs ∧
      objGet gs "cardioAnalysis" = .obj cfs ∧ objGet cfs "roundByRound" = .arr xs ∧
      xs.length = 2 ∧
      objGet gs "gamePlan" = .obj ggs ∧ objGet ggs "roundByRound" = .arr ys ∧
      objGet ggs "roundGamePlans" = .arr zs ∧ ys.length = 5 ∧ zs.length = 5 := by
  have hOk : (validateAndFixAnalysisData cfgRounds52 (.obj [])).isOk = true := by decide
  cases h : validateAndFixAnalysisData cfgRounds52 (.obj []) with
  | error e => rw [h] at hOk; simp [Except.isOk, Except.toBool] at hOk
  | ok r =>
    obtain ⟨gs, rfl, hC, _, hG, _⟩ := c4_round_sizing cfgRounds52 [] r (by decide) h
    obtain ⟨cfs, xs, hc1, hc2, hc3⟩ := hC rfl
    obtain ⟨ggs, ys, zs, hg1, hg2, hg3, hg4, hg5⟩ := hG (by decide) rfl
    refine ⟨.obj gs, gs, cfs, xs, ggs, ys, zs, rfl, rfl, hc1, hc2, ?_, hg1, hg2, hg3, ?_, ?_⟩
    · rw [hc3]; decide
    · rw [hg4]; decide
    · rw [hg5]; decide

/-- The duration-derived round bound at a 300-second video is 2. -/
theorem maxRounds_some300 : (calculateVideoRoundConstraints (some 300)).maxRounds = 2 := by
  simp only [calculateVideoRoundConstraints]
  rw [if_neg (by norm_num)]
  have hc : ⌈((300:ℚ)/60)/4⌉ = 2 := by
    rw [Int.ceil_eq_iff]; constructor <;> norm_num
  simp only [hc]
  norm_num

/-- C10.  The normalizer sizes round arrays from the raw configured
`videoRounds` (default 3) with no duration clamp, while the prompt uses
the clamped value: whenever the claimed count exceeds the
duration-derived maximum, the normalizer count strictly exceeds the
prompt count.  Concretely, claiming 12 rounds for a 300-second video
yields a prompt asking for 2 rounds, yet the normalized report carries
12 per-round metric entries. -/
theorem c10_normalizer_ignores_clamp :
    (∀ cfg : Config,
      (calculateVideoRoundConstraints cfg.videoDuration).maxRounds < jsOrQ cfg.videoRounds 3 →
      promptVideoRounds cfg = (calculateVideoRoundConstraints cfg.videoDuration).maxRounds ∧
      promptVideoRounds cfg < normalizerVideoRounds cfg) ∧
    promptVideoRounds cfgClaimed12 = 2 ∧
    arrLenAt (runNormalizer cfgClaimed12 (.obj [])) "roundByRoundMetrics" "rounds" = some 12 := by
  refine ⟨fun cfg hlt => ?_, ?_, by decide⟩
  · have he : promptVideoRounds cfg
        = (calculateVideoRoundConstraints cfg.videoDuration).maxRounds :=
      min_eq_right hlt.le
    exact ⟨he, by rw [he]; exact hlt⟩
  · show min (jsOrQ (some 12) 3) (calculateVideoRoundConstraints (some 300)).maxRounds = 2
    rw [maxRounds_some300]
    simp only [jsOrQ]
    rw [if_neg (by norm_num), min_eq_right (by norm_num)]

/-- Witness for C10's clamped-configuration hypothesis at the concrete
12-round / 300-second configuration. -/
theorem c10_normalizer_ignores_clamp_witness :
    promptVideoRounds cfgClaimed12 < normalizerVideoRounds cfgClaimed12 :=
  (c10_normalizer_ignores_clamp.1 cfgClaimed12 (by
    show (calculateVideoRoundConstraints (some 300)).maxRounds < jsOrQ (some 12) 3
    rw [maxRounds_some300]
    simp only [jsOrQ]
    rw [if_neg (by norm_num)]
    norm_num)).2


/-- C7.  The duration-derived round bound: missing or non-positive
duration gives `maxRounds = 1` with `canDetermineRounds = false`;
otherwise `maxRounds = max 1 ⌈(s/60)/4⌉` (420 s → 2, 1800 s → 8); and
the prompt's video round count is the claimed count clamped to this
bound (claimed 12 at 300 s → 2). -/
theorem c7_duration_round_bound :
    calculateVideoRoundConstraints none = ⟨1, 0, false⟩ ∧
    (∀ s : ℚ, s ≤ 0 → calculateVideoRoundConstraints (some s) = ⟨1, 0, false⟩) ∧
    (∀ s : ℚ, 0 < s → (calculateVideoRoundConstraints (some s)).maxRounds
        = max 1 ((⌈(s/60)/4⌉ : ℤ) : ℚ)) ∧
    (calculateVideoRoundConstraints (some 420)).maxRounds = 2 ∧
    (calculateVideoRoundConstraints (some 1800)).maxRounds = 8 ∧
    (∀ cfg : Config, promptVideoRounds cfg
        ≤ (calculateVideoRoundConstraints cfg.videoDuration).maxRounds) ∧
    promptVideoRounds cfgClaimed12 = 2 := by
  refine ⟨rfl, ?_, ?_, ?_, ?_, fun cfg => min_le_right _ _, ?_⟩
  · intro s hs
    simp only [calculateVideoRoundConstraints]
    rw [if_pos hs]
  · intro s hs
    simp only [calculateVideoRoundConstraints]
    rw [if_neg (not_le.mpr hs)]
  · simp only [calculateVideoRoundConstraints]
    rw [if_neg (by norm_num)]
    have hc : ⌈((420:ℚ)/60)/4⌉ = 2 := by
      rw [Int.ceil_eq_iff]; constructor <;> norm_num
    simp only [hc]
    norm_num
  · simp only [calculateVideoRoundConstraints]
    rw [if_neg (by norm_num)]
    have hc : ⌈((1800:ℚ)/60)/4⌉ = 8 := by
      rw [Int.ceil_eq_iff]; constructor <;> norm_num
    simp only [hc]
    norm_num
  · show min (jsOrQ (some 12) 3) (calculateVideoRoundConstraints (some 300)).maxRounds = 2
    rw [maxRounds_some300]
    simp only [jsOrQ]
    rw [if_neg (by norm_num), min_eq_right (by norm_num)]

/-- Witness for C7's conditional parts at concrete durations. -/
theorem c7_duration_round_bound_witness :
    calculateVideoRoundConstraints (some (-5)) = ⟨1, 0, false⟩ ∧
    (calculateVideoRoundConstraints (some 240)).maxRounds
      = max 1 ((⌈((240:ℚ)/60)/4⌉ : ℤ) : ℚ) :=
  ⟨c7_duration_round_bound.2.1 (-5) (by norm_num),
   c7_duration_round_bound.2.2.1 240 (by norm_num)⟩

/-- C8.  Role classification: every input maps to one of the three
canonical roles; a missing or empty role gives "fighter"; the checks run
in source order (fighter-phrases, then "coach", then
"study"/"analysis"/"general") with first match winning and "fighter" as
the fallback; a string containing both "coach" and "fighter" resolves to
"fighter". -/
theorem c8_role_classification :
    (∀ r : Option String, getUserRoleType r = "fighter" ∨ getUserRoleType r = "coach" ∨
      getUserRoleType r = "study") ∧
    getUserRoleType none = "fighter" ∧
    getUserRoleType (some "") = "fighter" ∧
    (∀ r : String, strIncludes (lowerStr r) "fighter" = true →
      getUserRoleType (some r) = "fighter") ∧
    (∀ r : String, ¬r = "" →
      ¬strIncludes (lowerStr r) "preparing to fight" = true →
      ¬strIncludes (lowerStr r) "fighter" = true →
      strIncludes (lowerStr r) "coach" = true → getUserRoleType (some r) = "coach") ∧
    (∀ r : String, ¬r = "" →
      ¬strIncludes (lowerStr r) "preparing to fight" = true →
      ¬strIncludes (lowerStr r) "fighter" = true →
      ¬strIncludes (lowerStr r) "coach" = true →
      (strIncludes (lowerStr r) "study" || strIncludes (lowerStr r) "analysis"
        || strIncludes (lowerStr r) "general") = true →
      getUserRoleType (some r) = "study") ∧
    (∀ r : String, ¬r = "" →
      ¬strIncludes (lowerStr r) "preparing to fight" = true →
      ¬strIncludes (lowerStr r) "fighter" = true →
      ¬strIncludes (lowerStr r) "coach" = true →
      ¬strIncludes (lowerStr r) "study" = true →
      ¬strIncludes (lowerStr r) "analysis" = true →
      ¬strIncludes (lowerStr r) "general" = true →
      getUserRoleType (some r) = "fighter") ∧
    getUserRoleType (some "Coach of an amateur FIGHTER") = "fighter" := by
  refine ⟨?_, rfl, rfl, ?_, ?_, ?_, ?_, by decide⟩
  · intro r
    match r with
    | none => exact Or.inl rfl
    | some s =>
      simp only [getUserRoleType]
      by_cases he : s = ""
      · rw [if_pos he]; exact Or.inl rfl
      · rw [if_neg he]
        by_cases h1 : (strIncludes (lowerStr s) "preparing to fight"
            || strIncludes (lowerStr s) "fighter") = true
        · rw [if_pos h1]; exact Or.inl rfl
        · rw [if_neg h1]
          by_cases h2 : strIncludes (lowerStr s) "coach" = true
          · rw [if_pos h2]; exact Or.inr (Or.inl rfl)
          · rw [if_neg h2]
            by_cases h3 : (strIncludes (lowerStr s) "study"
                || strIncludes (lowerStr s) "analysis"
                || strIncludes (lowerStr s) "general") = true
            · rw [if_pos h3]; exact Or.inr (Or.inr rfl)
            · rw [if_neg h3]; exact Or.inl rfl
  · intro s h
    simp only [getUserRoleType]
    by_cases he : s = ""
    · rw [if_pos he]
    · rw [if_neg he, if_pos (by simp [h])]
  · intro s he h1 h2 h3
    simp only [getUserRoleType]
    rw [if_neg he, if_neg (by simp only [Bool.or_eq_true]; push_neg; exact ⟨h1, h2⟩),
      if_pos h3]
  · intro s he h1 h2 h3 h4
    simp only [getUserRoleType]
    rw [if_neg he, if_neg (by simp only [Bool.or_eq_true]; push_neg; exact ⟨h1, h2⟩),
      if_neg h3, if_pos h4]
  · intro s he h1 h2 h3 h4 h5 h6
    simp only [getUserRoleType]
    rw [if_neg he, if_neg (by simp only [Bool.or_eq_true]; push_neg; exact ⟨h1, h2⟩),
      if_neg h3, if_neg (by simp only [Bool.or_eq_true]; push_neg; exact ⟨⟨h4, h5⟩, h6⟩)]

/-- Witness for C8's conditional classifications at concrete strings. -/
theorem c8_role_classification_witness :
    getUserRoleType (some "MMA Fighter") = "fighter" ∧
    getUserRoleType (some "BJJ Coach") = "coach" ∧
    getUserRoleType (some "General study") = "study" ∧
    getUserRoleType (some "spectator") = "fighter" :=
  ⟨c8_role_classification.2.2.2.1 "MMA Fighter" (by decide),
   c8_role_classification.2.2.2.2.1 "BJJ Coach" (by decide) (by decide) (by decide) (by decide),
   c8_role_classification.2.2.2.2.2.1 "General study" (by decide) (by decide) (by decide)
     (by decide) (by decide),
   c8_role_classification.2.2.2.2.2.2.1 "spectator" (by decide) (by decide) (by decide)
     (by decide) (by decide) (by decide) (by decide)⟩


theorem selectFramesLoop_length_le (n maxF step : Nat) :
    ∀ fuel i c, (selectFramesLoop n maxF step fuel i c).length ≤ maxF - c := by
  intro fuel
  induction fuel with
  | zero => intro i c; simp [selectFramesLoop]
  | succ f ih =>
    intro i c
    simp only [selectFramesLoop]
    by_cases h : i < n ∧ c < maxF
    · rw [if_pos h]
      have := ih (i + step) (c + 1)
      simp only [List.length_cons]
      omega
    · rw [if_neg h]
      simp

theorem selectFramesLoop_mem_lt (n maxF step : Nat) :
    ∀ fuel i c j, j ∈ selectFramesLoop n maxF step fuel i c → j < n := by
  intro fuel
  induction fuel with
  | zero => intro i c j hj; simp [selectFramesLoop] at hj
  | succ f ih =>
    intro i c j hj
    simp only [selectFramesLoop] at hj
    by_cases h : i < n ∧ c < maxF
    · rw [if_pos h] at hj
      rcases List.mem_cons.mp hj with rfl | hj
      · exact h.1
      · exact ih _ _ _ hj
    · rw [if_neg h] at hj
      simp at hj

theorem selectFramesLoop_chain (n maxF step : Nat) (hs : 1 ≤ step) :
    ∀ fuel i c j, j < i → List.Chain (· < ·) j (selectFramesLoop n maxF step fuel i c) := by
  intro fuel
  induction fuel with
  | zero => intro i c j hj; simp [selectFramesLoop, List.Chain.nil]
  | succ f ih =>
    intro i c j hj
    simp only [selectFramesLoop]
    by_cases h : i < n ∧ c < maxF
    · rw [if_pos h]
      exact List.Chain.cons hj (ih (i + step) (c + 1) i (by omega))
    · rw [if_neg h]
      exact List.Chain.nil

theorem selectFramesLoop_chain_of_lt (n maxF step : Nat) (hs : 1 ≤ step) (fuel i c : Nat) :
    List.Chain' (· < ·) (selectFramesLoop n maxF step fuel i c) := by
  cases fuel with
  | zero => simp [selectFramesLoop]
  | succ f =>
    simp only [selectFramesLoop]
    by_cases h : i < n ∧ c < maxF
    · rw [if_pos h]
      exact selectFramesLoop_chain n maxF step hs f (i + step) (c + 1) i (by omega)
    · rw [if_neg h]
      simp

theorem selectFramesLoop_eq_map (n maxF step : Nat) :
    ∀ fuel i c, ∃ k, selectFramesLoop n maxF step fuel i c =
      (List.range k).map (fun j => i + j * step) := by
  intro fuel
  induction fuel with
  | zero => intro i c; exact ⟨0, by simp [selectFramesLoop]⟩
  | succ f ih =>
    intro i c
    by_cases h : i < n ∧ c < maxF
    · obtain ⟨k, hk⟩ := ih (i + step) (c + 1)
      refine ⟨k + 1, ?_⟩
      simp only [selectFramesLoop]
      rw [if_pos h, hk]
      rw [List.range_succ_eq_map, List.map_cons, List.map_map]
      refine List.cons_eq_cons.mpr ⟨by simp, ?_⟩
      congr 1
      funext j
      simp only [Function.comp, Nat.succ_eq_add_one]
      ring
    · refine ⟨0, ?_⟩
      simp only [selectFramesLoop]
      rw [if_neg h]
      simp

theorem selectFramesLoop_step_one (n : Nat) :
    ∀ fuel i, n ≤ fuel + i → selectFramesLoop n n 1 fuel i i = List.range' i (n - i) := by
  intro fuel
  induction fuel with
  | zero =>
    intro i hi
    have : n - i = 0 := by omega
    simp [selectFramesLoop, this]
  | succ f ih =>
    intro i hi
    simp only [selectFramesLoop]
    by_cases h : i < n ∧ i < n
    · rw [if_pos h]
      have hr := ih (i + 1) (by omega)
      rw [hr]
      have : n - i = (n - (i + 1)) + 1 := by omega
      rw [this, List.range'_succ]
    · rw [if_neg h]
      have : n - i = 0 := by omega
      simp [this]

/-- C1 counterexample.  With 21 supplied frames the stride is
`max 1 (21 / 20) = 1`, so the selection is exactly the first 20
indices — an initial prefix that never samples the last frame. -/
theorem c1_counterexample :
    selectedFrameIndices 21 = List.range 20 ∧ ¬20 ∈ selectedFrameIndices 21 := by
  decide

/-- C1 (amended).  Frame selection sends at most 20 indices, in strictly
increasing (temporal) order, all in range, spaced at the uniform stride
`max 1 ⌊n / min n 20⌋` starting from index 0; when at most 20 frames are
supplied, every frame is selected.  (For `21 ≤ n ≤ 39` the stride is 1,
so the selection is an initial prefix rather than a spread across the
full sequence.) -/
theorem c1_frame_selection :
    (∀ n, (selectedFrameIndices n).length ≤ 20) ∧
    (∀ n, List.Chain' (· < ·) (selectedFrameIndices n)) ∧
    (∀ n j, j ∈ selectedFrameIndices n → j < n) ∧
    (∀ n, ∃ k, selectedFrameIndices n = (List.range k).map (fun j => j * frameStepFor n)) ∧
    (∀ n, n ≤ 20 → selectedFrameIndices n = List.range n) := by
  refine ⟨?_, ?_, ?_, ?_, ?_⟩
  · intro n
    have h := selectFramesLoop_length_le n (maxFramesFor n) (frameStepFor n) (maxFramesFor n) 0 0
    have h2 : maxFramesFor n - 0 = maxFramesFor n := by omega
    rw [h2] at h
    exact h.trans (min_le_right n 20)
  · intro n
    exact selectFramesLoop_chain_of_lt n (maxFramesFor n) (frameStepFor n)
      (le_max_left 1 _) (maxFramesFor n) 0 0
  · intro n j hj
    exact selectFramesLoop_mem_lt n (maxFramesFor n) (frameStepFor n) (maxFramesFor n) 0 0 j hj
  · intro n
    obtain ⟨k, hk⟩ := selectFramesLoop_eq_map n (maxFramesFor n) (frameStepFor n)
      (maxFramesFor n) 0 0
    refine ⟨k, ?_⟩
    rw [show selectedFrameIndices n
      = selectFramesLoop n (maxFramesFor n) (frameStepFor n) (maxFramesFor n) 0 0 from rfl, hk]
    simp
  · intro n hn
    match n, hn with
    | 0, _ => rfl
    | (m + 1), hn =>
      have hmax : maxFramesFor (m + 1) = m + 1 := min_eq_left hn
      have hstep : frameStepFor (m + 1) = 1 := by
        show max 1 ((m + 1) / maxFramesFor (m + 1)) = 1
        rw [hmax, Nat.div_self (Nat.succ_pos m)]
        exact max_self 1
      show selectFramesLoop (m + 1) (maxFramesFor (m + 1)) (frameStepFor (m + 1))
        (maxFramesFor (m + 1)) 0 0 = List.range (m + 1)
      rw [hmax, hstep, selectFramesLoop_step_one (m + 1) (m + 1) 0 (by omega)]
      rw [Nat.sub_zero, ← List.range_eq_range']

/-- Witness for C1's conditional parts: with 7 supplied frames, index 3
is selected and in range, and all 7 frames are selected. -/
theorem c1_frame_selection_witness :
    (3 : Nat) < 7 ∧ selectedFrameIndices 7 = List.range 7 :=
  ⟨c1_frame_selection.2.2.1 7 3 (by decide), c1_frame_selection.2.2.2.2 7 (by decide)⟩


/-- C3 (refuted: code bug).  The normalizer is not total: a `null` entry
in `strengthsWeaknesses.strengths` makes the strengths-fixing loop read
`s.title` on `null`, which throws, so `validateAndFixAnalysisData`
propagates a TypeError instead of absorbing the malformed entry. -/
theorem c3_normalizer_not_total :
    validateAndFixAnalysisData ({} : Config) dataNullStrength
      = .error "TypeError: Cannot read properties of null (reading title)" := by
  rfl


/-- C6.  Every record in a job's lifecycle satisfies terminal-state
exclusivity (completed → report and no error; failed → error and no
report; processing → neither), and no transition in the trace leaves a
terminal status. -/
theorem c6_terminal_exclusivity (ctx : SubmissionContext) (outcome : Except String Json) :
    (∀ j ∈ jobTrace ctx outcome, exclusiveRecord j) ∧
    List.Chain' (fun a b => a.status.isTerminal = true → b.status = a.status)
      (jobTrace ctx outcome) := by
  constructor
  · intro j hj
    cases outcome with
    | ok d =>
      simp only [jobTrace, List.cons_append, List.nil_append, List.mem_cons,
        List.not_mem_nil, or_false] at hj
      rcases hj with rfl | rfl | rfl | rfl | rfl <;>
        simp [exclusiveRecord, submittedJob]
    | error e =>
      simp only [jobTrace, List.cons_append, List.nil_append, List.mem_cons,
        List.not_mem_nil, or_false] at hj
      rcases hj with rfl | rfl | rfl | rfl | rfl <;>
        simp [exclusiveRecord, submittedJob, failedInnerJob, failedOuterJob]
  · cases outcome with
    | ok d =>
      simp [jobTrace, List.chain'_cons, submittedJob, JobStatus.isTerminal]
    | error e =>
      simp [jobTrace, List.chain'_cons, submittedJob, failedInnerJob, failedOuterJob,
        JobStatus.isTerminal]

/-- Witness for C6's per-record clause at a concrete failing job. -/
theorem c6_terminal_exclusivity_witness : exclusiveRecord (failedInnerJob "boom") :=
  (c6_terminal_exclusivity ⟨"id", .null, "t0", "t1"⟩ (.error "boom")).1
    (failedInnerJob "boom") (by simp [jobTrace])


/-- C2 counterexample.  A 501 response is classified as a generic
API_ERROR, not API_SERVICE_ERROR (only 500/502/503 are checked); and for
a 429 failure the inner catch records the "temporarily busy" reason, but
the handler's outer `.catch` runs on the rethrown error and overwrites
it with the generic "Server error during analysis", which is what the
final job record carries. -/
theorem c2_counterexample :
    claudeErrorMessage false (some 501) none = "API_ERROR: Unknown API error" ∧
    processRefundReason (claudeErrorMessage false (some 429) none)
      = "Service temporarily busy - please try again in a few minutes" ∧
    (jobTrace ⟨"id", .null, "t0", "t1"⟩
        (.error (claudeErrorMessage false (some 429) none))).getLast?
      = some (failedOuterJob (claudeErrorMessage false (some 429) none)) ∧
    (failedOuterJob (claudeErrorMessage false (some 429) none)).refundReason
      = some "Server error during analysis" := by
  refine ⟨by decide, by decide, rfl, by decide⟩

/-- C2 (amended).  Status classification: 429 → rate-limit message,
400 → bad-request message, 500/502/503 → service-error message, any
other status (including other 5xx codes such as 501) → generic
"API_ERROR".  The inner catch derives the refund reason from that
classification, but every failing job's final record comes from the
outer `.catch`: it is `failedOuterJob`, Failed with `shouldRefund =
true`, whose reason is the timeout message when the error mentions
TIMEOUT and the generic "Server error during analysis" otherwise — so
the classification-specific reasons never survive to the final record. -/
theorem c2_error_classification :
    (∀ m, claudeErrorMessage false (some 429) m
      = "API_RATE_LIMIT: The service is temporarily busy. Please try again in a few minutes.") ∧
    (∀ m, claudeErrorMessage false (some 400) m
      = "API_BAD_REQUEST: Invalid request to AI service. " ++ jsOrS m "Unknown API error") ∧
    (∀ st : ℤ, ∀ m, st = 500 ∨ st = 502 ∨ st = 503 → claudeErrorMessage false (some st) m
      = "API_SERVICE_ERROR: AI service is temporarily unavailable. Please try again later.") ∧
    (∀ st : ℤ, ∀ m, ¬st = 429 → ¬st = 400 → ¬(st = 500 ∨ st = 502 ∨ st = 503) →
      claudeErrorMessage false (some st) m = "API_ERROR: " ++ jsOrS m "Unknown API error") ∧
    (∀ st m, processRefundReason (claudeErrorMessage true st m)
      = "Analysis timed out - please try with a shorter video or fewer frames") ∧
    processRefundReason (claudeErrorMessage false (some 429) none)
      = "Service temporarily busy - please try again in a few minutes" ∧
    processRefundReason (claudeErrorMessage false (some 500) none)
      = "AI service temporarily unavailable - please try again later" ∧
    processRefundReason (claudeErrorMessage false (some 400) none)
      = "Invalid video format - please ensure the video is valid" ∧
    processRefundReason (claudeErrorMessage false (some 418) none)
      = "Server error during analysis - please try again" ∧
    (∀ ctx e, (jobTrace ctx (.error e)).getLast? = some (failedOuterJob e)) ∧
    (∀ e, (failedOuterJob e).status = .failed ∧ (failedOuterJob e).shouldRefund = some true ∧
      (failedOuterJob e).refundReason = some (analyzeCatchRefundReason e)) ∧
    (∀ e, ¬strIncludes e "TIMEOUT" = true →
      analyzeCatchRefundReason e = "Server error during analysis") := by
  refine ⟨?_, ?_, ?_, ?_, ?_, by decide, by decide, by decide, by decide,
    fun ctx e => rfl, fun e => ⟨rfl, rfl, rfl⟩, ?_⟩
  · intro m
    rfl
  · intro m
    rfl
  · intro st m h
    rcases h with rfl | rfl | rfl <;> rfl
  · intro st m h1 h2 h3
    simp only [claudeErrorMessage]
    rw [if_neg (by simp), if_neg (by simp [h1]), if_neg (by simp [h2]),
      if_neg (by simp only [Option.some.injEq]; exact h3)]
  · intro st m
    rfl
  · intro e he
    simp only [analyzeCatchRefundReason]
    rw [if_neg he]

/-- Witness for C2's conditional clauses at concrete statuses and the
concrete 429 error message. -/
theorem c2_error_classification_witness :
    claudeErrorMessage false (some 502) none
      = "API_SERVICE_ERROR: AI service is temporarily unavailable. Please try again later." ∧
    claudeErrorMessage false (some 501) (some "boom") = "API_ERROR: boom" ∧
    analyzeCatchRefundReason (claudeErrorMessage false (some 429) none)
      = "Server error during analysis" :=
  ⟨c2_error_classification.2.2.1 502 none (by decide),
   (c2_error_classification.2.2.2.1 501 (some "boom") (by decide) (by decide) (by decide)).trans
     (by decide),
   c2_error_classification.2.2.2.2.2.2.2.2.2.2.2
     (claudeErrorMessage false (some 429) none) (by decide)⟩


theorem lookup_str_exists {xfs : List (String × Json)} {k : String}
    (h : (match lookupField xfs k with | some (.str _) => true | _ => false) = true) :
    ∃ s, lookupField xfs k = some (.str s) := by
  split at h
  · rename_i s heq
    exact ⟨s, heq⟩
  · simp at h

theorem lookup_num_exists {xfs : List (String × Json)} {k : String}
    (h : (match lookupField xfs k with | some (.num _) => true | _ => false) = true) :
    ∃ q, lookupField xfs k = some (.num q) := by
  split at h
  · rename_i q heq
    exact ⟨q, heq⟩
  · simp at h

theorem lookup_arr_exists {xfs : List (String × Json)} {k : String}
    (h : (match lookupField xfs k with | some (.arr _) => true | _ => false) = true) :
    ∃ xs, lookupField xfs k = some (.arr xs) := by
  split at h
  · rename_i xs heq
    exact ⟨xs, heq⟩
  · simp at h

theorem ensureString_str (s : String) (d : String) :
    ensureString (.str s) d = .str s := rfl

theorem ensureNumber_num (q : ℚ) (d : ℚ) : ensureNumber (.num q) d = .num q := rfl

theorem ensureArray_arr (xs : List Json) (d : List Json) :
    ensureArray (.arr xs) d = xs := rfl

theorem jsOrNull_of_truthyOrNull {v : Json} (h : truthyOrNull v = true) :
    jsOrNull v = v := by
  cases v with
  | null => rfl
  | _ =>
    simp only [truthyOrNull] at h
    simp [jsOrNull, h]

theorem strengthEntryFix_id {s : Json} (hv : validStrengthEntry s = true) :
    strengthEntryFix s = .ok s := by
  unfold validStrengthEntry at hv
  split at hv
  · rename_i t d q st
    simp [strengthEntryFix, getProp_obj, objGet, lookupField, ensureString, ensureNumber,
      jsOrNull_of_truthyOrNull hv]
  · simp at hv

theorem weaknessEntryFix_id {w : Json} (hv : validWeaknessEntry w = true) :
    weaknessEntryFix w = .ok w := by
  unfold validWeaknessEntry at hv
  split at hv
  · rename_i t d sv ep fr es
    simp [weaknessEntryFix, getProp_obj, objGet, lookupField, ensureString, ensureNumber,
      jsOrNull_of_truthyOrNull hv]
  · simp at hv

theorem mistakeEntryFix_id {p : Json} (hv : validMistakeEntry p = true) :
    mistakeEntryFix p = .ok p := by
  unfold validMistakeEntry at hv
  split at hv
  · rename_i pa fr sv
    simp [mistakeEntryFix, getProp_obj, objGet, lookupField, ensureString, ensureNumber]
  · simp at hv

theorem adjustmentEntryFix_id {a : Json} (hv : validAdjustmentEntry a = true) :
    adjustmentEntryFix a = .ok a := by
  unfold validAdjustmentEntry at hv
  split at hv
  · rename_i ic ta
    simp [adjustmentEntryFix, getProp_obj, objGet, lookupField, ensureString]
  · simp at hv

theorem thingToAvoidFix_id {item : Json} (hv : validThingToAvoidEntry item = true) :
    thingToAvoidFix item = .ok item := by
  unfold validThingToAvoidEntry at hv
  split at hv
  · rename_i a r alt
    rw [decide_eq_true_iff] at hv
    have ht : truthy (.str a) = true := by
      simpa [truthy, String.isEmpty_iff] using hv
    simp [thingToAvoidFix, typeofObject, getProp_obj, objGet, lookupField, ht, ensureString]
  · simp at hv

theorem mapM_id_of_all {p : Json → Bool} {f : Json → Except String Json}
    (hf : ∀ x, p x = true → f x = .ok x) :
    ∀ xs : List Json, xs.all p = true → xs.mapM f = .ok xs := by
  intro xs
  induction xs with
  | nil => intro _; rfl
  | cons x t ih =>
    intro h
    rw [List.all_cons, Bool.and_eq_true] at h
    rw [List.mapM_cons, hf x h.1, ok_bind, ih h.2, ok_bind, pure_eq_ok]

theorem objGet_of_lookup {fs : List (String × Json)} {k : String} {v : Json}
    (h : lookupField fs k = some v) : objGet fs k = v := by
  simp [objGet, h]

theorem truthy_obj (fs : List (String × Json)) : truthy (.obj fs) = true := rfl

theorem truthy_arr (xs : List Json) : truthy (.arr xs) = true := rfl

theorem fiBlock_id (cfg : Config) (fs : List (String × Json))
    (hv : validFighterIdentification (objGet fs "fighterIdentification") = true) :
    fiBlock cfg (.obj fs) = .ok (.obj fs) := by
  cases hx : objGet fs "fighterIdentification" with
  | obj xfs =>
    rw [hx] at hv
    simp only [validFighterIdentification, Bool.and_eq_true] at hv
    obtain ⟨⟨h1, h2⟩, h3⟩ := hv
    obtain ⟨s1, hl1⟩ := lookup_str_exists h1
    obtain ⟨s2, hl2⟩ := lookup_str_exists h2
    obtain ⟨s3, hl3⟩ := lookup_str_exists h3
    have hlf : lookupField fs "fighterIdentification" = some (.obj xfs) :=
      objGet_eq_lookup hx (by simp)
    simp only [fiBlock, getProp_obj, ok_bind, hx]
    rw [if_pos (truthy_obj xfs)]
    simp only [getProp_obj, ok_bind, objGet_of_lookup hl1, ensureString_str, setProp_obj,
      setField_self hl1, objGet_of_lookup hl2, setField_self hl2, objGet_of_lookup hl3,
      setField_self hl3, setField_self hlf]
  | _ =>
    rw [hx] at hv
    simp [validFighterIdentification] at hv

theorem execBlock_id (fs : List (String × Json))
    (hv : validExecutiveSummary (objGet fs "executiveSummary") = true) :
    execBlock (.obj fs) = .ok (.obj fs) := by
  cases hx : objGet fs "executiveSummary" with
  | obj xfs =>
    rw [hx] at hv
    simp only [validExecutiveSummary, Bool.and_eq_true] at hv
    obtain ⟨⟨⟨h1, h2⟩, h3⟩, h4⟩ := hv
    obtain ⟨q1, hl1⟩ := lookup_num_exists h1
    obtain ⟨s2, hl2⟩ := lookup_str_exists h2
    obtain ⟨a3, hl3⟩ := lookup_arr_exists h3
    obtain ⟨s4, hl4⟩ := lookup_str_exists h4
    have hlf : lookupField fs "executiveSummary" = some (.obj xfs) :=
      objGet_eq_lookup hx (by simp)
    simp only [execBlock, getProp_obj, ok_bind, hx]
    rw [if_pos (truthy_obj xfs)]
    simp only [getProp_obj, ok_bind, objGet_of_lookup hl1, ensureNumber_num, setProp_obj,
      setField_self hl1, objGet_of_lookup hl2, ensureString_str, setField_self hl2,
      objGet_of_lookup hl3, ensureArray_arr, setField_self hl3, objGet_of_lookup hl4,
      setField_self hl4, setField_self hlf]
  | _ =>
    rw [hx] at hv
    simp [validExecutiveSummary] at hv

theorem styleBlock_id (fs : List (String × Json))
    (hv : validFightingStyleBreakdown (objGet fs "fightingStyleBreakdown") = true) :
    styleBlock (.obj fs) = .ok (.obj fs) := by
  cases hx : objGet fs "fightingStyleBreakdown" with
  | obj xfs =>
    rw [hx] at hv
    simp only [validFightingStyleBreakdown, Bool.and_eq_true] at hv
    obtain ⟨⟨h1, h2⟩, h3⟩ := hv
    obtain ⟨a1, hl1⟩ := lookup_arr_exists h1
    obtain ⟨a2, hl2⟩ := lookup_arr_exists h2
    obtain ⟨a3, hl3⟩ := lookup_arr_exists h3
    have hlf : lookupField fs "fightingStyleBreakdown" = some (.obj xfs) :=
      objGet_eq_lookup hx (by simp)
    simp only [styleBlock, getProp_obj, ok_bind, hx]
    rw [if_pos (truthy_obj xfs)]
    simp only [getProp_obj, ok_bind, objGet_of_lookup hl1, ensureArray_arr, setProp_obj,
      setField_self hl1, objGet_of_lookup hl2, setField_self hl2, objGet_of_lookup hl3,
      setField_self hl3, setField_self hlf]
  | _ =>
    rw [hx] at hv
    simp [validFightingStyleBreakdown] at hv

theorem grapplingBlock_id (fs : List (String × Json))
    (hv : validGrapplingAnalysis (objGet fs "grapplingAnalysis") = true) :
    grapplingBlock (.obj fs) = .ok (.obj fs) := by
  cases hx : objGet fs "grapplingAnalysis" with
  | obj xfs =>
    rw [hx] at hv
    simp only [validGrapplingAnalysis, Bool.and_eq_true] at hv
    obtain ⟨⟨⟨h1, h2⟩, h3⟩, h4⟩ := hv
    obtain ⟨q1, hl1⟩ := lookup_num_exists h1
    obtain ⟨q2, hl2⟩ := lookup_num_exists h2
    obtain ⟨q3, hl3⟩ := lookup_num_exists h3
    obtain ⟨q4, hl4⟩ := lookup_num_exists h4
    have hlf : lookupField fs "grapplingAnalysis" = some (.obj xfs) :=
      objGet_eq_lookup hx (by simp)
    simp only [grapplingBlock, getProp_obj, ok_bind, hx]
    rw [if_pos (truthy_obj xfs)]
    simp only [getProp_obj, ok_bind, objGet_of_lookup hl1, ensureNumber_num, setProp_obj,
      setField_self hl1, objGet_of_lookup hl2, setField_self hl2, objGet_of_lookup hl3,
      setField_self hl3, objGet_of_lookup hl4, setField_self hl4, setField_self hlf]
  | _ =>
    rw [hx] at hv
    simp [validGrapplingAnalysis] at hv

theorem lookup_truthy_exists {xfs : List (String × Json)} {k : String}
    (h : (match lookupField xfs k with | some b => truthy b | _ => false) = true) :
    ∃ b, lookupField xfs k = some b ∧ truthy b = true := by
  split at h
  · rename_i b heq
    exact ⟨b, heq, h⟩
  · simp at h

theorem strikeBlock_id (fs : List (String × Json))
    (hv : validStrikeAnalysis (objGet fs "strikeAnalysis") = true) :
    strikeBlock (.obj fs) = .ok (.obj fs) := by
  cases hx : objGet fs "strikeAnalysis" with
  | obj xfs =>
    rw [hx] at hv
    simp only [validStrikeAnalysis, Bool.and_eq_true] at hv
    obtain ⟨⟨⟨⟨⟨⟨h1, h2⟩, h3⟩, h4⟩, h5⟩, h6⟩, h7⟩ := hv
    obtain ⟨q1, hl1⟩ := lookup_num_exists h1
    obtain ⟨q2, hl2⟩ := lookup_num_exists h2
    obtain ⟨q3, hl3⟩ := lookup_num_exists h3
    obtain ⟨q4, hl4⟩ := lookup_num_exists h4
    obtain ⟨b5, hl5, ht5⟩ := lookup_truthy_exists h5
    obtain ⟨a6, hl6⟩ := lookup_arr_exists h6
    obtain ⟨a7, hl7⟩ := lookup_arr_exists h7
    have hlf : lookupField fs "strikeAnalysis" = some (.obj xfs) :=
      objGet_eq_lookup hx (by simp)
    simp only [strikeBlock, getProp_obj, ok_bind, hx]
    rw [if_pos (truthy_obj xfs)]
    simp only [getProp_obj, ok_bind, objGet_of_lookup hl1, ensureNumber_num, setProp_obj,
      setField_self hl1, objGet_of_lookup hl2, setField_self hl2, objGet_of_lookup hl3,
      setField_self hl3, objGet_of_lookup hl4, setField_self hl4, objGet_of_lookup hl5]
    rw [if_pos ht5]
    simp only [ok_bind, getProp_obj, objGet_of_lookup hl6, ensureArray_arr, setProp_obj,
      setField_self hl6, objGet_of_lookup hl7, setField_self hl7, setField_self hlf,
      pure_eq_ok]
  | _ =>
    rw [hx] at hv
    simp [validStrikeAnalysis] at hv

theorem defenseBlock_id (fs : List (String × Json))
    (hv : truthy (objGet fs "defenseAnalysis") = true) :
    defenseBlock (.obj fs) = .ok (.obj fs) := by
  simp only [defenseBlock, getProp_obj, ok_bind]
  rw [if_pos hv]
  rfl

theorem fightIQBlock_id (fs : List (String × Json))
    (hv : truthy (objGet fs "fightIQ") = true) :
    fightIQBlock (.obj fs) = .ok (.obj fs) := by
  simp only [fightIQBlock, getProp_obj, ok_bind]
  rw [if_pos hv]
  rfl

theorem counterBlock_id (fs : List (String × Json))
    (hv : truthy (objGet fs "counterStrategy") = true) :
    counterBlock (.obj fs) = .ok (.obj fs) := by
  simp only [counterBlock, getProp_obj, ok_bind]
  rw [if_pos hv]
  rfl

theorem cardioBlock_id (v : ℚ) (fs : List (String × Json))
    (hv : validCardioAnalysis (objGet fs "cardioAnalysis") = true) :
    cardioBlock v (.obj fs) = .ok (.obj fs) := by
  cases hx : objGet fs "cardioAnalysis" with
  | obj cfs =>
    rw [hx] at hv
    simp only [validCardioAnalysis] at hv
    split at hv
    · rename_i elems heq
      simp only [cardioBlock, getProp_obj, ok_bind, hx]
      rw [if_pos (truthy_obj cfs)]
      simp only [pure_eq_ok, ok_bind, getProp_obj, hx, objGet_of_lookup heq]
      rw [if_neg ?hcond]
      case hcond =>
        simp only [truthy_arr, lengthIsZero]
        push_neg
        exact ⟨by simp, by simpa using hv⟩
    · simp at hv
  | _ =>
    rw [hx] at hv
    simp [validCardioAnalysis] at hv

theorem metricsBlock_id (v : ℚ) (fs : List (String × Json))
    (hv : validMetrics v (objGet fs "roundByRoundMetrics") = true) :
    metricsBlock v (.obj fs) = .ok (.obj fs) := by
  cases hx : objGet fs "roundByRoundMetrics" with
  | obj mfs =>
    rw [hx] at hv
    simp only [validMetrics] at hv
    split at hv
    · rename_i es heq
      rw [decide_eq_true_iff] at hv
      simp only [metricsBlock, getProp_obj, ok_bind, hx]
      rw [if_pos (truthy_obj mfs)]
      simp only [pure_eq_ok, ok_bind, getProp_obj, hx, objGet_of_lookup heq]
      rw [if_neg ?hcond]
      case hcond =>
        simp only [truthy_arr, lengthLtQ]
        push_neg
        exact ⟨by simp, by simp [not_lt.mpr hv]⟩
    · simp at hv
  | _ =>
    rw [hx] at hv
    simp [validMetrics] at hv

theorem swBlock_id (fs : List (String × Json))
    (hv : validStrengthsWeaknesses (objGet fs "strengthsWeaknesses") = true) :
    swBlock (.obj fs) = .ok (.obj fs) := by
  cases hx : objGet fs "strengthsWeaknesses" with
  | obj sfs =>
    rw [hx] at hv
    simp only [validStrengthsWeaknesses, Bool.and_eq_true] at hv
    obtain ⟨h1, h2⟩ := hv
    have e1 : ∃ es, lookupField sfs "strengths" = some (.arr es) ∧ es.all validStrengthEntry = true := by
      split at h1
      · rename_i es heq
        exact ⟨es, heq, h1⟩
      · simp at h1
    have e2 : ∃ es, lookupField sfs "weaknesses" = some (.arr es) ∧ es.all validWeaknessEntry = true := by
      split at h2
      · rename_i es heq
        exact ⟨es, heq, h2⟩
      · simp at h2
    obtain ⟨ss, hl1, ha1⟩ := e1
    obtain ⟨ws, hl2, ha2⟩ := e2
    have hlf : lookupField fs "strengthsWeaknesses" = some (.obj sfs) :=
      objGet_eq_lookup hx (by simp)
    simp only [swBlock, getProp_obj, ok_bind, hx]
    rw [if_pos (truthy_obj sfs)]
    simp only [pure_eq_ok, ok_bind, getProp_obj, hx, objGet_of_lookup hl1, ensureArray_arr]
    rw [mapM_id_of_all (fun x h => strengthEntryFix_id h) ss ha1]
    simp only [ok_bind, setProp_obj, setField_self hl1, getProp_obj, objGet_of_lookup hl2,
      ensureArray_arr]
    rw [mapM_id_of_all (fun x h => weaknessEntryFix_id h) ws ha2]
    simp only [ok_bind, setField_self hl2, setField_self hlf]
  | _ =>
    rw [hx] at hv
    simp [validStrengthsWeaknesses] at hv

theorem mistakeBlock_id (fs : List (String × Json))
    (hv : validMistakePatterns (objGet fs "mistakePatterns") = true) :
    mistakeBlock (.obj fs) = .ok (.obj fs) := by
  cases hx : objGet fs "mistakePatterns" with
  | obj mfs =>
    rw [hx] at hv
    simp only [validMistakePatterns] at hv
    split at hv
    · rename_i es heq
      have hlf : lookupField fs "mistakePatterns" = some (.obj mfs) :=
        objGet_eq_lookup hx (by simp)
      simp only [mistakeBlock, getProp_obj, ok_bind, hx]
      rw [if_pos (truthy_obj mfs)]
      simp only [pure_eq_ok, ok_bind, getProp_obj, hx, objGet_of_lookup heq, ensureArray_arr]
      rw [mapM_id_of_all (fun x h => mistakeEntryFix_id h) es hv]
      simp only [ok_bind, setProp_obj, setField_self heq, setField_self hlf]
    · simp at hv
  | _ =>
    rw [hx] at hv
    simp [validMistakePatterns] at hv

theorem validNullable_falsy {st : Bool} {v : Json} (hv : validNullable st v = true)
    (ht : ¬truthy v = true) : st = true ∧ v = .null := by
  cases st with
  | false =>
    unfold validNullable at hv
    rw [if_neg (by simp)] at hv
    exact absurd hv ht
  | true =>
    unfold validNullable at hv
    rw [if_pos rfl] at hv
    refine ⟨rfl, ?_⟩
    cases v with
    | null => rfl
    | undef => exact absurd (by simpa using hv) ht
    | bool b => exact absurd (by simpa using hv) ht
    | num q => exact absurd (by simpa using hv) ht
    | str s2 => exact absurd (by simpa using hv) ht
    | arr xs => exact absurd (by simpa using hv) ht
    | obj fs2 => exact absurd (by simpa using hv) ht

theorem trainingBlock_id (st : Bool) (fs : List (String × Json))
    (hv : validNullable st (objGet fs "trainingRecommendations") = true) :
    trainingBlock st (.obj fs) = .ok (.obj fs) := by
  by_cases ht : truthy (objGet fs "trainingRecommendations") = true
  · simp only [trainingBlock, getProp_obj, ok_bind]
    rw [if_pos ht]
    rfl
  · obtain ⟨rfl, hnull⟩ := validNullable_falsy hv ht
    simp only [trainingBlock, getProp_obj, ok_bind]
    rw [if_neg ht, if_pos (by trivial)]
    simp only [setProp_obj]
    rw [setField_self (objGet_eq_lookup hnull (by simp))]

theorem keyInsightsBlock_id (st : Bool) (fs : List (String × Json))
    (hv : validNullable st (objGet fs "keyInsights") = true) :
    keyInsightsBlock st (.obj fs) = .ok (.obj fs) := by
  by_cases ht : truthy (objGet fs "keyInsights") = true
  · simp only [keyInsightsBlock, getProp_obj, ok_bind]
    rw [if_pos ht]
    rfl
  · obtain ⟨rfl, hnull⟩ := validNullable_falsy hv ht
    simp only [keyInsightsBlock, getProp_obj, ok_bind]
    rw [if_neg ht, if_pos (by trivial)]
    simp only [setProp_obj]
    rw [setField_self (objGet_eq_lookup hnull (by simp))]

theorem nullOrTruthy_falsy {v : Json}
    (hv : (match v with | Json.null => true | v => truthy v) = true)
    (ht : ¬truthy v = true) : v = .null := by
  cases v with
  | null => rfl
  | undef => exact absurd (by simpa using hv) ht
  | bool b => exact absurd (by simpa using hv) ht
  | num q => exact absurd (by simpa using hv) ht
  | str s2 => exact absurd (by simpa using hv) ht
  | arr xs => exact absurd (by simpa using hv) ht
  | obj fs2 => exact absurd (by simpa using hv) ht

theorem lookup_arr_le_exists {xfs : List (String × Json)} {k : String} {u : ℚ}
    (h : (match lookupField xfs k with
      | some (.arr es) => decide (u ≤ (es.length : ℚ)) | _ => false) = true) :
    ∃ es, lookupField xfs k = some (.arr es) ∧ u ≤ (es.length : ℚ) := by
  split at h
  · rename_i es heq
    exact ⟨es, heq, by simpa using h⟩
  · simp at h

theorem lookup_arr_all_exists {xfs : List (String × Json)} {k : String} {p : Json → Bool}
    (h : (match lookupField xfs k with
      | some (.arr es) => es.all p | _ => false) = true) :
    ∃ es, lookupField xfs k = some (.arr es) ∧ es.all p = true := by
  split at h
  · rename_i es heq
    exact ⟨es, heq, h⟩
  · simp at h

theorem midFightBlock_id (st : Bool) (fs : List (String × Json))
    (hv : validMidFightAdjustments st (objGet fs "midFightAdjustments") = true) :
    midFightBlock st (.obj fs) = .ok (.obj fs) := by
  cases st with
  | true =>
    by_cases ht : truthy (objGet fs "midFightAdjustments") = true
    · simp only [midFightBlock, getProp_obj, ok_bind]
      rw [if_pos ht]
      simp only [pure_eq_ok, ok_bind]
      rw [if_pos (by trivial)]
    · unfold validMidFightAdjustments at hv
      rw [if_pos rfl] at hv
      have hnull := nullOrTruthy_falsy hv ht
      simp only [midFightBlock, getProp_obj, ok_bind]
      rw [if_neg ht, if_pos (by trivial)]
      simp only [setProp_obj, ok_bind]
      rw [setField_self (objGet_eq_lookup hnull (by simp))]
      rw [if_pos (by trivial)]
      rfl
  | false =>
    unfold validMidFightAdjustments at hv
    rw [if_neg (by simp)] at hv
    cases hx : objGet fs "midFightAdjustments" with
    | obj afs =>
      rw [hx] at hv
      have hv2 : (match lookupField afs "adjustments" with
        | some (.arr es) => es.all validAdjustmentEntry | _ => false) = true := hv
      obtain ⟨es, hl1, ha1⟩ := lookup_arr_all_exists hv2
      have hlf : lookupField fs "midFightAdjustments" = some (.obj afs) :=
        objGet_eq_lookup hx (by simp)
      simp only [midFightBlock, getProp_obj, ok_bind, hx]
      rw [if_pos (truthy_obj afs)]
      simp only [pure_eq_ok, ok_bind]
      rw [if_neg (by simp)]
      simp only [getProp_obj, ok_bind, hx]
      rw [if_neg (by simp [truthy_obj])]
      simp only [getProp_obj, ok_bind, objGet_of_lookup hl1, ensureArray_arr]
      rw [mapM_id_of_all (fun x h => adjustmentEntryFix_id h) es ha1]
      simp only [ok_bind, setProp_obj, setField_self hl1, setField_self hlf]
    | _ =>
      rw [hx] at hv
      simp at hv

theorem gamePlanBlock_id (st : Bool) (u : ℚ) (fs : List (String × Json))
    (hv : validGamePlan st u (objGet fs "gamePlan") = true) :
    gamePlanBlock st u (.obj fs) = .ok (.obj fs) := by
  cases st with
  | true =>
    by_cases ht : truthy (objGet fs "gamePlan") = true
    · simp only [gamePlanBlock, getProp_obj, ok_bind]
      rw [if_pos ht]
      simp only [pure_eq_ok, ok_bind]
      rw [if_pos (by trivial)]
    · unfold validGamePlan at hv
      rw [if_pos rfl] at hv
      have hnull := nullOrTruthy_falsy hv ht
      simp only [gamePlanBlock, getProp_obj, ok_bind]
      rw [if_neg ht, if_pos (by trivial)]
      simp only [setProp_obj, ok_bind]
      rw [setField_self (objGet_eq_lookup hnull (by simp))]
      rw [if_pos (by trivial)]
      rfl
  | false =>
    unfold validGamePlan at hv
    rw [if_neg (by simp)] at hv
    cases hx : objGet fs "gamePlan" with
    | obj gfs =>
      rw [hx] at hv
      have hv2 : ((match lookupField gfs "roundByRound" with
          | some (.arr es) => decide (u ≤ (es.length : ℚ)) | _ => false) &&
        (match lookupField gfs "roundGamePlans" with
          | some (.arr es) => decide (u ≤ (es.length : ℚ)) | _ => false) &&
        (match lookupField gfs "thingsToAvoid" with
          | some (.arr es) => es.all validThingToAvoidEntry | _ => false)) = true := hv
      rw [Bool.and_eq_true, Bool.and_eq_true] at hv2
      obtain ⟨⟨h1, h2⟩, h3⟩ := hv2
      obtain ⟨xs, hl1, hx1⟩ := lookup_arr_le_exists h1
      obtain ⟨ys, hl2, hy2⟩ := lookup_arr_le_exists h2
      obtain ⟨ts, hl3, ht3⟩ := lookup_arr_all_exists h3
      have hlf : lookupField fs "gamePlan" = some (.obj gfs) :=
        objGet_eq_lookup hx (by simp)
      simp only [gamePlanBlock, getProp_obj, ok_bind, hx]
      rw [if_pos (truthy_obj gfs)]
      simp only [pure_eq_ok, ok_bind]
      rw [if_neg (by simp)]
      simp only [getProp_obj, ok_bind, hx]
      rw [if_neg (by simp [truthy_obj])]
      unfold gamePlanSizing gpSizeRoundByRound gpSizeRoundGamePlans gpFixThingsToAvoid
      simp only [getProp_obj, ok_bind, objGet_of_lookup hl1]
      rw [if_neg ?hc1]
      case hc1 =>
        push_neg
        exact ⟨by simp [truthy_arr], by simp [lengthLtQ, not_lt.mpr hx1]⟩
      simp only [pure_eq_ok, ok_bind, getProp_obj, objGet_of_lookup hl2]
      rw [if_neg ?hc2]
      case hc2 =>
        push_neg
        exact ⟨by simp [truthy_arr], by simp [lengthLtQ, not_lt.mpr hy2]⟩
      simp only [pure_eq_ok, ok_bind, getProp_obj, objGet_of_lookup hl3]
      rw [mapM_id_of_all (fun x h => thingToAvoidFix_id h) ts ht3]
      simp only [ok_bind, setProp_obj, setField_self hl3, setField_self hlf]
    | _ =>
      rw [hx] at hv
      simp at hv

theorem validateSingle_id (cfg : Config) (fs : List (String × Json))
    (hm : ¬cfg.analysisType = some "both")
    (hv : validReportSingle (getUserRoleType cfg.userRole = "study")
      (jsOrQ cfg.userFightRounds 3) (jsOrQ cfg.videoRounds 3) (.obj fs) = true) :
    validateAndFixAnalysisData cfg (.obj fs) = .ok (.obj fs) := by
  simp only [validReportSingle, Bool.and_eq_true] at hv
  obtain ⟨⟨⟨⟨⟨⟨⟨⟨⟨⟨⟨⟨⟨⟨⟨h1, h2⟩, h3⟩, h4⟩, h5⟩, h6⟩, h7⟩, h8⟩, h9⟩, h10⟩,
    h11⟩, h12⟩, h13⟩, h14⟩, h15⟩, h16⟩ := hv
  unfold validateAndFixAnalysisData
  rw [if_neg hm]
  simp only [fiBlock_id cfg fs h1, ok_bind, execBlock_id fs h2, styleBlock_id fs h3,
    strikeBlock_id fs h4, grapplingBlock_id fs h5, defenseBlock_id fs h6,
    cardioBlock_id _ fs h7, fightIQBlock_id fs h8, swBlock_id fs h9,
    mistakeBlock_id fs h10, counterBlock_id fs h11, gamePlanBlock_id _ _ fs h12,
    midFightBlock_id _ fs h13, trainingBlock_id _ fs h14, keyInsightsBlock_id _ fs h15]
  exact metricsBlock_id _ fs h16

theorem validateSFA_id (name : String) (v : ℚ) (xfs : List (String × Json))
    (hv : validBothFighter v (.obj xfs) = true) :
    validateSingleFighterAnalysis name v (.obj xfs) = .ok (.obj xfs) := by
  simp only [validBothFighter, Bool.and_eq_true] at hv
  obtain ⟨⟨⟨⟨⟨⟨⟨⟨⟨⟨⟨h1, h2⟩, h3⟩, h4⟩, h5⟩, h6⟩, h7⟩, h8⟩, h9⟩, h10⟩, h11⟩, h12⟩ := hv
  cases hc : objGet xfs "cardioAnalysis" with
  | obj cfs =>
    rw [hc] at h7
    have h72 : (match lookupField cfs "roundByRound" with
      | some (.arr elems) => !elems.isEmpty | _ => false) = true := h7
    have ec : ∃ elems, lookupField cfs "roundByRound" = some (.arr elems) ∧
        (!elems.isEmpty) = true := by
      split at h72
      · rename_i elems heq
        exact ⟨elems, heq, h72⟩
      · simp at h72
    obtain ⟨elems, hlrb, hne⟩ := ec
    cases hmx : objGet xfs "roundByRoundMetrics" with
    | obj mfs =>
      rw [hmx] at h12
      have h122 : (match lookupField mfs "rounds" with
        | some (.arr es) => decide (v ≤ (es.length : ℚ)) | _ => false) = true := h12
      obtain ⟨es, hlr, hle⟩ := lookup_arr_le_exists h122
      have hne2 : elems.isEmpty = false := by simpa using hne
      have hlt : ¬((es.length : ℚ) < v) := not_lt.mpr hle
      unfold validateSingleFighterAnalysis
      simp only [getProp_obj, ok_bind]
      rw [if_pos h1]
      try simp only [pure_eq_ok, ok_bind, getProp_obj]
      rw [if_pos h2]
      try simp only [pure_eq_ok, ok_bind, getProp_obj]
      rw [if_pos h3]
      try simp only [pure_eq_ok, ok_bind, getProp_obj]
      rw [if_pos h4]
      try simp only [pure_eq_ok, ok_bind, getProp_obj]
      rw [if_pos h5]
      try simp only [pure_eq_ok, ok_bind, getProp_obj]
      rw [if_pos h6]
      try simp only [pure_eq_ok, ok_bind, getProp_obj]
      simp only [hc]
      rw [if_pos (truthy_obj cfs)]
      try simp only [pure_eq_ok, ok_bind, getProp_obj, hc, objGet_of_lookup hlrb]
      rw [if_neg ?hcond1]
      case hcond1 =>
        push_neg
        exact ⟨by simp [truthy_arr], by simp [lengthIsZero, hne2]⟩
      try simp only [pure_eq_ok, ok_bind, getProp_obj]
      rw [if_pos h8]
      try simp only [pure_eq_ok, ok_bind, getProp_obj]
      rw [if_pos h9]
      try simp only [pure_eq_ok, ok_bind, getProp_obj]
      rw [if_pos h10]
      try simp only [pure_eq_ok, ok_bind, getProp_obj]
      rw [if_pos h11]
      try simp only [pure_eq_ok, ok_bind, getProp_obj]
      simp only [hmx]
      rw [if_pos (truthy_obj mfs)]
      try simp only [pure_eq_ok, ok_bind, getProp_obj, hmx, objGet_of_lookup hlr]
      rw [if_neg ?hcond2]
      case hcond2 =>
        push_neg
        exact ⟨by simp [truthy_arr], by simp [lengthLtQ, hlt]⟩
    | _ =>
      rw [hmx] at h12
      simp [validMetrics] at h12
  | _ =>
    rw [hc] at h7
    simp [validCardioAnalysis] at h7

theorem copyTopLevelField_id (fs : List (String × Json)) (k : String)
    (h : (lookupField fs k).isNone = true) :
    copyTopLevelField (.obj fs) k = .ok (.obj fs) := by
  have hu : objGet fs k = .undef := by
    simp [objGet, Option.isNone_iff_eq_none.mp h]
  simp only [copyTopLevelField, getProp_obj, ok_bind, hu]
  rw [if_neg (by simp [truthy])]
  rfl

theorem foldlM_copy_id (l : List String) (fs : List (String × Json))
    (h : l.all (fun k => (lookupField fs k).isNone) = true) :
    l.foldlM copyTopLevelField (Json.obj fs) = .ok (.obj fs) := by
  induction l with
  | nil => rfl
  | cons k t ih =>
    rw [List.all_cons, Bool.and_eq_true] at h
    rw [List.foldlM_cons, copyTopLevelField_id fs k h.1, ok_bind, ih h.2]

theorem gpSeq_ok {fs : List (String × Json)} {p : Prop} [Decidable p] {β : Type}
    {REST : Json → Except String β} {big : Except String β} {out : β}
    (hv : validNullable (decide p) (objGet fs "gamePlan") = true)
    (hREST : REST (Json.obj fs) = .ok out) :
    (if truthy (objGet fs "gamePlan") = true then Except.ok (Json.obj fs) >>= REST
     else if p then setProp (Json.obj fs) "gamePlan" Json.null >>= REST
     else big) = .ok out := by
  by_cases ht : truthy (objGet fs "gamePlan") = true
  · rw [if_pos ht, ok_bind, hREST]
  · obtain ⟨hst, hnull⟩ := validNullable_falsy hv ht
    rw [if_neg ht, if_pos (of_decide_eq_true hst)]
    simp only [setProp_obj, ok_bind]
    rw [setField_self (objGet_eq_lookup hnull (by simp)), hREST]

theorem nullableSeq_ok {fs : List (String × Json)} {p : Prop} [Decidable p] {k : String}
    {dflt : Json} {β : Type} {REST : Json → Except String β} {out : β}
    (hv : validNullable (decide p) (objGet fs k) = true)
    (hREST : REST (Json.obj fs) = .ok out) :
    (if truthy (objGet fs k) = true then Except.ok (Json.obj fs) >>= REST
     else setProp (Json.obj fs) k (if p then Json.null else dflt) >>= REST) = .ok out := by
  by_cases ht : truthy (objGet fs k) = true
  · rw [if_pos ht, ok_bind, hREST]
  · obtain ⟨hst, hnull⟩ := validNullable_falsy hv ht
    rw [if_neg ht, if_pos (of_decide_eq_true hst)]
    simp only [setProp_obj, ok_bind]
    rw [setField_self (objGet_eq_lookup hnull (by simp)), hREST]

theorem validateBothMode_id (cfg : Config) (fs : List (String × Json))
    (hv : validReportBoth (getUserRoleType cfg.userRole = "study")
      (jsOrQ cfg.videoRounds 3) (.obj fs) = true) :
    validateBothMode cfg (.obj fs) = .ok (.obj fs) := by
  simp only [validReportBoth, Bool.and_eq_true] at hv
  obtain ⟨⟨⟨⟨⟨⟨⟨h1, h2⟩, h3⟩, h4⟩, h5⟩, h6⟩, h7⟩, h8⟩ := hv
  cases hf1 : objGet fs "fighter1Analysis" with
  | obj f1s => ?_
  | null => rw [hf1] at h1; simp [validBothFighter] at h1
  | undef => rw [hf1] at h1; simp [validBothFighter] at h1
  | bool b => rw [hf1] at h1; simp [validBothFighter] at h1
  | num q => rw [hf1] at h1; simp [validBothFighter] at h1
  | str s2 => rw [hf1] at h1; simp [validBothFighter] at h1
  | arr xs => rw [hf1] at h1; simp [validBothFighter] at h1
  cases hf2 : objGet fs "fighter2Analysis" with
  | obj f2s => ?_
  | null => rw [hf2] at h2; simp [validBothFighter] at h2
  | undef => rw [hf2] at h2; simp [validBothFighter] at h2
  | bool b => rw [hf2] at h2; simp [validBothFighter] at h2
  | num q => rw [hf2] at h2; simp [validBothFighter] at h2
  | str s2 => rw [hf2] at h2; simp [validBothFighter] at h2
  | arr xs => rw [hf2] at h2; simp [validBothFighter] at h2
  cases hma : objGet fs "matchupAnalysis" with
  | obj mas => ?_
  | null => rw [hma] at h3; simp [validMatchupAnalysis] at h3
  | undef => rw [hma] at h3; simp [validMatchupAnalysis] at h3
  | bool b => rw [hma] at h3; simp [validMatchupAnalysis] at h3
  | num q => rw [hma] at h3; simp [validMatchupAnalysis] at h3
  | str s2 => rw [hma] at h3; simp [validMatchupAnalysis] at h3
  | arr xs => rw [hma] at h3; simp [validMatchupAnalysis] at h3
  rw [hf1] at h1
  rw [hf2] at h2
  rw [hma] at h3
  have hop : truthy (objGet mas "opponentPreparation") = true := h3
  have hlf1 : lookupField fs "fighter1Analysis" = some (.obj f1s) :=
    objGet_eq_lookup hf1 (by simp)
  have hlf2 : lookupField fs "fighter2Analysis" = some (.obj f2s) :=
    objGet_eq_lookup hf2 (by simp)
  unfold validateBothMode
  rw [getProp_obj, ok_bind]
  try simp only []
  rw [hf1, if_pos (truthy_obj f1s)]
  try rw [pure_eq_ok]
  rw [ok_bind]
  try simp only []
  rw [getProp_obj, ok_bind]
  try simp only []
  rw [hf2, if_pos (truthy_obj f2s)]
  try rw [pure_eq_ok]
  rw [ok_bind]
  try simp only []
  rw [getProp_obj, ok_bind]
  try simp only []
  rw [hma, if_pos (truthy_obj mas)]
  try rw [pure_eq_ok]
  rw [ok_bind]
  try simp only []
  rw [getProp_obj, ok_bind]
  try simp only []
  rw [hma, if_pos (truthy_obj mas)]
  rw [getProp_obj, ok_bind]
  try simp only []
  rw [if_pos hop]
  try rw [pure_eq_ok]
  rw [ok_bind]
  try simp only []
  rw [foldlM_copy_id topLevelAnalysisFields fs h4, ok_bind]
  try simp only []
  rw [getProp_obj, ok_bind]
  try simp only []
  rw [hf1, validateSFA_id (jsOrS cfg.fighter1Name "Fighter 1")
    (jsOrQ cfg.videoRounds 3) f1s h1, ok_bind]
  try simp only []
  rw [setProp_obj, ok_bind]
  try simp only []
  rw [setField_self hlf1]
  rw [getProp_obj, ok_bind]
  try simp only []
  rw [hf2, validateSFA_id (jsOrS cfg.fighter2Name "Fighter 2")
    (jsOrQ cfg.videoRounds 3) f2s h2, ok_bind]
  try simp only []
  rw [setProp_obj, ok_bind]
  try simp only []
  rw [setField_self hlf2]
  rw [getProp_obj, ok_bind]
  try simp only []
  simp only [pure_eq_ok]
  refine gpSeq_ok h5 ?_
  try simp only []
  rw [getProp_obj, ok_bind]
  try simp only []
  refine nullableSeq_ok h6 ?_
  try simp only []
  rw [getProp_obj, ok_bind]
  try simp only []
  refine nullableSeq_ok h7 ?_
  try simp only []
  rw [getProp_obj, ok_bind]
  try simp only []
  refine nullableSeq_ok h8 ?_
  try simp only []

/-- C9.  The Report Normalizer is idempotent on valid reports: for every
configuration and every report that is already fully populated with
correctly typed sections (relative to the configuration's mode, role and
round counts), normalization returns the report unchanged. -/
theorem c9_normalizer_idempotent (cfg : Config) (data : Json)
    (hv : validReport cfg data = true) :
    validateAndFixAnalysisData cfg data = .ok data := by
  unfold validReport at hv
  by_cases hm : cfg.analysisType = some "both"
  · rw [if_pos hm] at hv
    cases data with
    | obj fs =>
      unfold validateAndFixAnalysisData
      rw [if_pos hm]
      exact validateBothMode_id cfg fs hv
    | null => simp [validReportBoth] at hv
    | undef => simp [validReportBoth] at hv
    | bool b => simp [validReportBoth] at hv
    | num q => simp [validReportBoth] at hv
    | str s2 => simp [validReportBoth] at hv
    | arr xs => simp [validReportBoth] at hv
  · rw [if_neg hm] at hv
    cases data with
    | obj fs => exact validateSingle_id cfg fs hm hv
    | null => simp [validReportSingle] at hv
    | undef => simp [validReportSingle] at hv
    | bool b => simp [validReportSingle] at hv
    | num q => simp [validReportSingle] at hv
    | str s2 => simp [validReportSingle] at hv
    | arr xs => simp [validReportSingle] at hv

/-- Witness for C9 at a concrete valid study-role report. -/
theorem c9_normalizer_idempotent_witness :
    validReport cfgValidW dataValidW = true ∧
    validateAndFixAnalysisData cfgValidW dataValidW = .ok dataValidW :=
  ⟨by decide, c9_normalizer_idempotent cfgValidW dataValidW (by decide)⟩

end FightLab
